import Mathlib

/-!
# x_clipboard: selection consumer (`paste.cc`) and selection producer (`selection.cc`)

A shallow embedding of the negotiation and protocol logic of the two programs.

Conventions of the embedding.

* Atoms, windows and timestamps are X resource identifiers, modelled by `Nat`;
  `None`, `CurrentTime` and the predefined atoms carry their values from the X headers.
* A C array handed over as pointer and element count is a `List`.
* `int` values are `Int`; where the programs compute on them the result is reduced to
  32 bits by `wrap_int`.
* `std::map` is the list of its entries in iteration order (`StdMap`).
* The X server (the display connection) is a value of type `Display`: the atom names and
  the properties attached to windows. Requests that only travel to the server
  (`XConvertSelection`, `XSendEvent`) are recorded in the order they are issued.
* Diagnostic output (`cerr` in `paste.cc`, `cout` in `selection.cc`) feeds no control flow
  and is left out, and so is the cursor the drag source sets.
* One round of an event loop is a function of the variables of `main`, of the event, and of
  what the server reports in that round: the display, and for the drag source the outcome
  of the pointer calls (`Pointer`).
-/

namespace XClipboard

/-! ## X protocol data -/

/-- An `Atom` of Xlib: a numeric handle of a name. -/
abbrev Atom := Nat

/-- A `Window` of Xlib. -/
abbrev Window := Nat

/-- A `Time` of Xlib. -/
abbrev Time := Nat

/-- The universal null resource or atom of `X.h`. -/
def None : Nat := 0

/-- The generic timestamp of `X.h`. -/
def CurrentTime : Time := 0

/-- Predefined atom `PRIMARY` of `Xatom.h`. -/
def XA_PRIMARY : Atom := 1

/-- Predefined atom `ATOM` of `Xatom.h`. -/
def XA_ATOM : Atom := 4

/-- Predefined atom `STRING` of `Xatom.h`. -/
def XA_STRING : Atom := 31

/-- Predefined atom `WINDOW` of `Xatom.h`. -/
def XA_WINDOW : Atom := 33

/-- The largest `int`. -/
def INT_MAX : Int := 2147483647

/-- The smallest `int`. -/
def INT_MIN : Int := -2147483648

/-- The value of a 32 bit two's complement `int` holding `x` modulo `2^32`. -/
def wrap_int (x : Int) : Int := (x + 2147483648) % 4294967296 - 2147483648

/-! ## `std::map` -/

/-- A `std::map<K,V>`, given by its entries in iteration order. -/
structure StdMap (K V : Type) where
  entries : List (K × V)
deriving Repr

namespace StdMap

variable {K V : Type} [DecidableEq K]

/-- Lookup in a list of entries: the value of the first entry with key `k`. -/
def lookup (k : K) : List (K × V) → Option V
  | [] => none
  | (k', v) :: rest => if k' = k then some v else lookup k rest

/-- The method `find`: `some v` for an iterator to the entry `(k, v)`, `none` for `end()`. -/
def find (m : StdMap K V) (k : K) : Option V := lookup k m.entries

/-- The method `count`: 1 when the key is present, 0 otherwise. -/
def count (m : StdMap K V) (k : K) : Nat := if (m.find k).isSome then 1 else 0

/-- The method `empty`. -/
def empty (m : StdMap K V) : Bool := m.entries.isEmpty

/-- The method `size`. -/
def size (m : StdMap K V) : Nat := m.entries.length

/-- The keys in iteration order. -/
def keys (m : StdMap K V) : List K := m.entries.map Prod.fst

/-- The representation invariant of `std::map`: keys strictly increasing in iteration order. -/
def WF [LT K] (m : StdMap K V) : Prop := m.keys.Pairwise (· < ·)

end StdMap

/-! ## The display -/

/-- The value of a window property held by the server: its type, its element width in bits
(8, 16 or 32) and its elements. -/
structure StoredProperty where
  type : Atom
  format : Nat
  data : List Nat
deriving DecidableEq, Repr

/-- The server side of a display connection: the session's atom names and the properties
attached to windows. `XGetAtomName` is taken to answer for every atom it is asked about. -/
structure Display where
  XGetAtomName : Atom → String
  properties : Window → Atom → Option StoredProperty

/-- `GetAtomName`, identical in `paste.cc:137` and `selection.cc:57`. -/
def GetAtomName (disp : Display) (a : Atom) : String :=
  if a = None then "None" else disp.XGetAtomName a

/-! ## `paste.cc`: the target negotiator -/

/-- The loop of `pick_target_from_list` (`paste.cc:201-215`) over the atoms not yet visited,
carrying `to_be_requested` and `priority`. -/
def pick_target_loop (disp : Display) (datatypes : StdMap String Int) :
    List Atom → Atom → Int → Atom × Int
  | [], to_be_requested, priority => (to_be_requested, priority)
  | a :: rest, to_be_requested, priority =>
    let atom_name := GetAtomName disp a
    match datatypes.find atom_name with
    | some rank =>
      if priority > rank then pick_target_loop disp datatypes rest a rank
      else pick_target_loop disp datatypes rest to_be_requested priority
    | none => pick_target_loop disp datatypes rest to_be_requested priority

/-- `pick_target_from_list` (`paste.cc:195-218`); `atom_list` holds the `nitems` atoms. -/
def pick_target_from_list (disp : Display) (atom_list : List Atom)
    (datatypes : StdMap String Int) : Atom :=
  (pick_target_loop disp datatypes atom_list None INT_MAX).1

/-- `pick_target_from_atoms` (`paste.cc:222-237`). -/
def pick_target_from_atoms (disp : Display) (t1 t2 t3 : Atom)
    (datatypes : StdMap String Int) : Atom :=
  let atoms : List Atom := []
  let atoms := if t1 ≠ None then atoms ++ [t1] else atoms
  let atoms := if t2 ≠ None then atoms ++ [t2] else atoms
  let atoms := if t3 ≠ None then atoms ++ [t3] else atoms
  pick_target_from_list disp atoms datatypes

/-- The `Property` of `paste.cc:145`: a client side copy of a property. `data` holds the
elements Xlib returned (one `char`, `short` or `long` per element for format 8, 16, 32). -/
structure Property where
  data : List Nat
  format : Int
  nitems : Int
  type : Atom
deriving DecidableEq, Repr

/-- The array `(Atom*)p.data` of `p.nitems` atoms read by `pick_target_from_targets`. -/
def Property.atom_list (p : Property) : List Atom := p.data.take p.nitems.toNat

/-- `pick_target_from_targets` (`paste.cc:241-264`). -/
def pick_target_from_targets (disp : Display) (XA_TARGETS : Atom) (p : Property)
    (datatypes : StdMap String Int) : Atom :=
  if (p.type ≠ XA_ATOM ∧ p.type ≠ XA_TARGETS) ∨ p.format ≠ 32 then
    if datatypes.count "STRING" ≠ 0 then XA_STRING else None
  else
    pick_target_from_list disp p.atom_list datatypes

/-! ## Events and requests -/

/-- The fields of an `XSelectionRequestEvent` the programs read. -/
structure XSelectionRequestEvent where
  owner : Window
  requestor : Window
  selection : Atom
  target : Atom
  property : Atom
  time : Time
deriving DecidableEq, Repr

/-- The fields of an `XSelectionEvent` (a `SelectionNotify`) the programs read or set. -/
structure XSelectionEvent where
  requestor : Window
  selection : Atom
  target : Atom
  property : Atom
  time : Time
deriving DecidableEq, Repr

/-- The fields of an `XClientMessageEvent` the programs read or set; `l0` to `l4` are the
five `long` words `data.l[0..4]`. -/
structure XClientMessageEvent where
  window : Window
  message_type : Atom
  format : Int
  l0 : Int
  l1 : Int
  l2 : Int
  l3 : Int
  l4 : Int
deriving DecidableEq, Repr

/-- An `XEvent`, tagged by its `type`. -/
inductive XEvent where
  | SelectionClear
  | SelectionRequest (xselectionrequest : XSelectionRequestEvent)
  | SelectionNotify (xselection : XSelectionEvent)
  | ClientMessage (xclient : XClientMessageEvent)
  | MotionNotify
  | ButtonRelease (button : Nat)
  | Other
deriving DecidableEq, Repr

/-- A request that leaves the program towards the server. -/
inductive XRequest where
  | ConvertSelection (selection target property : Atom) (requestor : Window) (time : Time)
  | SendEvent (w : Window) (propagate : Bool) (event_mask : Nat) (event_send : XEvent)
deriving DecidableEq, Repr

/-- The value of a `long` holding `x` modulo `2^64`. -/
def wrap_long (x : Int) : Int :=
  (x + 9223372036854775808) % 18446744073709551616 - 9223372036854775808

/-- Conversion of a `long` to `unsigned long` (`Window`, `Atom`, `Time`). -/
def ulong_of (x : Int) : Nat := (x % 18446744073709551616).toNat

/-- Conversion of an `unsigned long` to `long`. -/
def long_of (n : Nat) : Int := wrap_long n

/-! ## The property store -/

/-- `XChangeProperty` in mode `PropModeReplace`: the whole value of the property is
replaced; `data` holds the `nelements` elements. -/
def XChangeProperty (disp : Display) (w : Window) (property type : Atom) (format : Nat)
    (data : List Nat) : Display :=
  { disp with
    properties := fun w' p' =>
      if w' = w ∧ p' = property then some { type := type, format := format, data := data }
      else disp.properties w' p' }

/-- `XDeleteProperty`. -/
def XDeleteProperty (disp : Display) (w : Window) (property : Atom) : Display :=
  { disp with
    properties := fun w' p' =>
      if w' = w ∧ p' = property then none else disp.properties w' p' }

/-- What one call of `XGetWindowProperty` hands back. -/
structure GetPropertyReply where
  actual_type : Atom
  actual_format : Int
  nitems : Nat
  bytes_after : Nat
  prop : List Nat
deriving DecidableEq, Repr

/-- `XGetWindowProperty` with `delete = False` and `req_type = AnyPropertyType`, after the
Xlib manual: with `N` the length of the value in bytes, `I = 4 * long_offset`, `T = N - I`,
`L = min T (4 * long_length)` and `A = N - (I + L)`, the call returns the `L` bytes from
index `I` on and reports `A` bytes as unread. An absent property gives type `None`,
format 0 and nothing else. -/
def XGetWindowProperty (disp : Display) (w : Window) (property : Atom)
    (long_offset long_length : Nat) : GetPropertyReply :=
  match disp.properties w property with
  | none =>
    { actual_type := None, actual_format := 0, nitems := 0, bytes_after := 0, prop := [] }
  | some v =>
    let unit := v.format / 8
    let N := v.data.length * unit
    let I := 4 * long_offset
    let T := N - I
    let L := min T (4 * long_length)
    let A := N - (I + L)
    { actual_type := v.type, actual_format := v.format, nitems := L / unit,
      bytes_after := A, prop := (v.data.drop (I / unit)).take (L / unit) }

/-- The argument `long_length` of `XGetWindowProperty`, a `long`, as the request carries it:
a 32 bit unsigned count of 32 bit units. -/
def long_length_of (read_bytes : Int) : Nat := (read_bytes % 4294967296).toNat

/-- The `do ... while` loop of `read_property` (`paste.cc:170-179`). Each round probes with
`read_bytes`, then doubles it in `int`. The result holds the lengths of the probes in the
order they were made, and the `Property` built from the last reply when the loop has ended.
The first argument counts the rounds left. -/
def read_property_loop (disp : Display) (w : Window) (property : Atom) :
    Nat → Int → List Nat × Option Property
  | 0, _ => ([], none)
  | rounds + 1, read_bytes =>
    let r := XGetWindowProperty disp w property 0 (long_length_of read_bytes)
    if r.bytes_after ≠ 0 then
      (long_length_of read_bytes ::
         (read_property_loop disp w property rounds (wrap_int (read_bytes * 2))).1,
       (read_property_loop disp w property rounds (wrap_int (read_bytes * 2))).2)
    else
      ([long_length_of read_bytes],
       some { data := r.prop, format := r.actual_format, nitems := wrap_int r.nitems,
              type := r.actual_type })

/-- The lengths `read_property` (`paste.cc:158-189`) passes to `XGetWindowProperty`, in the
order of the calls. -/
def read_property_probes (disp : Display) (w : Window) (property : Atom) : List Nat :=
  (read_property_loop disp w property 23 1024).1

/-- `read_property` (`paste.cc:158-189`). After 22 doublings `read_bytes` is 0 and stays 0, so
23 rounds decide whether the loop ends; `none` stands for a loop that does not end. -/
def read_property (disp : Display) (w : Window) (property : Atom) : Option Property :=
  (read_property_loop disp w property 23 1024).2

/-- The `char`s of one element of a client side buffer, least significant first: a format 8
element is one `char`, a format 16 element a `short` of two, a format 32 element a `long` of
eight. -/
def element_chars (format : Int) (x : Nat) : List Nat :=
  if format = 8 then [x]
  else if format = 16 then [x % 256, x / 256 % 256]
  else (List.range 8).map (fun i => x / 256 ^ i % 256)

/-- The buffer `(char*)p.data`. -/
def Property.chars (p : Property) : List Nat := p.data.flatMap (element_chars p.format)

/-- The `streamsize` of `cout.write` in `paste.cc:551`: `prop.nitems * prop.format / 8`,
computed in `int`. -/
def Property.write_count (p : Property) : Int := Int.tdiv (wrap_int (p.nitems * p.format)) 8

/-- The bytes `cout.write((char*)prop.data, prop.nitems * prop.format/8)` emits. -/
def Property.written (p : Property) : List Nat := p.chars.take p.write_count.toNat

/-! ## `selection.cc`: the selection producer -/

/-- The global atoms of `selection.cc:26-46`, interned at the start of `main`. -/
structure Globals where
  XA_TARGETS : Atom
  XA_multiple : Atom
  XA_image_bmp : Atom
  XA_image_jpg : Atom
  XA_image_tiff : Atom
  XA_image_png : Atom
  XA_text_uri_list : Atom
  XA_text_uri : Atom
  XA_text_plain : Atom
  XA_text : Atom
  XA_XdndSelection : Atom
  XA_XdndAware : Atom
  XA_XdndEnter : Atom
  XA_XdndLeave : Atom
  XA_XdndTypeList : Atom
  XA_XdndPosition : Atom
  XA_XdndActionCopy : Atom
  XA_XdndStatus : Atom
  XA_XdndDrop : Atom
  XA_XdndFinished : Atom
deriving DecidableEq, Repr

/-- The `map<Atom, string>` of `selection.cc`; a `string` is the list of its bytes. -/
abbrev TypedDataMap := StdMap Atom (List Nat)

/-- The value `typed_data[target]` for a key that is present (the empty string otherwise). -/
def TypedDataMap.at_key (typed_data : TypedDataMap) (target : Atom) : List Nat :=
  (typed_data.find target).getD []

/-- `set_targets_property` (`selection.cc:97-116`). -/
def set_targets_property (g : Globals) (disp : Display) (w : Window)
    (typed_data : TypedDataMap) (property : Atom) : Display :=
  let targets : List Atom := [g.XA_TARGETS] ++ [g.XA_multiple]
  let targets := targets ++ typed_data.keys
  XChangeProperty disp w property XA_ATOM 32 targets

/-- `process_selection_request` (`selection.cc:123-208`): the display after the call and
the events sent. -/
def process_selection_request (g : Globals) (disp : Display) (e : XEvent)
    (typed_data : TypedDataMap) : Display × List XRequest :=
  match e with
  | XEvent.SelectionRequest r =>
    let selection := r.selection
    let target := r.target
    let property := r.property
    let requestor := r.requestor
    let timestamp := r.time
    let s : XSelectionEvent :=
      { requestor := requestor, selection := selection, target := target,
        property := None, time := timestamp }
    if target = g.XA_TARGETS then
      (set_targets_property g disp requestor typed_data property,
        [XRequest.SendEvent r.requestor true 0
          (XEvent.SelectionNotify { s with property := property })])
    else if typed_data.count target ≠ 0 then
      (XChangeProperty disp requestor property target 8 (typed_data.at_key target),
        [XRequest.SendEvent r.requestor true 0
          (XEvent.SelectionNotify { s with property := property })])
    else if target = g.XA_multiple then
      (disp, [XRequest.SendEvent r.requestor true 0 (XEvent.SelectionNotify s)])
    else
      (disp, [XRequest.SendEvent r.requestor true 0 (XEvent.SelectionNotify s)])
  | _ => (disp, [])

/-! ## `paste.cc`: the event loop of the consumer -/

/-- The variables of `main` in `paste.cc` that are fixed when the event loop starts. -/
structure PasteConfig where
  XA_TARGETS : Atom
  sel : Atom
  root : Window
  w : Window
  drop_window : Window
  do_xdnd : Int
  datatypes : StdMap String Int
  XdndEnter : Atom
  XdndPosition : Atom
  XdndStatus : Atom
  XdndTypeList : Atom
  XdndActionCopy : Atom
  XdndDrop : Atom
  XdndLeave : Atom
  XdndFinished : Atom
  XdndSelection : Atom
  XdndProxy : Atom

/-- The variables of `main` in `paste.cc` the event loop updates (`paste.cc:391-394`). -/
structure PasteState where
  to_be_requested : Atom
  sent_request : Bool
  xdnd_version : Int
  xdnd_source_window : Window
deriving DecidableEq, Repr

/-- The state at the first round of the loop. -/
def PasteState.initial : PasteState :=
  { to_be_requested := None, sent_request := false, xdnd_version := 0,
    xdnd_source_window := None }

/-- What one round of the event loop of `paste.cc` does: the variables and the display
afterwards, the requests issued, the bytes written to `cout`, and the value `main` returns
when the round ends the program. -/
structure PasteStep where
  state : PasteState
  disp : Display
  requests : List XRequest
  cout : List Nat
  exit_code : Option Int

/-- The branch `e.type == ClientMessage` (`paste.cc:400-506`). The local `m` is not
initialised (`memset(&m, sizeof(m), 0)` fills zero bytes), so the fields the code does not
assign keep the indeterminate value `m`. `none` stands for a `read_property` that does not
return. -/
def paste_client_message (cfg : PasteConfig) (disp : Display) (st : PasteState)
    (m : XClientMessageEvent) (xclient : XClientMessageEvent) : Option PasteStep :=
  if xclient.message_type = cfg.XdndEnter then
    -- `data.l[1] & 1`
    let more_than_3 : Bool := xclient.l1 % 2 ≠ 0
    let source : Window := ulong_of xclient.l0
    let xdnd_version := wrap_int (xclient.l1 >>> 24)
    if more_than_3 then
      match read_property disp source cfg.XdndTypeList with
      | none => none
      | some p =>
        some { state := { st with xdnd_version := xdnd_version,
                                  to_be_requested :=
                                    pick_target_from_targets disp cfg.XA_TARGETS p cfg.datatypes },
               disp := disp, requests := [], cout := [], exit_code := none }
    else
      some { state := { st with xdnd_version := xdnd_version,
                                to_be_requested :=
                                  pick_target_from_atoms disp (ulong_of xclient.l2)
                                    (ulong_of xclient.l3) (ulong_of xclient.l4) cfg.datatypes },
             disp := disp, requests := [], cout := [], exit_code := none }
  else if xclient.message_type = cfg.XdndPosition then
    let m : XClientMessageEvent :=
      { m with window := ulong_of xclient.l0, message_type := cfg.XdndStatus, format := 32,
               l0 := long_of cfg.drop_window,
               l1 := if st.to_be_requested ≠ None then 1 else 0,
               l2 := 0, l3 := 0, l4 := long_of cfg.XdndActionCopy }
    some { state := st, disp := disp,
           requests := [XRequest.SendEvent (ulong_of xclient.l0) false 0 (XEvent.ClientMessage m)],
           cout := [], exit_code := none }
  else if xclient.message_type = cfg.XdndLeave then
    some { state := st, disp := disp, requests := [], cout := [], exit_code := none }
  else if xclient.message_type = cfg.XdndDrop then
    if st.to_be_requested = None then
      let m : XClientMessageEvent :=
        { m with window := ulong_of xclient.l0, message_type := cfg.XdndFinished, format := 32,
                 l0 := long_of cfg.drop_window, l1 := 0, l2 := long_of None }
      some { state := st, disp := disp,
             requests := [XRequest.SendEvent (ulong_of xclient.l0) false 0 (XEvent.ClientMessage m)],
             cout := [], exit_code := none }
    else
      let st := { st with xdnd_source_window := ulong_of xclient.l0 }
      if st.xdnd_version ≥ 1 then
        some { state := st, disp := disp,
               requests := [XRequest.ConvertSelection cfg.XdndSelection st.to_be_requested
                              cfg.sel cfg.w (ulong_of xclient.l2)],
               cout := [], exit_code := none }
      else
        some { state := st, disp := disp,
               requests := [XRequest.ConvertSelection cfg.XdndSelection st.to_be_requested
                              cfg.sel cfg.w CurrentTime],
               cout := [], exit_code := none }
  else
    some { state := st, disp := disp, requests := [], cout := [], exit_code := none }

/-- The branch `e.type == SelectionNotify` (`paste.cc:508-586`). -/
def paste_selection_notify (cfg : PasteConfig) (disp : Display) (st : PasteState)
    (m : XClientMessageEvent) (xselection : XSelectionEvent) : Option PasteStep :=
  let target := xselection.target
  if xselection.property = None then
    some { state := st, disp := disp, requests := [], cout := [],
           exit_code := some (2 + (if target = cfg.XA_TARGETS then 1 else 0)) }
  else
    match read_property disp cfg.w cfg.sel with
    | none => none
    | some prop =>
      if target = cfg.XA_TARGETS ∧ st.sent_request = false then
        let st := { st with sent_request := true }
        let st := { st with to_be_requested :=
                              pick_target_from_targets disp cfg.XA_TARGETS prop cfg.datatypes }
        if st.to_be_requested = None then
          some { state := st, disp := disp, requests := [], cout := [], exit_code := some 1 }
        else
          some { state := st, disp := disp,
                 requests := [XRequest.ConvertSelection cfg.sel st.to_be_requested cfg.sel
                                cfg.w CurrentTime],
                 cout := [], exit_code := none }
      else if target = st.to_be_requested then
        if cfg.do_xdnd ≠ 0 then
          let m : XClientMessageEvent :=
            { m with window := st.xdnd_source_window, message_type := cfg.XdndFinished,
                     format := 32, l0 := long_of cfg.w, l1 := 1,
                     l2 := long_of cfg.XdndActionCopy }
          some { state := st,
                 disp := if cfg.do_xdnd = 2 then XDeleteProperty disp cfg.root cfg.XdndProxy
                         else disp,
                 requests := [XRequest.SendEvent st.xdnd_source_window false 0
                                (XEvent.ClientMessage m)],
                 cout := prop.written, exit_code := some 0 }
        else
          some { state := st, disp := disp, requests := [], cout := prop.written,
                 exit_code := some 0 }
      else
        some { state := st, disp := disp, requests := [], cout := [], exit_code := some 0 }

/-- One round of the event loop of `paste.cc` (`paste.cc:396-587`) on the event `e`. -/
def paste_event (cfg : PasteConfig) (disp : Display) (st : PasteState)
    (m : XClientMessageEvent) (e : XEvent) : Option PasteStep :=
  match e with
  | XEvent.ClientMessage xclient => paste_client_message cfg disp st m xclient
  | XEvent.SelectionNotify xselection => paste_selection_notify cfg disp st m xselection
  | _ => some { state := st, disp := disp, requests := [], cout := [], exit_code := none }

/-- What one round of the event loop of `paste.cc` meets: the display as it stands when the
event is taken, the indeterminate contents of the local `m`, and the event that
`XNextEvent` delivers. -/
structure PasteInput where
  disp : Display
  m : XClientMessageEvent
  e : XEvent

/-- The rounds of the event loop of `paste.cc` on the inputs given, from the variables `st`:
the loop goes on while a round ends without returning from `main`, and waits when the inputs
are used up. -/
def paste_run (cfg : PasteConfig) : PasteState → List PasteInput → List PasteStep
  | _, [] => []
  | st, i :: rest =>
    match paste_event cfg i.disp st i.m i.e with
    | none => []
    | some step =>
      match step.exit_code with
      | some _ => [step]
      | none => step :: paste_run cfg step.state rest

/-! ## `selection.cc`: the event loop of the drag source -/

/-- The status `UNAWARE` of `selection.cc:52`. -/
def UNAWARE : Int := 0

/-- The status `UNRECEPTIVE` of `selection.cc:53`. -/
def UNRECEPTIVE : Int := 1

/-- The status `CAN_DROP` of `selection.cc:54`. -/
def CAN_DROP : Int := 2

/-- `find_app_window` (`selection.cc:212-242`). `XListProperties` lists `XdndAware` exactly
when the window has that property. The second argument holds what the successive
`XQueryPointer` calls report as the child under the pointer, from the child of `w` downward;
past its end the child is `None`. -/
def find_app_window (g : Globals) (disp : Display) : Window → List Window → Window
  | w, [] =>
    if w = 0 then 0
    else if (disp.properties w g.XA_XdndAware).isSome then w
    else 0
  | w, child :: rest =>
    if w = 0 then 0
    else if (disp.properties w g.XA_XdndAware).isSome then w
    else find_app_window g disp child rest

/-- The variables of `main` in `selection.cc` that are fixed when the event loop starts. -/
structure DragConfig where
  root : Window
  w : Window
  typed_data : TypedDataMap

/-- The variables of `main` in `selection.cc` the event loop updates
(`selection.cc:345-348`). -/
structure DragState where
  dragging : Bool
  previous_window : Window
  previous_version : Int
  status : Int
deriving DecidableEq, Repr

/-- The state at the first round of the loop. -/
def DragState.initial : DragState :=
  { dragging := false, previous_window := 0, previous_version := -1, status := UNAWARE }

/-- What the pointer calls of one round report: whether `XGrabPointer` returns
`GrabSuccess`, the chain of children `XQueryPointer` reports below the root, and the
position `XQueryPointer` reports relative to the window found. -/
structure Pointer where
  grab_success : Bool
  children : List Window
  x : Int
  y : Int
deriving DecidableEq, Repr

/-- The calls of the drag source that act on the pointer grab and on selection ownership. -/
inductive DragCall where
  | SetSelectionOwner (selection : Atom) (owner : Window) (time : Time)
  | UngrabPointer (time : Time)
deriving DecidableEq, Repr

/-- What one round of the event loop of `selection.cc` does: the variables and the display
afterwards, the events sent, the grab and ownership calls, and the value `main` returns when
the round ends the program. The cursor set by `XChangeActivePointerGrab` is left out. -/
structure DragStep where
  state : DragState
  disp : Display
  requests : List XRequest
  calls : List DragCall
  exit_code : Option Int

/-- The version found for `window` in the `MotionNotify` branch (`selection.cc:402-418`).
`XGetWindowProperty` is taken to return `Success`; its buffer is null exactly when the
property does not exist; `data[0]` is the first `char` of the buffer. -/
def motion_version (g : Globals) (disp : Display) (st : DragState) (window : Window) : Int :=
  if window = st.previous_window then st.previous_version
  else if window = None then -1
  else
    let r := XGetWindowProperty disp window g.XA_XdndAware 0 2
    if (disp.properties window g.XA_XdndAware).isNone then -1
    else if r.actual_format ≠ 32 then -1
    else if r.nitems ≠ 1 then -1
    else Int.ofNat ((r.prop.flatMap (element_chars r.actual_format)).headD 0)

/-- The `XdndLeave` message of `selection.cc:441-452`. -/
def leave_message (g : Globals) (cfg : DragConfig) (previous_window : Window) :
    XClientMessageEvent :=
  { window := previous_window, message_type := g.XA_XdndLeave, format := 32,
    l0 := long_of cfg.w, l1 := 0, l2 := 0, l3 := 0, l4 := 0 }

/-- The `XdndEnter` message of `selection.cc:463-476`; the shift is computed in `int`. -/
def enter_message (g : Globals) (cfg : DragConfig) (window : Window) (version : Int) :
    XClientMessageEvent :=
  { window := window, message_type := g.XA_XdndEnter, format := 32,
    l0 := long_of cfg.w,
    l1 := Int.lor (wrap_int (min 5 version * 16777216))
            (if cfg.typed_data.size > 3 then 1 else 0),
    l2 := if cfg.typed_data.size > 0 then long_of (cfg.typed_data.keys.getD 0 0) else 0,
    l3 := if cfg.typed_data.size > 1 then long_of (cfg.typed_data.keys.getD 1 0) else 0,
    l4 := if cfg.typed_data.size > 2 then long_of (cfg.typed_data.keys.getD 2 0) else 0 }

/-- The `XdndPosition` message of `selection.cc:504-515`; `(x << 16) | y` is computed in
`int`. -/
def position_message (g : Globals) (cfg : DragConfig) (window : Window) (x y : Int) :
    XClientMessageEvent :=
  { window := window, message_type := g.XA_XdndPosition, format := 32,
    l0 := long_of cfg.w, l1 := 0, l2 := Int.lor (wrap_int (x * 65536)) y,
    l3 := long_of CurrentTime, l4 := long_of g.XA_XdndActionCopy }

/-- The `XdndDrop` message of `selection.cc:541-552`. -/
def drop_message (g : Globals) (cfg : DragConfig) (previous_window : Window) :
    XClientMessageEvent :=
  { window := previous_window, message_type := g.XA_XdndDrop, format := 32,
    l0 := long_of cfg.w, l1 := 0, l2 := long_of CurrentTime, l3 := 0, l4 := 0 }

/-- The branch `e.type == MotionNotify` while dragging (`selection.cc:384-531`). -/
def selection_motion (g : Globals) (cfg : DragConfig) (disp : Display) (ptr : Pointer)
    (st : DragState) : DragStep :=
  let window := find_app_window g disp cfg.root ptr.children
  let version := motion_version g disp st window
  let status :=
    if st.status = UNAWARE ∧ version ≠ -1 then UNRECEPTIVE
    else if version = -1 then UNAWARE
    else st.status
  let leave : List XRequest :=
    if window ≠ st.previous_window ∧ st.previous_version ≠ -1 then
      [XRequest.SendEvent st.previous_window false 0
        (XEvent.ClientMessage (leave_message g cfg st.previous_window))]
    else []
  let enter : List XRequest :=
    if window ≠ st.previous_window ∧ version ≠ -1 then
      [XRequest.SendEvent window false 0
        (XEvent.ClientMessage (enter_message g cfg window version))]
    else []
  let position : List XRequest :=
    if version ≠ -1 then
      [XRequest.SendEvent window false 0
        (XEvent.ClientMessage (position_message g cfg window ptr.x ptr.y))]
    else []
  { state := { st with status := status, previous_window := window,
                       previous_version := version },
    disp := disp, requests := leave ++ enter ++ position, calls := [], exit_code := none }

/-- The branch for the release of button 1 while dragging (`selection.cc:532-565`). -/
def selection_button_release (g : Globals) (cfg : DragConfig) (disp : Display)
    (st : DragState) : DragStep :=
  let drop : List XRequest :=
    if st.status = CAN_DROP then
      [XRequest.SendEvent st.previous_window false 0
        (XEvent.ClientMessage (drop_message g cfg st.previous_window))]
    else []
  { state := { dragging := false, status := UNAWARE, previous_window := None,
               previous_version := -1 },
    disp := disp, requests := drop, calls := [DragCall.UngrabPointer CurrentTime],
    exit_code := none }

/-- The branch for an `XdndStatus` message (`selection.cc:566-601`). -/
def selection_status (disp : Display) (st : DragState) (xclient : XClientMessageEvent) :
    DragStep :=
  let st :=
    if st.dragging then
      -- `data.l[1] & 1`
      let st := if xclient.l1 % 2 ≠ 0 ∧ st.status ≠ UNAWARE then { st with status := CAN_DROP }
                else st
      let st := if ¬ (xclient.l1 % 2 ≠ 0) ∧ st.status ≠ UNAWARE then
                  { st with status := UNRECEPTIVE }
                else st
      st
    else st
  { state := st, disp := disp, requests := [], calls := [], exit_code := none }

/-- One round of the event loop of `selection.cc` (`selection.cc:358-613`) on the event
`e`. -/
def selection_event (g : Globals) (cfg : DragConfig) (disp : Display) (ptr : Pointer)
    (st : DragState) (e : XEvent) : DragStep :=
  match e with
  | XEvent.SelectionClear =>
    { state := st, disp := disp, requests := [], calls := [], exit_code := some 0 }
  | XEvent.SelectionRequest _ =>
    let r := process_selection_request g disp e cfg.typed_data
    { state := st, disp := r.1, requests := r.2, calls := [], exit_code := none }
  | XEvent.MotionNotify =>
    if st.dragging = false then
      if ptr.grab_success then
        { state := { st with dragging := true }, disp := disp, requests := [],
          calls := [DragCall.SetSelectionOwner g.XA_XdndSelection cfg.w CurrentTime],
          exit_code := none }
      else
        { state := st, disp := disp, requests := [], calls := [], exit_code := none }
    else selection_motion g cfg disp ptr st
  | XEvent.ButtonRelease button =>
    if st.dragging ∧ button = 1 then selection_button_release g cfg disp st
    else { state := st, disp := disp, requests := [], calls := [], exit_code := none }
  | XEvent.ClientMessage xclient =>
    if xclient.message_type = g.XA_XdndStatus then selection_status disp st xclient
    else { state := st, disp := disp, requests := [], calls := [], exit_code := none }
  | XEvent.SelectionNotify _ =>
    { state := st, disp := disp, requests := [], calls := [], exit_code := none }
  | XEvent.Other =>
    { state := st, disp := disp, requests := [], calls := [], exit_code := none }

/-- What one round of the event loop of `selection.cc` meets: the display as it stands when
the event is taken, what the pointer calls report, and the event that `XNextEvent`
delivers. -/
structure DragInput where
  disp : Display
  ptr : Pointer
  e : XEvent

/-- The rounds of the event loop of `selection.cc` on the inputs given, from the variables
`st`: the loop goes on until a round returns from `main`, and waits when the inputs are
used up. -/
def selection_run (g : Globals) (cfg : DragConfig) : DragState → List DragInput → List DragStep
  | _, [] => []
  | st, i :: rest =>
    match (selection_event g cfg i.disp i.ptr st i.e).exit_code with
    | some _ => [selection_event g cfg i.disp i.ptr st i.e]
    | none =>
      selection_event g cfg i.disp i.ptr st i.e ::
        selection_run g cfg (selection_event g cfg i.disp i.ptr st i.e).state rest

/-! ## `paste.cc`: the priority table -/

/-- The entries of a `std::map` after `m[k] = v`: the value of an entry with key `k` is
replaced, otherwise the entry is put in before the first greater key. -/
def StdMap.assign_entries {K V : Type} [DecidableEq K] [LT K]
    [DecidableRel (fun a b : K => a < b)] (k : K) (v : V) : List (K × V) → List (K × V)
  | [] => [(k, v)]
  | (k', v') :: rest =>
    if k' = k then (k, v) :: rest
    else if k < k' then (k, v) :: (k', v') :: rest
    else (k', v') :: StdMap.assign_entries k v rest

/-- The assignment `m[k] = v` of `std::map`. -/
def StdMap.assign {K V : Type} [DecidableEq K] [LT K] [DecidableRel (fun a b : K => a < b)]
    (m : StdMap K V) (k : K) (v : V) : StdMap K V :=
  ⟨StdMap.assign_entries k v m.entries⟩

/-- The loop `for(int i=2; i < argc; i++) datatypes[argv[i]] = i` (`paste.cc:303-306`) over
the arguments not yet visited, the first of which has the index `i`. -/
def datatypes_loop : List String → Int → StdMap String Int → StdMap String Int
  | [], _, datatypes => datatypes
  | arg :: rest, i, datatypes => datatypes_loop rest (i + 1) (datatypes.assign arg i)

/-- The priority table `datatypes` that `main` of `paste.cc` builds from `argv`
(`paste.cc:288-310`). -/
def main_datatypes (argv : List String) : StdMap String Int :=
  let datatypes := datatypes_loop (argv.drop 2) 2 ⟨[]⟩
  if datatypes.empty then datatypes.assign "STRING" 1 else datatypes

/-! ## Specification predicates -/

/-- The rank the priority table `P` gives to the name of the atom `a`, when it has one. -/
def rank_of (disp : Display) (P : StdMap String Int) (a : Atom) : Option Int :=
  P.find (GetAtomName disp a)

/-- Index `i` of the offer `O` holds an atom whose name is a key of `P` and whose rank is
the minimum over all offered names that are keys of `P`. -/
def IsBestOffer (disp : Display) (O : List Atom) (P : StdMap String Int) (i : Nat) : Prop :=
  ∃ (a : Atom) (r : Int), O[i]? = some a ∧ rank_of disp P a = some r ∧
    ∀ (j : Nat) (b : Atom) (s : Int), O[j]? = some b → rank_of disp P b = some s → r ≤ s

/-- The invariant of the loop of `pick_target_from_list` after the atoms `pre`: either
nothing was adopted and no visited name has a rank below `INT_MAX`, or the adopted atom
splits `pre` into atoms of strictly worse rank before it and atoms of no better rank after. -/
def PickInv (disp : Display) (P : StdMap String Int) (pre : List Atom)
    (to_be_requested : Atom) (priority : Int) : Prop :=
  (to_be_requested = None ∧ priority = INT_MAX ∧
      ∀ a ∈ pre, ∀ r, rank_of disp P a = some r → INT_MAX ≤ r) ∨
  (priority < INT_MAX ∧ rank_of disp P to_be_requested = some priority ∧
      ∃ l1 l2, pre = l1 ++ to_be_requested :: l2 ∧
        (∀ a ∈ l1, ∀ r, rank_of disp P a = some r → priority < r) ∧
        (∀ a ∈ l2, ∀ r, rank_of disp P a = some r → priority ≤ r))

/-- The number of rounds of a run that write at least one byte to `cout`. -/
def payload_writes (steps : List PasteStep) : Nat :=
  (steps.filter (fun s => !s.cout.isEmpty)).length

/-- The requests a run issues, in order. -/
def run_requests (steps : List PasteStep) : List XRequest := steps.flatMap (·.requests)

/-- The bytes a run writes to `cout`, in order. -/
def run_cout (steps : List PasteStep) : List Nat := steps.flatMap (·.cout)

/-- The value `main` returns at the end of a run, when it returns. -/
def run_exit_code (steps : List PasteStep) : Option Int := steps.getLast?.bind (·.exit_code)

/-- The invariant of the variables of the drag source: without a drag the session fields
are at their initial values; the status is one of the three defined, and it is `UNAWARE`
exactly when the version is -1; a version other than -1 belongs to a window other than
`None`. -/
def DragInv (st : DragState) : Prop :=
  (st.dragging = false →
    st.status = UNAWARE ∧ st.previous_window = None ∧ st.previous_version = -1) ∧
  (st.status = UNAWARE ↔ st.previous_version = -1) ∧
  (st.status = UNAWARE ∨ st.status = UNRECEPTIVE ∨ st.status = CAN_DROP) ∧
  (st.previous_version ≠ -1 → st.previous_window ≠ None)

/-- The probe `XGetWindowProperty(disp, w, property, 0, 1024 * 2^j, ...)`, the one of round
`j` of `read_property`. -/
def probe (disp : Display) (w : Window) (property : Atom) (j : Nat) : GetPropertyReply :=
  XGetWindowProperty disp w property 0 (1024 * 2 ^ j)

/-- The value of `read_bytes` in round `j` of `read_property`, counted from 0. -/
def read_bytes_at (j : Nat) : Int := wrap_int (1024 * 2 ^ j)

/-- The last index at which `name` occurs in `names`. -/
def IsLastOccurrence (names : List String) (name : String) (i : Nat) : Prop :=
  names[i]? = some name ∧ ∀ j, i < j → names[j]? ≠ some name

/-! ## Scenario data -/

/-- A session in which 100, 101, 102 and 103 name `TARGETS`, `image/png`, `text/plain` and
`text/uri-list`, and no property is set. -/
def scenario_display : Display where
  XGetAtomName := fun a =>
    if a = 100 then "TARGETS" else if a = 101 then "image/png"
    else if a = 102 then "text/plain" else if a = 103 then "text/uri-list"
    else if a = 31 then "STRING" else if a = 4 then "ATOM"
    else if a = 104 then "MULTIPLE" else "other"
  properties := fun _ _ => none

/-- The offer of scenario A: `TARGETS`, `image/png`, `text/plain`. -/
def scenario_A_offer : List Atom := [100, 101, 102]

/-- The priority table of scenario A. -/
def scenario_A_priorities : StdMap String Int := ⟨[("text/plain", 1)]⟩

/-- The offer of scenario B: `text/plain`, `text/uri-list`. -/
def scenario_B_offer : List Atom := [102, 103]

/-- The priority table of scenario B. -/
def scenario_B_priorities : StdMap String Int := ⟨[("text/plain", 1), ("text/uri-list", 0)]⟩

/-- A priority table whose only rank is `INT_MAX`. -/
def int_max_priorities : StdMap String Int := ⟨[("text/plain", 2147483647)]⟩

/-- A priority table with the key `None`. -/
def none_key_priorities : StdMap String Int := ⟨[("None", 1)]⟩

/-- The global atoms of `selection.cc` in the scenario session. -/
def scenario_globals : Globals where
  XA_TARGETS := 100
  XA_multiple := 104
  XA_image_bmp := 105
  XA_image_jpg := 106
  XA_image_tiff := 107
  XA_image_png := 101
  XA_text_uri_list := 103
  XA_text_uri := 108
  XA_text_plain := 102
  XA_text := 109
  XA_XdndSelection := 110
  XA_XdndAware := 111
  XA_XdndEnter := 112
  XA_XdndLeave := 113
  XA_XdndTypeList := 114
  XA_XdndPosition := 115
  XA_XdndActionCopy := 116
  XA_XdndStatus := 117
  XA_XdndDrop := 118
  XA_XdndFinished := 119

/-- A producer map offering the bytes of `hi` as `STRING` and as `text/plain`. -/
def scenario_typed_data : TypedDataMap := ⟨[(31, [104, 105]), (102, [104, 105])]⟩

/-- A request of window 7 for the target list of `PRIMARY`, to be put in its property 1. -/
def scenario_targets_request : XSelectionRequestEvent :=
  { owner := 5, requestor := 7, selection := 1, target := 100, property := 1, time := 0 }

/-- A request of window 7 for `PRIMARY` as `text/plain`, to be put in its property 1. -/
def scenario_data_request : XSelectionRequestEvent :=
  { owner := 5, requestor := 7, selection := 1, target := 102, property := 1, time := 0 }

/-- A request of window 7 for `PRIMARY` as `MULTIPLE`, to be put in its property 1. -/
def scenario_multiple_request : XSelectionRequestEvent :=
  { owner := 5, requestor := 7, selection := 1, target := 104, property := 1, time := 0 }

/-- The variables of a plain paste from `PRIMARY` by window 7 with the default priority
table, in the scenario session. -/
def scenario_paste_config : PasteConfig where
  XA_TARGETS := 100
  sel := 1
  root := 2
  w := 7
  drop_window := 7
  do_xdnd := 0
  datatypes := ⟨[("STRING", 1)]⟩
  XdndEnter := 112
  XdndPosition := 115
  XdndStatus := 117
  XdndTypeList := 114
  XdndActionCopy := 116
  XdndDrop := 118
  XdndLeave := 113
  XdndFinished := 119
  XdndSelection := 110
  XdndProxy := 120

/-- The scenario paste with the priority table `text/plain ↦ 2`. -/
def scenario_paste_config_plain : PasteConfig :=
  { scenario_paste_config with datatypes := ⟨[("text/plain", 2)]⟩ }

/-- The scenario paste with the priority table `image/png ↦ 2`. -/
def scenario_paste_config_png : PasteConfig :=
  { scenario_paste_config with datatypes := ⟨[("image/png", 2)]⟩ }

/-- The scenario paste with the priority table `TARGETS ↦ 2`. -/
def scenario_paste_config_targets : PasteConfig :=
  { scenario_paste_config with datatypes := ⟨[("TARGETS", 2)]⟩ }

/-- The notification that answers the scenario request for the target list. -/
def scenario_targets_notify : XSelectionEvent :=
  { requestor := 7, selection := 1, target := 100, property := 1, time := 0 }

/-- The notification that answers the scenario request for `text/plain`. -/
def scenario_data_notify : XSelectionEvent :=
  { requestor := 7, selection := 1, target := 102, property := 1, time := 0 }

/-- Some contents of an uninitialised `XClientMessageEvent`. -/
def scenario_garbage : XClientMessageEvent :=
  { window := 9, message_type := 9, format := 9, l0 := 9, l1 := 9, l2 := 9, l3 := 9, l4 := 9 }

/-- The display after the scenario producer answered the request for the target list. -/
def scenario_display_targets : Display :=
  (process_selection_request scenario_globals scenario_display
    (XEvent.SelectionRequest scenario_targets_request) scenario_typed_data).1

/-- A producer map that has the atom `TARGETS` itself among its keys. -/
def targets_key_typed_data : TypedDataMap := ⟨[(100, [1])]⟩

/-- A producer map offering `2^28` zero bytes as `text/plain`. -/
def large_typed_data : TypedDataMap := ⟨[(102, List.replicate 268435456 0)]⟩

/-- The state of a consumer that awaits data for the negotiated target `t`. -/
def awaiting_data (t : Atom) : PasteState :=
  { to_be_requested := t, sent_request := true, xdnd_version := 0, xdnd_source_window := None }

/-- The display after the scenario producer answered the request for `text/plain`. -/
def scenario_display_data : Display :=
  (process_selection_request scenario_globals scenario_display
    (XEvent.SelectionRequest scenario_data_request) scenario_typed_data).1

/-- A paste run: the answer to the request for the target list, then the answer to the
request for `text/plain`. -/
def scenario_paste_inputs : List PasteInput :=
  [{ disp := scenario_display_targets, m := scenario_garbage,
     e := XEvent.SelectionNotify scenario_targets_notify },
   { disp := scenario_display_data, m := scenario_garbage,
     e := XEvent.SelectionNotify scenario_data_notify }]

/-- A notification for `image/png`, which the scenario consumer did not ask for. -/
def scenario_stray_notify : XSelectionEvent :=
  { requestor := 7, selection := 1, target := 101, property := 1, time := 0 }

/-- The variables of a drop target in the scenario session: window 7, priority table
`text/plain ↦ 2`. -/
def scenario_drop_config : PasteConfig :=
  { scenario_paste_config with do_xdnd := 1, datatypes := ⟨[("text/plain", 2)]⟩ }

/-- The scenario drop target with the default priority table `STRING ↦ 1`. -/
def scenario_drop_config_default : PasteConfig :=
  { scenario_paste_config with do_xdnd := 1 }

/-- An `XdndEnter` of source window 8: version 3, no overflow flag, inline type
`text/plain`. -/
def scenario_enter : XClientMessageEvent :=
  { window := 7, message_type := 112, format := 32, l0 := 8, l1 := 50331648, l2 := 102,
    l3 := 0, l4 := 0 }

/-- An `XdndEnter` of source window 8: version 5, overflow flag set, no inline type. Window
8 has no `XdndTypeList` property in the scenario display. -/
def scenario_enter_more : XClientMessageEvent :=
  { window := 7, message_type := 112, format := 32, l0 := 8, l1 := 83886081, l2 := 0,
    l3 := 0, l4 := 0 }

/-- An `XdndPosition` of source window 8 that asks for an action other than copy. -/
def scenario_position : XClientMessageEvent :=
  { window := 7, message_type := 115, format := 32, l0 := 8, l1 := 0, l2 := 655380,
    l3 := 1000, l4 := 121 }

/-- An `XdndLeave` of source window 8. -/
def scenario_leave : XClientMessageEvent :=
  { window := 7, message_type := 113, format := 32, l0 := 8, l1 := 0, l2 := 0, l3 := 0,
    l4 := 0 }

/-- An `XdndDrop` of source window 8 with the timestamp 1234. -/
def scenario_drop : XClientMessageEvent :=
  { window := 7, message_type := 118, format := 32, l0 := 8, l1 := 0, l2 := 1234, l3 := 0,
    l4 := 0 }

/-- The notification that answers the conversion of the drag selection to `text/plain`. -/
def scenario_drop_notify : XSelectionEvent :=
  { requestor := 7, selection := 110, target := 102, property := 1, time := 1234 }

/-- The state of a drop target that negotiated the target `t` at protocol version `v`. -/
def armed (t : Atom) (v : Int) : PasteState :=
  { to_be_requested := t, sent_request := false, xdnd_version := v,
    xdnd_source_window := None }

/-- Scenario D: enter, position, drop, and the data notification. -/
def scenario_D_inputs : List PasteInput :=
  [{ disp := scenario_display, m := scenario_garbage, e := XEvent.ClientMessage scenario_enter },
   { disp := scenario_display, m := scenario_garbage,
     e := XEvent.ClientMessage scenario_position },
   { disp := scenario_display, m := scenario_garbage, e := XEvent.ClientMessage scenario_drop },
   { disp := scenario_display_data, m := scenario_garbage,
     e := XEvent.SelectionNotify scenario_drop_notify }]

/-- The scenario session with the two 32 bit items `0x01020304` and `0x05060708` of type
`text/plain` in property 1 of window 7. -/
def scenario_display_words : Display :=
  { scenario_display with
    properties := fun w p =>
      if w = 7 ∧ p = 1 then some { type := 102, format := 32, data := [16909060, 84281096] }
      else none }

/-- Scenario D with a data property of two 32 bit items. -/
def scenario_D_inputs_words : List PasteInput :=
  [{ disp := scenario_display, m := scenario_garbage, e := XEvent.ClientMessage scenario_enter },
   { disp := scenario_display, m := scenario_garbage,
     e := XEvent.ClientMessage scenario_position },
   { disp := scenario_display, m := scenario_garbage, e := XEvent.ClientMessage scenario_drop },
   { disp := scenario_display_words, m := scenario_garbage,
     e := XEvent.SelectionNotify scenario_drop_notify }]

/-- A value of `2^28` zero bytes. -/
def large_data : List Nat := List.replicate 268435456 0

/-- The scenario session with `2^28` zero bytes of type `text/plain` in property 1 of
window 7. -/
def scenario_display_large : Display :=
  { scenario_display with
    properties := fun w p =>
      if w = 7 ∧ p = 1 then some { type := 102, format := 8, data := large_data }
      else none }

/-- Scenario D with a data property of `2^28` bytes. -/
def scenario_D_inputs_large : List PasteInput :=
  [{ disp := scenario_display, m := scenario_garbage, e := XEvent.ClientMessage scenario_enter },
   { disp := scenario_display, m := scenario_garbage,
     e := XEvent.ClientMessage scenario_position },
   { disp := scenario_display, m := scenario_garbage, e := XEvent.ClientMessage scenario_drop },
   { disp := scenario_display_large, m := scenario_garbage,
     e := XEvent.SelectionNotify scenario_drop_notify }]

/-- The variables of the scenario drag source: window 5 under root 2, offering the scenario
map. -/
def scenario_drag_config : DragConfig :=
  { root := 2, w := 5, typed_data := scenario_typed_data }

/-- A pointer over window 8, a child of the root, at position (10, 20); grabs succeed. -/
def scenario_pointer : Pointer :=
  { grab_success := true, children := [8], x := 10, y := 20 }

/-- The state of a drag over the aware window 8 of version 5, with the given status. -/
def dragging_over (status : Int) : DragState :=
  { dragging := true, previous_window := 8, previous_version := 5, status := status }

/-- An `XdndStatus` of window 8 with the accept bit set. -/
def scenario_status_accept : XClientMessageEvent :=
  { window := 5, message_type := 117, format := 32, l0 := 8, l1 := 1, l2 := 0, l3 := 0,
    l4 := 116 }

/-- An `XdndStatus` of window 8 with the accept bit clear. -/
def scenario_status_refuse : XClientMessageEvent :=
  { window := 5, message_type := 117, format := 32, l0 := 8, l1 := 0, l2 := 0, l3 := 0,
    l4 := 0 }

/-- The scenario session with two drag-aware windows, 8 and 9, of version 5; window 10 and
the root are not aware. -/
def scenario_display_aware : Display :=
  { scenario_display with
    properties := fun w p =>
      if (w = 8 ∨ w = 9) ∧ p = 111 then some { type := 4, format := 32, data := [5] }
      else none }

/-- A pointer over the child `w` of the root, at position (10, 20); grabs succeed. -/
def pointer_over (w : Window) : Pointer :=
  { grab_success := true, children := [w], x := 10, y := 20 }

/-- A pointer whose grab fails. -/
def pointer_grab_fails : Pointer :=
  { grab_success := false, children := [8], x := 10, y := 20 }

/-- A drag that starts over window 8, is accepted by window 8, moves on to window 9 and
ends there with the release of button 1. Window 9 sends nothing. -/
def scenario_drag_inputs : List DragInput :=
  [{ disp := scenario_display_aware, ptr := pointer_over 8, e := XEvent.MotionNotify },
   { disp := scenario_display_aware, ptr := pointer_over 8, e := XEvent.MotionNotify },
   { disp := scenario_display_aware, ptr := pointer_over 8,
     e := XEvent.ClientMessage scenario_status_accept },
   { disp := scenario_display_aware, ptr := pointer_over 9, e := XEvent.MotionNotify },
   { disp := scenario_display_aware, ptr := pointer_over 9, e := XEvent.ButtonRelease 1 }]

/-- The command line of a consumer that names `text/plain` twice, around `image/png`. -/
def scenario_argv_repeated : List String :=
  ["paste", "PRIMARY", "text/plain", "image/png", "text/plain"]

/-- The command line of a consumer that prefers `text/plain` to `image/png`. -/
def scenario_argv : List String := ["paste", "PRIMARY", "text/plain", "image/png"]

/-- A value of 5000 zero bytes. -/
def long_data : List Nat := List.replicate 5000 0

/-- A value of `2^31` zero bytes. -/
def huge_data : List Nat := List.replicate 2147483648 0

/-- The scenario session with 5000 zero bytes of type `STRING` in property 1 of window 7. -/
def scenario_display_long : Display :=
  { scenario_display with
    properties := fun w p =>
      if w = 7 ∧ p = 1 then some { type := 31, format := 8, data := long_data }
      else none }

/-- The scenario session with `2^31` zero bytes of type `STRING` in property 1 of window 7. -/
def scenario_display_huge : Display :=
  { scenario_display with
    properties := fun w p =>
      if w = 7 ∧ p = 1 then some { type := 31, format := 8, data := huge_data }
      else none }

/-! ## The target negotiator: `pick_target_from_list` -/

theorem PickInv.skip {disp : Display} {P : StdMap String Int} {pre : List Atom}
    {tbr : Atom} {pr : Int} (a : Atom) (h : PickInv disp P pre tbr pr)
    (ha : ∀ r, rank_of disp P a = some r → pr ≤ r) :
    PickInv disp P (pre ++ [a]) tbr pr := by
  rcases h with ⟨h1, h2, h3⟩ | ⟨h1, h2, l1, l2, h3, h4, h5⟩
  · refine Or.inl ⟨h1, h2, ?_⟩
    intro b hb r hr
    rcases List.mem_append.mp hb with hb | hb
    · exact h3 b hb r hr
    · rw [List.mem_singleton] at hb
      subst hb
      rw [← h2]
      exact ha r hr
  · refine Or.inr ⟨h1, h2, l1, l2 ++ [a], ?_, h4, ?_⟩
    · rw [h3]
      simp
    · intro b hb r hr
      rcases List.mem_append.mp hb with hb | hb
      · exact h5 b hb r hr
      · rw [List.mem_singleton] at hb
        subst hb
        exact ha r hr

theorem PickInv.adopt {disp : Display} {P : StdMap String Int} {pre : List Atom}
    {tbr : Atom} {pr : Int} (a : Atom) (rank : Int) (h : PickInv disp P pre tbr pr)
    (ha : rank_of disp P a = some rank) (hlt : rank < pr) :
    PickInv disp P (pre ++ [a]) a rank := by
  rcases h with ⟨_, h2, h3⟩ | ⟨h1, h2, l1, l2, h3, h4, h5⟩
  · refine Or.inr ⟨by omega, ha, pre, [], rfl, ?_, by simp⟩
    intro b hb r hr
    have := h3 b hb r hr
    omega
  · refine Or.inr ⟨by omega, ha, pre, [], rfl, ?_, by simp⟩
    intro b hb r hr
    rw [h3] at hb
    rcases List.mem_append.mp hb with hb | hb
    · have := h4 b hb r hr
      omega
    · rcases List.mem_cons.mp hb with hb | hb
      · subst hb
        rw [h2] at hr
        cases hr
        exact hlt
      · have := h5 b hb r hr
        omega

theorem pick_target_loop_inv (disp : Display) (P : StdMap String Int) (rest : List Atom) :
    ∀ (pre : List Atom) (tbr : Atom) (pr : Int), PickInv disp P pre tbr pr →
      PickInv disp P (pre ++ rest) (pick_target_loop disp P rest tbr pr).1
        (pick_target_loop disp P rest tbr pr).2 := by
  induction rest with
  | nil =>
    intro pre tbr pr h
    simpa [pick_target_loop] using h
  | cons a rest ih =>
    intro pre tbr pr h
    have hsplit : pre ++ a :: rest = (pre ++ [a]) ++ rest := by simp
    rw [hsplit]
    cases hfind : P.find (GetAtomName disp a) with
    | none =>
      have hstep : pick_target_loop disp P (a :: rest) tbr pr
          = pick_target_loop disp P rest tbr pr := by
        simp [pick_target_loop, hfind]
      rw [hstep]
      refine ih _ _ _ (h.skip a ?_)
      intro r hr
      simp [rank_of, hfind] at hr
    | some rank =>
      by_cases hgt : pr > rank
      · have hstep : pick_target_loop disp P (a :: rest) tbr pr
            = pick_target_loop disp P rest a rank := by
          simp [pick_target_loop, hfind, hgt]
        rw [hstep]
        exact ih _ _ _ (h.adopt a rank hfind hgt)
      · have hstep : pick_target_loop disp P (a :: rest) tbr pr
            = pick_target_loop disp P rest tbr pr := by
          simp [pick_target_loop, hfind, hgt]
        rw [hstep]
        refine ih _ _ _ (h.skip a ?_)
        intro r hr
        simp only [rank_of, hfind, Option.some.injEq] at hr
        omega

theorem pick_target_from_list_inv (disp : Display) (O : List Atom) (P : StdMap String Int) :
    PickInv disp P O (pick_target_from_list disp O P)
      (pick_target_loop disp P O None INT_MAX).2 := by
  have h := pick_target_loop_inv disp P O [] None INT_MAX
    (Or.inl ⟨rfl, rfl, by simp⟩)
  simpa [pick_target_from_list] using h

/-- C1. Whenever `pick_target_from_list` returns an atom (a result other than `None`), the
result is the element of the offer at the least index whose name is a key of the priority
table and whose rank is the minimum over all offered names that are keys: lower rank wins,
the first occurrence wins ties. -/
theorem pick_target_from_list_least_index_of_min_rank (disp : Display) (O : List Atom)
    (P : StdMap String Int) (h : pick_target_from_list disp O P ≠ None) :
    ∃ i, O[i]? = some (pick_target_from_list disp O P) ∧ IsBestOffer disp O P i ∧
      ∀ j, j < i → ¬ IsBestOffer disp O P j := by
  rcases pick_target_from_list_inv disp O P with ⟨h1, _⟩ | ⟨_, h2, l1, l2, h3, h4, h5⟩
  · exact absurd h1 h
  · generalize pick_target_from_list disp O P = t at h2 h3
    generalize (pick_target_loop disp P O None INT_MAX).2 = pr at h2 h4 h5
    have hi : O[l1.length]? = some t := by
      rw [h3, List.getElem?_append_right (le_refl _)]
      simp
    refine ⟨l1.length, hi, ⟨t, pr, hi, h2, ?_⟩, ?_⟩
    · intro j b s hj hs
      have hb : b ∈ O := List.getElem?_mem hj
      rw [h3] at hb
      rcases List.mem_append.mp hb with hb | hb
      · exact le_of_lt (h4 b hb s hs)
      · rcases List.mem_cons.mp hb with hb | hb
        · subst hb
          rw [h2] at hs
          cases hs
          exact le_refl _
        · exact h5 b hb s hs
    · rintro j hj ⟨b, s, hb, hs, hmin⟩
      have hb1 : l1[j]? = some b := by
        rw [h3, List.getElem?_append_left hj] at hb
        exact hb
      have hlt := h4 b (List.getElem?_mem hb1) s hs
      have hle := hmin l1.length t pr hi h2
      omega

/-- C1, at the two scenarios of the specification: with priorities `text/plain ↦ 1` and the
offer `TARGETS, image/png, text/plain` the pick is `text/plain`; with priorities
`text/plain ↦ 1, text/uri-list ↦ 0` and the offer `text/plain, text/uri-list` the pick is
`text/uri-list`. -/
theorem pick_target_from_list_scenarios :
    (pick_target_from_list scenario_display scenario_A_offer scenario_A_priorities = 102 ∧
      ∃ i, scenario_A_offer[i]? =
          some (pick_target_from_list scenario_display scenario_A_offer scenario_A_priorities) ∧
        IsBestOffer scenario_display scenario_A_offer scenario_A_priorities i ∧
        ∀ j, j < i → ¬ IsBestOffer scenario_display scenario_A_offer scenario_A_priorities j) ∧
    (pick_target_from_list scenario_display scenario_B_offer scenario_B_priorities = 103 ∧
      ∃ i, scenario_B_offer[i]? =
          some (pick_target_from_list scenario_display scenario_B_offer scenario_B_priorities) ∧
        IsBestOffer scenario_display scenario_B_offer scenario_B_priorities i ∧
        ∀ j, j < i → ¬ IsBestOffer scenario_display scenario_B_offer scenario_B_priorities j) :=
  ⟨⟨by decide, pick_target_from_list_least_index_of_min_rank scenario_display scenario_A_offer
      scenario_A_priorities (by decide)⟩,
   ⟨by decide, pick_target_from_list_least_index_of_min_rank scenario_display scenario_B_offer
      scenario_B_priorities (by decide)⟩⟩

/-- C2 fails as stated. With the single rank `INT_MAX` the offered name `text/plain` is a
key of the table, yet the pick is `None`, which is not an offered atom; and with the key
`None` in the table the offered atom `None` has a name that is a key, yet the pick is
`None`. -/
theorem pick_target_from_list_none_although_key_offered :
    (¬ (pick_target_from_list scenario_display [102] int_max_priorities = None ↔
          ∀ a ∈ [102], rank_of scenario_display int_max_priorities a = none) ∧
      rank_of scenario_display int_max_priorities 102 = some INT_MAX ∧
      pick_target_from_list scenario_display [102] int_max_priorities ∉ [102]) ∧
    (¬ (pick_target_from_list scenario_display [None] none_key_priorities = None ↔
          ∀ a ∈ [None], rank_of scenario_display none_key_priorities a = none) ∧
      rank_of scenario_display none_key_priorities None = some 1) := by
  decide

/-- C2, amended. When the atom `None` is not offered under a key `None` of the priority
table, `pick_target_from_list` returns `None` if and only if no element of the offer has a
name that is a key with a rank below `INT_MAX`; whenever some offered name is a key with a
rank below `INT_MAX` the result is one of the offered atoms. For a table whose ranks are all
below `INT_MAX` the result is `None` if and only if no offered name is a key. -/
theorem pick_target_from_list_eq_none_iff (disp : Display) (O : List Atom)
    (P : StdMap String Int) (hNone : None ∈ O → rank_of disp P None = none) :
    (pick_target_from_list disp O P = None ↔
        ∀ a ∈ O, ∀ r, rank_of disp P a = some r → INT_MAX ≤ r) ∧
    ((∃ a ∈ O, ∃ r, rank_of disp P a = some r ∧ r < INT_MAX) →
        pick_target_from_list disp O P ∈ O) ∧
    ((∀ k r, P.find k = some r → r < INT_MAX) →
        (pick_target_from_list disp O P = None ↔ ∀ a ∈ O, rank_of disp P a = none)) := by
  have key : (pick_target_from_list disp O P = None ∧
        ∀ a ∈ O, ∀ r, rank_of disp P a = some r → INT_MAX ≤ r) ∨
      (pick_target_from_list disp O P ≠ None ∧ pick_target_from_list disp O P ∈ O ∧
        ∃ r, rank_of disp P (pick_target_from_list disp O P) = some r ∧ r < INT_MAX) := by
    rcases pick_target_from_list_inv disp O P with ⟨h1, _, h3⟩ | ⟨h1, h2, l1, l2, h3, _, _⟩
    · exact Or.inl ⟨h1, h3⟩
    · have hsplit : ∀ t : Atom, O = l1 ++ t :: l2 → t ∈ O := by
        intro t ht
        rw [ht]
        simp
      have hmem : pick_target_from_list disp O P ∈ O := hsplit _ h3
      refine Or.inr ⟨?_, hmem, _, h2, h1⟩
      intro h0
      rw [h0] at hmem h2
      rw [hNone hmem] at h2
      cases h2
  rcases key with ⟨h1, h2⟩ | ⟨h1, h2, r, h3, h4⟩
  · refine ⟨⟨fun _ => h2, fun _ => h1⟩, ?_, ?_⟩
    · rintro ⟨a, ha, r, hr, hlt⟩
      have := h2 a ha r hr
      omega
    · intro hP
      refine ⟨fun _ a ha => ?_, fun _ => h1⟩
      cases hr : rank_of disp P a with
      | none => rfl
      | some r =>
        have := h2 a ha r hr
        have := hP _ r hr
        omega
  · refine ⟨⟨fun h0 => absurd h0 h1, fun hall => ?_⟩, fun _ => h2, ?_⟩
    · have := hall _ h2 r h3
      omega
    · intro _
      refine ⟨fun h0 => absurd h0 h1, fun hall => ?_⟩
      rw [hall _ h2] at h3
      cases h3

/-- C2, amended, at scenario A: `None` is not offered, `text/plain` is offered with rank 1,
and the pick is the offered atom `text/plain`. -/
theorem pick_target_from_list_eq_none_iff_scenario_A :
    (None ∈ scenario_A_offer → rank_of scenario_display scenario_A_priorities None = none) ∧
    (pick_target_from_list scenario_display scenario_A_offer scenario_A_priorities = None ↔
        ∀ a ∈ scenario_A_offer, ∀ r,
          rank_of scenario_display scenario_A_priorities a = some r → INT_MAX ≤ r) ∧
    ((∃ a ∈ scenario_A_offer, ∃ r,
          rank_of scenario_display scenario_A_priorities a = some r ∧ r < INT_MAX) →
        pick_target_from_list scenario_display scenario_A_offer scenario_A_priorities
          ∈ scenario_A_offer) ∧
    ((∀ k r, scenario_A_priorities.find k = some r → r < INT_MAX) →
        (pick_target_from_list scenario_display scenario_A_offer scenario_A_priorities = None ↔
          ∀ a ∈ scenario_A_offer, rank_of scenario_display scenario_A_priorities a = none)) :=
  ⟨by decide,
   pick_target_from_list_eq_none_iff scenario_display scenario_A_offer scenario_A_priorities
     (by decide)⟩

/-! ## The target negotiator: `pick_target_from_targets` -/

/-- C3. `pick_target_from_targets` is defined by cases: when the type of the property is
`ATOM` or `TARGETS` and its element width is 32, the result is `pick_target_from_list` on the
first `nitems` atoms of the property; in every other case it is `STRING` when `STRING` is a
key of the priority table and `None` otherwise, whatever the property holds. -/
theorem pick_target_from_targets_cases (disp : Display) (XA_TARGETS : Atom) (p : Property)
    (P : StdMap String Int) :
    pick_target_from_targets disp XA_TARGETS p P =
      if (p.type = XA_ATOM ∨ p.type = XA_TARGETS) ∧ p.format = 32 then
        pick_target_from_list disp (p.data.take p.nitems.toNat) P
      else if (P.find "STRING").isSome then XA_STRING
      else None := by
  unfold pick_target_from_targets Property.atom_list StdMap.count
  by_cases h1 : p.type = XA_ATOM <;> by_cases h2 : p.type = XA_TARGETS <;>
    by_cases h3 : p.format = 32 <;> by_cases h4 : (P.find "STRING").isSome <;>
    simp [h1, h2, h3, h4]

/-! ## The selection producer: `process_selection_request` -/

theorem XChangeProperty_same (disp : Display) (w : Window) (property type : Atom)
    (format : Nat) (data : List Nat) :
    (XChangeProperty disp w property type format data).properties w property =
      some { type := type, format := format, data := data } := by
  simp [XChangeProperty]

theorem XChangeProperty_other (disp : Display) (w : Window) (property type : Atom)
    (format : Nat) (data : List Nat) (w' : Window) (p' : Atom)
    (h : ¬ (w' = w ∧ p' = property)) :
    (XChangeProperty disp w property type format data).properties w' p' =
      disp.properties w' p' := by
  simp [XChangeProperty, h]

/-- C5. On a request for the `TARGETS` meta-format, `process_selection_request` replaces the
destination property of the requestor by an atom list of type `ATOM` and width 32 that
consists of `TARGETS`, then `MULTIPLE`, then every key of the data map in key order, so of
`|M| + 2` atoms; no other property changes; and the single reply names the destination
property. -/
theorem process_selection_request_targets (g : Globals) (disp : Display)
    (M : TypedDataMap) (r : XSelectionRequestEvent) (h : r.target = g.XA_TARGETS) :
    (process_selection_request g disp (XEvent.SelectionRequest r) M).1.properties
        r.requestor r.property =
      some { type := XA_ATOM, format := 32,
             data := g.XA_TARGETS :: g.XA_multiple :: M.keys } ∧
    (g.XA_TARGETS :: g.XA_multiple :: M.keys).length = M.size + 2 ∧
    (∀ k v, (k, v) ∈ M.entries → k ∈ g.XA_TARGETS :: g.XA_multiple :: M.keys) ∧
    (∀ w' p', ¬ (w' = r.requestor ∧ p' = r.property) →
      (process_selection_request g disp (XEvent.SelectionRequest r) M).1.properties w' p' =
        disp.properties w' p') ∧
    (process_selection_request g disp (XEvent.SelectionRequest r) M).2 =
      [XRequest.SendEvent r.requestor true 0
        (XEvent.SelectionNotify
          { requestor := r.requestor, selection := r.selection, target := r.target,
            property := r.property, time := r.time })] := by
  refine ⟨?_, ?_, ?_, ?_, ?_⟩
  · simp [process_selection_request, h, set_targets_property, XChangeProperty]
  · simp [StdMap.size, StdMap.keys]
  · intro k v hkv
    have : k ∈ M.keys := List.mem_map.mpr ⟨(k, v), hkv, rfl⟩
    simp [this]
  · intro w' p' hne
    simp [process_selection_request, h, set_targets_property, XChangeProperty, hne]
  · simp [process_selection_request, h]

/-- C5 on the scenario map: the property holds `TARGETS, MULTIPLE, STRING, text/plain`. -/
theorem process_selection_request_targets_scenario :
    scenario_targets_request.target = scenario_globals.XA_TARGETS ∧
    (process_selection_request scenario_globals scenario_display
        (XEvent.SelectionRequest scenario_targets_request) scenario_typed_data).1.properties 7 1 =
      some { type := XA_ATOM, format := 32, data := [100, 104, 31, 102] } ∧
    (process_selection_request scenario_globals scenario_display
        (XEvent.SelectionRequest scenario_targets_request) scenario_typed_data).2 =
      [XRequest.SendEvent 7 true 0
        (XEvent.SelectionNotify
          { requestor := 7, selection := 1, target := 100, property := 1, time := 0 })] :=
  ⟨rfl,
   (process_selection_request_targets scenario_globals scenario_display scenario_typed_data
     scenario_targets_request rfl).1,
   (process_selection_request_targets scenario_globals scenario_display scenario_typed_data
     scenario_targets_request rfl).2.2.2.2⟩

/-- C6. On a request whose target is a key of the data map and is not `TARGETS`,
`process_selection_request` replaces the destination property of the requestor by exactly
the bytes stored for the target, with the target as declared type and element width 8; no
other property changes; and the single reply names the destination property. -/
theorem process_selection_request_data (g : Globals) (disp : Display) (M : TypedDataMap)
    (r : XSelectionRequestEvent) (bytes : List Nat) (hT : r.target ≠ g.XA_TARGETS)
    (hM : M.find r.target = some bytes) :
    (process_selection_request g disp (XEvent.SelectionRequest r) M).1.properties
        r.requestor r.property =
      some { type := r.target, format := 8, data := bytes } ∧
    (∀ w' p', ¬ (w' = r.requestor ∧ p' = r.property) →
      (process_selection_request g disp (XEvent.SelectionRequest r) M).1.properties w' p' =
        disp.properties w' p') ∧
    (process_selection_request g disp (XEvent.SelectionRequest r) M).2 =
      [XRequest.SendEvent r.requestor true 0
        (XEvent.SelectionNotify
          { requestor := r.requestor, selection := r.selection, target := r.target,
            property := r.property, time := r.time })] := by
  refine ⟨?_, ?_, ?_⟩
  · simp [process_selection_request, hT, StdMap.count, hM, TypedDataMap.at_key,
      XChangeProperty]
  · intro w' p' hne
    simp [process_selection_request, hT, StdMap.count, hM, XChangeProperty, hne]
  · simp [process_selection_request, hT, StdMap.count, hM]

/-- C6 on the scenario map: a request for `text/plain` is answered with the bytes of `hi`. -/
theorem process_selection_request_data_scenario :
    scenario_data_request.target ≠ scenario_globals.XA_TARGETS ∧
    scenario_typed_data.find scenario_data_request.target = some [104, 105] ∧
    (process_selection_request scenario_globals scenario_display
        (XEvent.SelectionRequest scenario_data_request) scenario_typed_data).1.properties 7 1 =
      some { type := 102, format := 8, data := [104, 105] } ∧
    (process_selection_request scenario_globals scenario_display
        (XEvent.SelectionRequest scenario_data_request) scenario_typed_data).2 =
      [XRequest.SendEvent 7 true 0
        (XEvent.SelectionNotify
          { requestor := 7, selection := 1, target := 102, property := 1, time := 0 })] :=
  ⟨by decide, by decide,
   (process_selection_request_data scenario_globals scenario_display scenario_typed_data
     scenario_data_request [104, 105] (by decide) (by decide)).1,
   (process_selection_request_data scenario_globals scenario_display scenario_typed_data
     scenario_data_request [104, 105] (by decide) (by decide)).2.2⟩

/-- C7. On a request whose target is neither `TARGETS` nor a key of the data map, the
target `MULTIPLE` included, `process_selection_request` leaves the display as it was, so
writes no property, and its single reply has the property field `None`. -/
theorem process_selection_request_refusal (g : Globals) (disp : Display) (M : TypedDataMap)
    (r : XSelectionRequestEvent) (hT : r.target ≠ g.XA_TARGETS)
    (hM : M.find r.target = none) :
    (process_selection_request g disp (XEvent.SelectionRequest r) M).1 = disp ∧
    (process_selection_request g disp (XEvent.SelectionRequest r) M).2 =
      [XRequest.SendEvent r.requestor true 0
        (XEvent.SelectionNotify
          { requestor := r.requestor, selection := r.selection, target := r.target,
            property := None, time := r.time })] := by
  simp [process_selection_request, hT, StdMap.count, hM]

/-- C7 on the scenario map: a request for `MULTIPLE` is answered with property `None`. -/
theorem process_selection_request_refusal_multiple :
    scenario_multiple_request.target = scenario_globals.XA_multiple ∧
    scenario_multiple_request.target ≠ scenario_globals.XA_TARGETS ∧
    scenario_typed_data.find scenario_multiple_request.target = none ∧
    (process_selection_request scenario_globals scenario_display
        (XEvent.SelectionRequest scenario_multiple_request) scenario_typed_data).1 =
      scenario_display ∧
    (process_selection_request scenario_globals scenario_display
        (XEvent.SelectionRequest scenario_multiple_request) scenario_typed_data).2 =
      [XRequest.SendEvent 7 true 0
        (XEvent.SelectionNotify
          { requestor := 7, selection := 1, target := 104, property := None, time := 0 })] :=
  ⟨rfl, by decide, by decide,
   process_selection_request_refusal scenario_globals scenario_display scenario_typed_data
     scenario_multiple_request (by decide) (by decide)⟩

/-- C8. For a conversion request, `process_selection_request` sends exactly one event: a
`SelectionNotify` to the requestor window whose requestor, selection, target and time are
those of the request, whichever branch is taken. For any other event it sends nothing and
leaves the display as it was. -/
theorem process_selection_request_single_reply (g : Globals) (disp : Display)
    (M : TypedDataMap) (e : XEvent) :
    match e with
    | XEvent.SelectionRequest r =>
      ∃ property,
        (process_selection_request g disp (XEvent.SelectionRequest r) M).2 =
          [XRequest.SendEvent r.requestor true 0
            (XEvent.SelectionNotify
              { requestor := r.requestor, selection := r.selection, target := r.target,
                property := property, time := r.time })]
    | other => process_selection_request g disp other M = (disp, []) := by
  cases e with
  | SelectionRequest r =>
    by_cases hT : r.target = g.XA_TARGETS
    · exact ⟨r.property, by simp [process_selection_request, hT]⟩
    · by_cases hM : M.count r.target ≠ 0
      · exact ⟨r.property, by simp [process_selection_request, hT, hM]⟩
      · exact ⟨None, by simp [process_selection_request, hT, hM]⟩
  | _ => rfl

/-! ## `read_property` -/

theorem XGetWindowProperty_stored (disp : Display) (w : Window) (p : Atom)
    (v : StoredProperty) (hv : disp.properties w p = some v) (n : Nat) :
    XGetWindowProperty disp w p 0 n =
      { actual_type := v.type, actual_format := v.format,
        nitems := min (v.data.length * (v.format / 8)) (4 * n) / (v.format / 8),
        bytes_after := v.data.length * (v.format / 8)
          - min (v.data.length * (v.format / 8)) (4 * n),
        prop := v.data.take (min (v.data.length * (v.format / 8)) (4 * n) / (v.format / 8)) } := by
  simp [XGetWindowProperty, hv]

theorem read_bytes_at_zero : read_bytes_at 0 = 1024 := by decide

theorem read_bytes_at_succ (j : Nat) :
    wrap_int (read_bytes_at j * 2) = read_bytes_at (j + 1) := by
  have h : (1024 * 2 ^ (j + 1) : Int) = (1024 * 2 ^ j) * 2 := by
    rw [pow_succ]
    ring
  unfold read_bytes_at
  rw [h]
  generalize (1024 * 2 ^ j : Int) = x
  unfold wrap_int
  omega

theorem long_length_of_read_bytes_at (j : Nat) (hj : j ≤ 21) :
    long_length_of (read_bytes_at j) = 1024 * 2 ^ j := by
  have h1 : (2 : Nat) ^ j ≤ 2 ^ 21 := Nat.pow_le_pow_right (by norm_num) hj
  have h2 : (2 : Nat) ^ 21 = 2097152 := by norm_num
  have h3 : 1 ≤ (2 : Nat) ^ j := Nat.one_le_two_pow
  have hc : ((1024 * 2 ^ j : Nat) : Int) = 1024 * 2 ^ j := by
    push_cast
    rfl
  have hb : 1024 ≤ 1024 * 2 ^ j ∧ 1024 * 2 ^ j ≤ 2147483648 := by omega
  unfold long_length_of read_bytes_at wrap_int
  rw [← hc]
  generalize (1024 * 2 ^ j : Nat) = n at hb ⊢
  omega

/-- The loop of `read_property` from round `j` on, when the probes of the rounds `j` to
`j + d - 1` report unread bytes and the probe of round `j + d` reports none, with at least
`d + 1` rounds left: the probes made are those of the rounds `j` to `j + d`, each of
`1024 * 2^i` elements, and the result is built from the reply to the last one. -/
theorem read_property_loop_first_complete (disp : Display) (w : Window) (p : Atom) :
    ∀ (d j extra : Nat), j + d ≤ 21 →
      (∀ i, j ≤ i → i < j + d → (probe disp w p i).bytes_after ≠ 0) →
      (probe disp w p (j + d)).bytes_after = 0 →
      read_property_loop disp w p (d + 1 + extra) (read_bytes_at j) =
        ((List.range' j (d + 1)).map (fun i => 1024 * 2 ^ i),
         some { data := (probe disp w p (j + d)).prop,
                format := (probe disp w p (j + d)).actual_format,
                nitems := wrap_int (probe disp w p (j + d)).nitems,
                type := (probe disp w p (j + d)).actual_type }) := by
  intro d
  induction d with
  | zero =>
    intro j extra hj _ h0
    have e1 : 0 + 1 + extra = extra + 1 := by omega
    have h0' : ¬ (XGetWindowProperty disp w p 0 (1024 * 2 ^ j)).bytes_after ≠ 0 := by
      simpa [probe] using h0
    rw [e1, read_property_loop]
    simp only [long_length_of_read_bytes_at j (by omega), if_neg h0']
    simp [probe, List.range']
  | succ d ih =>
    intro j extra hj hinc h0
    have e1 : d + 1 + 1 + extra = (d + 1 + extra) + 1 := by omega
    have hj0 : (XGetWindowProperty disp w p 0 (1024 * 2 ^ j)).bytes_after ≠ 0 :=
      hinc j (le_refl _) (by omega)
    have e2 : j + 1 + d = j + (d + 1) := by omega
    have hrec := ih (j + 1) extra (by omega)
      (fun i h1 h2 => hinc i (by omega) (by omega)) (by rw [e2]; exact h0)
    rw [e1, read_property_loop]
    simp only [long_length_of_read_bytes_at j (by omega), if_pos hj0, read_bytes_at_succ, hrec,
      e2]
    simp [List.range']

theorem read_property_first_complete (disp : Display) (w : Window) (p : Atom) (k : Nat)
    (hk : k ≤ 21) (hinc : ∀ i, i < k → (probe disp w p i).bytes_after ≠ 0)
    (h0 : (probe disp w p k).bytes_after = 0) :
    read_property_probes disp w p = (List.range (k + 1)).map (fun i => 1024 * 2 ^ i) ∧
    read_property disp w p =
      some { data := (probe disp w p k).prop, format := (probe disp w p k).actual_format,
             nitems := wrap_int (probe disp w p k).nitems,
             type := (probe disp w p k).actual_type } := by
  have h := read_property_loop_first_complete disp w p k 0 (22 - k) (by omega)
    (fun i _ h2 => hinc i (by omega)) (by simpa using h0)
  have e : k + 1 + (22 - k) = 23 := by omega
  rw [e, read_bytes_at_zero] at h
  simp only [Nat.zero_add] at h
  constructor
  · rw [read_property_probes, h, List.range_eq_range']
  · rw [read_property, h]

/-- At `read_bytes = 0` the loop repeats one probe: rounds beyond the first change nothing
in what it returns. -/
theorem read_property_loop_zero (disp : Display) (w : Window) (p : Atom) :
    ∀ r : Nat, (read_property_loop disp w p (r + 1) 0).2 =
      (read_property_loop disp w p 1 0).2 := by
  intro r
  induction r with
  | zero => rfl
  | succ r ih =>
    have hz : wrap_int (0 * 2) = 0 := by decide
    by_cases h : (XGetWindowProperty disp w p 0 (long_length_of 0)).bytes_after ≠ 0
    · rw [read_property_loop]
      simp only [if_pos h, hz]
      rw [ih]
    · rw [read_property_loop]
      simp only [if_neg h]
      conv_rhs => rw [read_property_loop]
      simp only [if_neg h]

/-- The rounds `read_property` starts with suffice: after 22 doublings `read_bytes` is 0 and
stays 0, so from a length `n` with `n * 2^k = 2^32` more than `k + 1` rounds return what
`k + 1` rounds return, and `none` stands for a loop that does not end. -/
theorem read_property_loop_rounds (disp : Display) (w : Window) (p : Atom) :
    ∀ (k n extra : Nat), n * 2 ^ k = 4294967296 →
      (read_property_loop disp w p (k + 1 + extra) (wrap_int n)).2 =
        (read_property_loop disp w p (k + 1) (wrap_int n)).2 := by
  intro k
  induction k with
  | zero =>
    intro n extra hn
    have hn' : n = 4294967296 := by simpa using hn
    subst hn'
    have hz : wrap_int ((4294967296 : Nat) : Int) = 0 := by decide
    have e1 : 0 + 1 + extra = extra + 1 := by omega
    rw [hz, e1]
    exact read_property_loop_zero disp w p extra
  | succ k ih =>
    intro n extra hn
    have h2 : (n * 2) * 2 ^ k = 4294967296 := by
      rw [← hn, pow_succ]
      ring
    have e1 : k + 1 + 1 + extra = (k + 1 + extra) + 1 := by omega
    have hw : wrap_int (wrap_int (n : Int) * 2) = wrap_int ((n * 2 : Nat) : Int) := by
      push_cast
      generalize (n : Int) = x
      unfold wrap_int
      omega
    have := ih (n * 2) extra h2
    rw [e1, read_property_loop, read_property_loop]
    by_cases h : (XGetWindowProperty disp w p 0 (long_length_of (wrap_int n))).bytes_after ≠ 0
    · simp only [if_pos h, hw]
      exact this
    · simp only [if_neg h]

theorem probe_bytes_after (disp : Display) (w : Window) (p : Atom) (v : StoredProperty)
    (hv : disp.properties w p = some v) (j : Nat) :
    (probe disp w p j).bytes_after =
      v.data.length * (v.format / 8)
        - min (v.data.length * (v.format / 8)) (4 * (1024 * 2 ^ j)) := by
  rw [probe, XGetWindowProperty_stored disp w p v hv]

theorem probe_complete (disp : Display) (w : Window) (p : Atom) (v : StoredProperty)
    (hv : disp.properties w p = some v) (hunit : 1 ≤ v.format / 8) (j : Nat)
    (h0 : (probe disp w p j).bytes_after = 0) :
    probe disp w p j =
      { actual_type := v.type, actual_format := v.format, nitems := v.data.length,
        bytes_after := 0, prop := v.data } := by
  have hcover : v.data.length * (v.format / 8) ≤ 4 * (1024 * 2 ^ j) := by
    rw [probe_bytes_after disp w p v hv j] at h0
    omega
  rw [probe, XGetWindowProperty_stored disp w p v hv, Nat.min_eq_left hcover,
    Nat.mul_div_cancel _ hunit]
  simp

/-- A stored property of at most `2^33` bytes has a first probe, among those of the rounds 0
to 21, that reports no unread bytes. -/
theorem first_complete_probe (disp : Display) (w : Window) (p : Atom) (v : StoredProperty)
    (hv : disp.properties w p = some v)
    (hN : v.data.length * (v.format / 8) ≤ 8589934592) :
    ∃ k, k ≤ 21 ∧ (∀ i, i < k → (probe disp w p i).bytes_after ≠ 0) ∧
      (probe disp w p k).bytes_after = 0 := by
  have h21 : (probe disp w p 21).bytes_after = 0 := by
    rw [probe_bytes_after disp w p v hv 21]
    have h : (2 : Nat) ^ 21 = 2097152 := by norm_num
    omega
  have hex : ∃ k, (probe disp w p k).bytes_after = 0 := ⟨21, h21⟩
  exact ⟨Nat.find hex, Nat.find_min' hex h21, fun i hi => Nat.find_min hex hi,
    Nat.find_spec hex⟩

/-- A stored property of at most `2^33` bytes is read whole by `read_property`. -/
theorem read_property_stored_wide (disp : Display) (w : Window) (p : Atom)
    (v : StoredProperty) (hv : disp.properties w p = some v) (hunit : 1 ≤ v.format / 8)
    (hN : v.data.length * (v.format / 8) ≤ 8589934592) :
    read_property disp w p =
      some { data := v.data, format := v.format, nitems := wrap_int v.data.length,
             type := v.type } := by
  obtain ⟨k, hk, hinc, h0⟩ := first_complete_probe disp w p v hv hN
  rw [(read_property_first_complete disp w p k hk hinc h0).2,
    probe_complete disp w p v hv hunit k h0]

/-- A stored property of at most `2^31` bytes is read whole by `read_property`. -/
theorem read_property_stored (disp : Display) (w : Window) (p : Atom)
    (v : StoredProperty) (hv : disp.properties w p = some v) (hunit : 1 ≤ v.format / 8)
    (hN : v.data.length * (v.format / 8) ≤ 2147483648) :
    read_property disp w p =
      some { data := v.data, format := v.format, nitems := wrap_int v.data.length,
             type := v.type } :=
  read_property_stored_wide disp w p v hv hunit (by omega)

theorem probe_absent (disp : Display) (w : Window) (p : Atom)
    (h : disp.properties w p = none) (j : Nat) :
    probe disp w p j =
      { actual_type := None, actual_format := 0, nitems := 0, bytes_after := 0,
        prop := [] } := by
  simp [probe, XGetWindowProperty, h]

theorem read_property_absent (disp : Display) (w : Window) (p : Atom)
    (h : disp.properties w p = none) :
    read_property disp w p = some { data := [], format := 0, nitems := 0, type := None } := by
  have h0 : (probe disp w p 0).bytes_after = 0 := by rw [probe_absent disp w p h]
  rw [(read_property_first_complete disp w p 0 (by omega) (fun i hi => by omega) h0).2,
    probe_absent disp w p h]
  rfl


/-! ## The consumer: selection notifications -/

/-- C9. On a selection notification whose property field is `None` the round ends the run:
`main` returns 3 when the target of the notification is `TARGETS` and 2 for any other
target; nothing is written to `cout`, no request is issued and no variable changes. -/
theorem paste_event_conversion_failed (cfg : PasteConfig) (disp : Display) (st : PasteState)
    (m : XClientMessageEvent) (e : XSelectionEvent) (h : e.property = None) :
    paste_event cfg disp st m (XEvent.SelectionNotify e) =
      some { state := st, disp := disp, requests := [], cout := [],
             exit_code := some (if e.target = cfg.XA_TARGETS then 3 else 2) } := by
  by_cases hT : e.target = cfg.XA_TARGETS <;>
    simp [paste_event, paste_selection_notify, h, hT]

/-- C9 at two notifications with property `None`: for the target `TARGETS` the exit code is
3 (nothing owns the selection), for the target `text/plain` it is 2 (conversion refused). -/
theorem paste_event_conversion_failed_codes :
    (paste_event scenario_paste_config scenario_display PasteState.initial scenario_garbage
        (XEvent.SelectionNotify
          { requestor := 7, selection := 1, target := 100, property := None, time := 0 })
      = some { state := PasteState.initial, disp := scenario_display, requests := [],
               cout := [], exit_code := some 3 }) ∧
    (paste_event scenario_paste_config scenario_display (awaiting_data 102) scenario_garbage
        (XEvent.SelectionNotify
          { requestor := 7, selection := 1, target := 102, property := None, time := 0 })
      = some { state := awaiting_data 102, disp := scenario_display, requests := [],
               cout := [], exit_code := some 2 }) :=
  ⟨paste_event_conversion_failed scenario_paste_config scenario_display PasteState.initial
      scenario_garbage _ rfl,
   paste_event_conversion_failed scenario_paste_config scenario_display (awaiting_data 102)
      scenario_garbage _ rfl⟩

/-- C10. On a successful notification for `TARGETS` while no data request has been sent, the
negotiator runs on the property read from the consumer's window against the priority table.
When it returns `None` the round ends the run with exit code 1 and issues no request. When
it returns an atom `t`, the round issues exactly one `XConvertSelection` for `t` on the same
selection, records `t` as `to_be_requested`, writes nothing to `cout` and the loop goes on. -/
theorem paste_event_targets_delivered (cfg : PasteConfig) (disp : Display) (st : PasteState)
    (m : XClientMessageEvent) (e : XSelectionEvent) (prop : Property)
    (hp : e.property ≠ None) (hT : e.target = cfg.XA_TARGETS) (hfirst : st.sent_request = false)
    (hread : read_property disp cfg.w cfg.sel = some prop) :
    (pick_target_from_targets disp cfg.XA_TARGETS prop cfg.datatypes = None →
      paste_event cfg disp st m (XEvent.SelectionNotify e) =
        some { state := { st with sent_request := true, to_be_requested := None },
               disp := disp, requests := [], cout := [], exit_code := some 1 }) ∧
    (pick_target_from_targets disp cfg.XA_TARGETS prop cfg.datatypes ≠ None →
      paste_event cfg disp st m (XEvent.SelectionNotify e) =
        some { state := { st with sent_request := true,
                                  to_be_requested :=
                                    pick_target_from_targets disp cfg.XA_TARGETS prop
                                      cfg.datatypes },
               disp := disp,
               requests := [XRequest.ConvertSelection cfg.sel
                              (pick_target_from_targets disp cfg.XA_TARGETS prop cfg.datatypes)
                              cfg.sel cfg.w CurrentTime],
               cout := [], exit_code := none }) := by
  constructor
  · intro hpick
    simp [paste_event, paste_selection_notify, hp, hT, hfirst, hread, hpick]
  · intro hpick
    simp [paste_event, paste_selection_notify, hp, hT, hfirst, hread, hpick]

/-- C10 on the scenario display after the producer published `TARGETS, MULTIPLE, STRING,
text/plain`: with the default table the consumer requests `STRING` and goes on; with the
table `image/png ↦ 2` nothing matches and the run ends with exit code 1. -/
theorem paste_event_targets_delivered_scenario :
    (scenario_targets_notify.property ≠ None ∧
      scenario_targets_notify.target = scenario_paste_config.XA_TARGETS ∧
      PasteState.initial.sent_request = false ∧
      read_property scenario_display_targets 7 1 =
        some { data := [100, 104, 31, 102], format := 32, nitems := 4, type := XA_ATOM }) ∧
    (pick_target_from_targets scenario_display_targets 100
        { data := [100, 104, 31, 102], format := 32, nitems := 4, type := XA_ATOM }
        scenario_paste_config.datatypes = 31 ∧
      paste_event scenario_paste_config scenario_display_targets PasteState.initial
          scenario_garbage (XEvent.SelectionNotify scenario_targets_notify) =
        some { state := { PasteState.initial with
                            sent_request := true,
                            to_be_requested :=
                              pick_target_from_targets scenario_display_targets 100
                                { data := [100, 104, 31, 102], format := 32, nitems := 4,
                                  type := XA_ATOM }
                                scenario_paste_config.datatypes },
               disp := scenario_display_targets,
               requests := [XRequest.ConvertSelection 1
                              (pick_target_from_targets scenario_display_targets 100
                                { data := [100, 104, 31, 102], format := 32, nitems := 4,
                                  type := XA_ATOM }
                                scenario_paste_config.datatypes)
                              1 7 CurrentTime],
               cout := [], exit_code := none }) ∧
    (paste_event scenario_paste_config_png scenario_display_targets PasteState.initial
          scenario_garbage (XEvent.SelectionNotify scenario_targets_notify) =
        some { state := { PasteState.initial with sent_request := true,
                                                  to_be_requested := None },
               disp := scenario_display_targets, requests := [], cout := [],
               exit_code := some 1 }) :=
  ⟨⟨by decide, rfl, rfl, by decide⟩,
   ⟨by decide,
    (paste_event_targets_delivered scenario_paste_config scenario_display_targets
      PasteState.initial scenario_garbage scenario_targets_notify
      { data := [100, 104, 31, 102], format := 32, nitems := 4, type := XA_ATOM }
      (by decide) rfl rfl (by decide)).2 (by decide)⟩,
   (paste_event_targets_delivered scenario_paste_config_png scenario_display_targets
      PasteState.initial scenario_garbage scenario_targets_notify
      { data := [100, 104, 31, 102], format := 32, nitems := 4, type := XA_ATOM }
      (by decide) rfl rfl (by decide)).1 (by decide)⟩

/-! ## Round trip from the producer to the consumer -/

theorem wrap_int_of_range (x : Int) (h1 : -2147483648 ≤ x) (h2 : x < 2147483648) :
    wrap_int x = x := by
  unfold wrap_int
  omega

theorem process_selection_request_data_eq (g : Globals) (disp : Display) (M : TypedDataMap)
    (r : XSelectionRequestEvent) (bytes : List Nat) (hT : r.target ≠ g.XA_TARGETS)
    (hM : M.find r.target = some bytes) :
    process_selection_request g disp (XEvent.SelectionRequest r) M =
      (XChangeProperty disp r.requestor r.property r.target 8 bytes,
        [XRequest.SendEvent r.requestor true 0
          (XEvent.SelectionNotify
            { requestor := r.requestor, selection := r.selection, target := r.target,
              property := r.property, time := r.time })]) := by
  simp [process_selection_request, hT, StdMap.count, hM, TypedDataMap.at_key]

/-- What the consumer does on a notification for its negotiated target: it writes the
property it read to `cout` and returns 0. -/
theorem paste_event_data_delivered (cfg : PasteConfig) (disp : Display) (st : PasteState)
    (m : XClientMessageEvent) (e : XSelectionEvent) (prop : Property)
    (hp : e.property ≠ None) (hread : read_property disp cfg.w cfg.sel = some prop)
    (hfirst : ¬ (e.target = cfg.XA_TARGETS ∧ st.sent_request = false))
    (hneg : e.target = st.to_be_requested) :
    ∃ step, paste_event cfg disp st m (XEvent.SelectionNotify e) = some step ∧
      step.state = st ∧ step.cout = prop.written ∧ step.exit_code = some 0 := by
  by_cases hx : cfg.do_xdnd ≠ 0
  · exact ⟨_, by simp only [paste_event, paste_selection_notify, if_neg hp, hread,
      if_neg hfirst, if_pos hneg, if_pos hx]; rfl, rfl, rfl, rfl⟩
  · exact ⟨_, by simp only [paste_event, paste_selection_notify, if_neg hp, hread,
      if_neg hfirst, if_pos hneg, if_neg hx]; rfl, rfl, rfl, rfl⟩

/-- The bytes `cout.write` emits for a format 8 property of `bytes.length` elements. -/
theorem written_format_8 (bytes : List Nat) (type : Atom) :
    Property.written { data := bytes, format := 8, nitems := wrap_int bytes.length, type := type }
      = bytes.take (Int.tdiv (wrap_int (wrap_int bytes.length * 8)) 8).toNat := by
  have hchars : List.flatMap bytes (element_chars 8) = bytes := by
    have : element_chars 8 = fun x => [x] := by
      funext x
      simp [element_chars]
    rw [this, List.flatMap_singleton']
  simp only [Property.written, Property.chars, Property.write_count, hchars]

/-- The consumer's step on the notification that answers a request for a data target `t`
whose bytes the producer put in the property the consumer reads. -/
theorem round_trip_cout (g : Globals) (cfg : PasteConfig) (disp : Display) (st : PasteState)
    (m : XClientMessageEvent) (M : TypedDataMap) (r : XSelectionRequestEvent)
    (bytes : List Nat) (hM : M.find r.target = some bytes) (hT : r.target ≠ g.XA_TARGETS)
    (hsame : cfg.XA_TARGETS = g.XA_TARGETS) (hw : r.requestor = cfg.w)
    (hq : r.property = cfg.sel) (hq0 : r.property ≠ None)
    (hneg : st.to_be_requested = r.target) (hlen : bytes.length ≤ 2147483648) :
    ∃ step,
      paste_event cfg (process_selection_request g disp (XEvent.SelectionRequest r) M).1 st m
          (XEvent.SelectionNotify
            { requestor := r.requestor, selection := r.selection, target := r.target,
              property := r.property, time := r.time }) = some step ∧
      step.state = st ∧
      step.cout = bytes.take (Int.tdiv (wrap_int (wrap_int bytes.length * 8)) 8).toNat ∧
      step.exit_code = some 0 := by
  rw [process_selection_request_data_eq g disp M r bytes hT hM]
  have hstored : (XChangeProperty disp r.requestor r.property r.target 8 bytes).properties
      cfg.w cfg.sel = some { type := r.target, format := 8, data := bytes } := by
    rw [← hw, ← hq]
    exact XChangeProperty_same disp _ _ _ _ _
  have hread := read_property_stored _ cfg.w cfg.sel _ hstored (by norm_num)
    (by simpa using hlen)
  have hstep := paste_event_data_delivered cfg _ st m
    { requestor := r.requestor, selection := r.selection, target := r.target,
      property := r.property, time := r.time } _ hq0 hread
    (by
      rintro ⟨h1, _⟩
      exact hT (h1.trans hsame))
    hneg.symm
  rcases hstep with ⟨step, h1, h2, h3, h4⟩
  exact ⟨step, h1, h2, by rw [h3]; exact written_format_8 bytes r.target, h4⟩

/-- C4 fails as stated, at two inputs. (1) When the atom `TARGETS` is itself a key of the
data map, a request for it is answered with the target list, and a consumer whose negotiated
target is `TARGETS` writes the first 12 bytes of that list of `long`s, not the bytes `[1]`
stored under the key. (2) For a payload of `2^28` bytes the product `nitems * format`
leaves the range of `int`, the count passed to `cout.write` is negative and nothing is
written. -/
theorem selection_round_trip_fails :
    (targets_key_typed_data.find scenario_targets_request.target = some [1] ∧
      (process_selection_request scenario_globals scenario_display
          (XEvent.SelectionRequest scenario_targets_request) targets_key_typed_data).2 =
        [XRequest.SendEvent 7 true 0 (XEvent.SelectionNotify scenario_targets_notify)] ∧
      Option.map PasteStep.cout
          (paste_event scenario_paste_config_targets
            (process_selection_request scenario_globals scenario_display
              (XEvent.SelectionRequest scenario_targets_request) targets_key_typed_data).1
            (awaiting_data 100) scenario_garbage
            (XEvent.SelectionNotify scenario_targets_notify)) =
        some [100, 0, 0, 0, 0, 0, 0, 0, 104, 0, 0, 0]) ∧
    (large_typed_data.find scenario_data_request.target =
        some (List.replicate 268435456 0) ∧
      (process_selection_request scenario_globals scenario_display
          (XEvent.SelectionRequest scenario_data_request) large_typed_data).2 =
        [XRequest.SendEvent 7 true 0 (XEvent.SelectionNotify scenario_data_notify)] ∧
      Option.map PasteStep.cout
          (paste_event scenario_paste_config_plain
            (process_selection_request scenario_globals scenario_display
              (XEvent.SelectionRequest scenario_data_request) large_typed_data).1
            (awaiting_data 102) scenario_garbage
            (XEvent.SelectionNotify scenario_data_notify)) = some [] ∧
      (List.replicate 268435456 0).length = 268435456) := by
  refine ⟨⟨by decide, by decide, by decide⟩, ⟨rfl, ?_, ?_, List.length_replicate _ _⟩⟩
  · have h := process_selection_request_data_eq scenario_globals scenario_display
      large_typed_data scenario_data_request (List.replicate 268435456 0) (by decide) rfl
    rw [h]
    rfl
  · obtain ⟨step, h1, _, h3, _⟩ := round_trip_cout scenario_globals scenario_paste_config_plain
      scenario_display (awaiting_data 102) scenario_garbage large_typed_data
      scenario_data_request (List.replicate 268435456 0) rfl (by decide) rfl rfl rfl
      (by decide) rfl (by rw [List.length_replicate]; decide)
    have hcount : (Int.tdiv (wrap_int (wrap_int ((268435456 : Nat) : Int) * 8)) 8).toNat = 0 := by
      decide
    rw [List.length_replicate, hcount, List.take_zero] at h3
    have h1' : paste_event scenario_paste_config_plain
        (process_selection_request scenario_globals scenario_display
          (XEvent.SelectionRequest scenario_data_request) large_typed_data).1
        (awaiting_data 102) scenario_garbage
        (XEvent.SelectionNotify scenario_data_notify) = some step := h1
    rw [h1', Option.map_some', h3]

/-- C4, amended. Round trip: for every data map `M` and every target `t` that is a key of
`M`, is not `TARGETS`, and whose bytes `M[t]` are fewer than `2^28`: when
`process_selection_request` answers a request for `t` of the consumer's window into the
property the consumer reads, and the consumer handles the resulting notification for its
negotiated target `t`, the bytes the consumer writes to `cout` are exactly `M[t]` and the run
ends with exit code 0. -/
theorem selection_round_trip (g : Globals) (cfg : PasteConfig) (disp : Display)
    (st : PasteState) (m : XClientMessageEvent) (M : TypedDataMap)
    (r : XSelectionRequestEvent) (bytes : List Nat)
    (hM : M.find r.target = some bytes) (hT : r.target ≠ g.XA_TARGETS)
    (hsame : cfg.XA_TARGETS = g.XA_TARGETS) (hw : r.requestor = cfg.w)
    (hq : r.property = cfg.sel) (hq0 : r.property ≠ None)
    (hneg : st.to_be_requested = r.target) (hlen : bytes.length < 268435456) :
    ∃ n step,
      (process_selection_request g disp (XEvent.SelectionRequest r) M).2 =
        [XRequest.SendEvent r.requestor true 0 (XEvent.SelectionNotify n)] ∧
      n.target = r.target ∧
      paste_event cfg (process_selection_request g disp (XEvent.SelectionRequest r) M).1 st m
          (XEvent.SelectionNotify n) = some step ∧
      step.cout = bytes ∧ step.exit_code = some 0 := by
  obtain ⟨step, h1, _, h3, h4⟩ := round_trip_cout g cfg disp st m M r bytes hM hT hsame hw
    hq hq0 hneg (by omega)
  refine ⟨_, step, ?_, rfl, h1, ?_, h4⟩
  · rw [process_selection_request_data_eq g disp M r bytes hT hM]
  · have hw1 : wrap_int (bytes.length : Int) = bytes.length :=
      wrap_int_of_range _ (by omega) (by omega)
    have hw2 : wrap_int ((bytes.length : Int) * 8) = (bytes.length : Int) * 8 :=
      wrap_int_of_range _ (by omega) (by omega)
    rw [h3, hw1, hw2, Int.mul_tdiv_cancel _ (by norm_num), Int.toNat_ofNat, List.take_length]

/-- C4, amended, on the scenario map: the consumer that negotiated `text/plain` writes the
two bytes of `hi`. -/
theorem selection_round_trip_scenario :
    (scenario_typed_data.find scenario_data_request.target = some [104, 105] ∧
      scenario_data_request.target ≠ scenario_globals.XA_TARGETS ∧
      scenario_paste_config_plain.XA_TARGETS = scenario_globals.XA_TARGETS ∧
      scenario_data_request.requestor = scenario_paste_config_plain.w ∧
      scenario_data_request.property = scenario_paste_config_plain.sel ∧
      scenario_data_request.property ≠ None ∧
      (awaiting_data 102).to_be_requested = scenario_data_request.target ∧
      [104, 105].length < 268435456) ∧
    ∃ n step,
      (process_selection_request scenario_globals scenario_display
          (XEvent.SelectionRequest scenario_data_request) scenario_typed_data).2 =
        [XRequest.SendEvent scenario_data_request.requestor true 0 (XEvent.SelectionNotify n)] ∧
      n.target = scenario_data_request.target ∧
      paste_event scenario_paste_config_plain
          (process_selection_request scenario_globals scenario_display
            (XEvent.SelectionRequest scenario_data_request) scenario_typed_data).1
          (awaiting_data 102) scenario_garbage (XEvent.SelectionNotify n) = some step ∧
      step.cout = [104, 105] ∧ step.exit_code = some 0 :=
  ⟨⟨by decide, by decide, rfl, rfl, rfl, by decide, rfl, by decide⟩,
   selection_round_trip scenario_globals scenario_paste_config_plain scenario_display
     (awaiting_data 102) scenario_garbage scenario_typed_data scenario_data_request
     [104, 105] (by decide) (by decide) rfl rfl rfl (by decide) rfl (by decide)⟩

/-! ## The consumer: runs -/

theorem paste_client_message_quiet (cfg : PasteConfig) (disp : Display) (st : PasteState)
    (m : XClientMessageEvent) (x : XClientMessageEvent) (step : PasteStep)
    (h : paste_client_message cfg disp st m x = some step) :
    step.cout = [] ∧ step.exit_code = none := by
  cases hr : read_property disp (ulong_of x.l0) cfg.XdndTypeList <;>
    simp only [paste_client_message, hr] at h <;>
    split_ifs at h <;>
    cases h <;> exact ⟨rfl, rfl⟩

theorem paste_event_running_cout (cfg : PasteConfig) (disp : Display) (st : PasteState)
    (m : XClientMessageEvent) (e : XEvent) (step : PasteStep)
    (h : paste_event cfg disp st m e = some step) (hx : step.exit_code = none) :
    step.cout = [] := by
  cases e with
  | ClientMessage x => exact (paste_client_message_quiet cfg disp st m x step h).1
  | SelectionNotify x =>
    cases hr : read_property disp cfg.w cfg.sel <;>
      simp only [paste_event, paste_selection_notify, hr] at h <;>
      split_ifs at h <;>
      cases h <;> first | rfl | cases hx
  | _ =>
    simp only [paste_event, Option.some.injEq] at h
    subst h
    rfl

theorem paste_run_quiet_prefix (cfg : PasteConfig) :
    ∀ (inputs : List PasteInput) (st : PasteState) (i : Nat) (s : PasteStep),
      (paste_run cfg st inputs)[i]? = some s → i + 1 < (paste_run cfg st inputs).length →
      s.cout = [] ∧ s.exit_code = none := by
  intro inputs
  induction inputs with
  | nil =>
    intro st i s h
    simp [paste_run] at h
  | cons inp rest ih =>
    intro st i s h hlen
    cases hev : paste_event cfg inp.disp st inp.m inp.e with
    | none => simp [paste_run, hev] at h
    | some step =>
      cases hx : step.exit_code with
      | some c => simp [paste_run, hev, hx] at hlen
      | none =>
        have hrun : paste_run cfg st (inp :: rest) = step :: paste_run cfg step.state rest := by
          simp [paste_run, hev, hx]
        rw [hrun] at h hlen
        cases i with
        | zero =>
          simp only [List.getElem?_cons_zero, Option.some.injEq] at h
          subst h
          exact ⟨paste_event_running_cout cfg inp.disp st inp.m inp.e _ hev hx, hx⟩
        | succ j =>
          simp only [List.getElem?_cons_succ] at h
          simp only [List.length_cons] at hlen
          exact ih _ j s h (by omega)

theorem paste_run_payload_writes (cfg : PasteConfig) :
    ∀ (inputs : List PasteInput) (st : PasteState),
      payload_writes (paste_run cfg st inputs) ≤ 1 := by
  intro inputs
  induction inputs with
  | nil =>
    intro st
    simp [paste_run, payload_writes]
  | cons inp rest ih =>
    intro st
    cases hev : paste_event cfg inp.disp st inp.m inp.e with
    | none => simp [paste_run, hev, payload_writes]
    | some step =>
      cases hx : step.exit_code with
      | some c =>
        have hrun : paste_run cfg st (inp :: rest) = [step] := by
          simp [paste_run, hev, hx]
        rw [hrun]
        exact le_trans (List.length_filter_le _ _) (by simp)
      | none =>
        have hrun : paste_run cfg st (inp :: rest) = step :: paste_run cfg step.state rest := by
          simp [paste_run, hev, hx]
        have hq := paste_event_running_cout cfg inp.disp st inp.m inp.e _ hev hx
        rw [hrun]
        have := ih step.state
        simpa [payload_writes, hq] using this

/-- C11. The consumer is single-shot. In every run at most one round writes to `cout`, and
every round but the last writes nothing and does not return. A notification with a property
for the negotiated target writes the bytes of the property read and ends the run with exit
code 0; a notification with a property for any other target ends the run with exit code 0,
writes nothing and issues no request. Both hold once the data request was sent
(`sent_request` set), and also for any target other than `TARGETS`. -/
theorem paste_run_single_shot (cfg : PasteConfig) (st0 : PasteState)
    (inputs : List PasteInput) (disp : Display) (st : PasteState) (m : XClientMessageEvent)
    (e : XSelectionEvent) (prop : Property) (hp : e.property ≠ None)
    (hsent : st.sent_request = true ∨ e.target ≠ cfg.XA_TARGETS)
    (hread : read_property disp cfg.w cfg.sel = some prop) :
    payload_writes (paste_run cfg st0 inputs) ≤ 1 ∧
    (∀ (i : Nat) (s : PasteStep), (paste_run cfg st0 inputs)[i]? = some s →
      i + 1 < (paste_run cfg st0 inputs).length → s.cout = [] ∧ s.exit_code = none) ∧
    (e.target = st.to_be_requested →
      ∃ step, paste_event cfg disp st m (XEvent.SelectionNotify e) = some step ∧
        step.state = st ∧ step.cout = prop.written ∧ step.exit_code = some 0) ∧
    (e.target ≠ st.to_be_requested →
      paste_event cfg disp st m (XEvent.SelectionNotify e) =
        some { state := st, disp := disp, requests := [], cout := [],
               exit_code := some 0 }) := by
  have hfirst : ¬ (e.target = cfg.XA_TARGETS ∧ st.sent_request = false) := by
    rintro ⟨h1, h2⟩
    rcases hsent with h | h
    · rw [h2] at h
      cases h
    · exact h h1
  refine ⟨paste_run_payload_writes cfg inputs st0, paste_run_quiet_prefix cfg inputs st0, ?_, ?_⟩
  · intro hneg
    exact paste_event_data_delivered cfg disp st m e prop hp hread hfirst hneg
  · intro hne
    simp only [paste_event, paste_selection_notify, if_neg hp, hread, if_neg hfirst,
      if_neg hne]

/-- C11 on the scenario paste: the run negotiates `text/plain`, then writes the two bytes of
`hi` once and returns 0; while `text/plain` is awaited, its notification writes the two
bytes and a stray notification for `image/png` ends the run with nothing written. -/
theorem paste_run_single_shot_scenario :
    (scenario_data_notify.property ≠ None ∧ scenario_stray_notify.property ≠ None ∧
      (awaiting_data 102).sent_request = true ∧
      read_property scenario_display_data 7 1 =
        some { data := [104, 105], format := 8, nitems := 2, type := 102 }) ∧
    (run_cout (paste_run scenario_paste_config_plain PasteState.initial scenario_paste_inputs)
        = [104, 105] ∧
      run_exit_code
          (paste_run scenario_paste_config_plain PasteState.initial scenario_paste_inputs)
        = some 0 ∧
      payload_writes
          (paste_run scenario_paste_config_plain PasteState.initial scenario_paste_inputs)
        = 1) ∧
    (∃ step, paste_event scenario_paste_config_plain scenario_display_data
          (awaiting_data 102) scenario_garbage (XEvent.SelectionNotify scenario_data_notify)
        = some step ∧
      step.state = awaiting_data 102 ∧
      step.cout =
        Property.written { data := [104, 105], format := 8, nitems := 2, type := 102 } ∧
      step.exit_code = some 0) ∧
    (paste_event scenario_paste_config_plain scenario_display_data (awaiting_data 102)
        scenario_garbage (XEvent.SelectionNotify scenario_stray_notify) =
      some { state := awaiting_data 102, disp := scenario_display_data, requests := [],
             cout := [], exit_code := some 0 }) :=
  ⟨⟨by decide, by decide, rfl, by decide⟩, ⟨by decide, by decide, by decide⟩,
   (paste_run_single_shot scenario_paste_config_plain PasteState.initial scenario_paste_inputs
     scenario_display_data (awaiting_data 102) scenario_garbage scenario_data_notify
     { data := [104, 105], format := 8, nitems := 2, type := 102 }
     (by decide) (Or.inl rfl) (by decide)).2.2.1 rfl,
   (paste_run_single_shot scenario_paste_config_plain PasteState.initial scenario_paste_inputs
     scenario_display_data (awaiting_data 102) scenario_garbage scenario_stray_notify
     { data := [104, 105], format := 8, nitems := 2, type := 102 }
     (by decide) (Or.inl rfl) (by decide)).2.2.2 (by decide)⟩

/-! ## The drop target -/

/-- C12. On every `XdndPosition` message, in every state, the drop target sends exactly one
event: an `XdndStatus` to the source window named in the message, whose accept word is 1
when `to_be_requested` is not `None` and 0 when it is `None`, and whose action is
`XdndActionCopy`, whatever action the message carries and whatever version is recorded. The
variables do not change. -/
theorem paste_event_position_status (cfg : PasteConfig) (disp : Display) (st : PasteState)
    (m : XClientMessageEvent) (x : XClientMessageEvent)
    (hP : x.message_type = cfg.XdndPosition) (hPE : cfg.XdndPosition ≠ cfg.XdndEnter) :
    paste_event cfg disp st m (XEvent.ClientMessage x) =
      some { state := st, disp := disp,
             requests := [XRequest.SendEvent (ulong_of x.l0) false 0
               (XEvent.ClientMessage
                 { m with window := ulong_of x.l0, message_type := cfg.XdndStatus, format := 32,
                          l0 := long_of cfg.drop_window,
                          l1 := if st.to_be_requested ≠ None then 1 else 0,
                          l2 := 0, l3 := 0, l4 := long_of cfg.XdndActionCopy })],
             cout := [], exit_code := none } ∧
    ((if st.to_be_requested ≠ None then (1 : Int) else 0) = 1 ↔ st.to_be_requested ≠ None) := by
  constructor
  · simp only [paste_event, paste_client_message, hP, if_neg hPE, if_true]
  · by_cases h : st.to_be_requested = None <;> simp [h]

/-- C12 in the scenario session: with `text/plain` negotiated the status accepts, with
nothing negotiated it does not; the action asked for (atom 121) is not echoed. -/
theorem paste_event_position_status_scenario :
    (scenario_position.message_type = scenario_drop_config.XdndPosition ∧
      scenario_drop_config.XdndPosition ≠ scenario_drop_config.XdndEnter) ∧
    paste_event scenario_drop_config scenario_display (armed 102 3) scenario_garbage
        (XEvent.ClientMessage scenario_position) =
      some { state := armed 102 3, disp := scenario_display,
             requests := [XRequest.SendEvent 8 false 0
               (XEvent.ClientMessage
                 { window := 8, message_type := 117, format := 32, l0 := 7, l1 := 1, l2 := 0,
                   l3 := 0, l4 := 116 })],
             cout := [], exit_code := none } ∧
    paste_event scenario_drop_config scenario_display (armed None 3) scenario_garbage
        (XEvent.ClientMessage scenario_position) =
      some { state := armed None 3, disp := scenario_display,
             requests := [XRequest.SendEvent 8 false 0
               (XEvent.ClientMessage
                 { window := 8, message_type := 117, format := 32, l0 := 7, l1 := 0, l2 := 0,
                   l3 := 0, l4 := 116 })],
             cout := [], exit_code := none } :=
  ⟨⟨rfl, by decide⟩,
   (paste_event_position_status scenario_drop_config scenario_display (armed 102 3)
     scenario_garbage scenario_position rfl (by decide)).1,
   (paste_event_position_status scenario_drop_config scenario_display (armed None 3)
     scenario_garbage scenario_position rfl (by decide)).1⟩

/-- C13 fails as stated. With the default priority table `STRING ↦ 1`, an `XdndEnter` that
signals more than three formats from a source window without a type list (the read gives
type `None`, width 0 and no items) leaves the negotiated target `STRING`, not `None`. -/
theorem paste_event_enter_type_list_absent_default :
    scenario_enter_more.l1 % 2 = 1 ∧
    scenario_display.properties 8 scenario_drop_config_default.XdndTypeList = none ∧
    read_property scenario_display 8 scenario_drop_config_default.XdndTypeList =
      some { data := [], format := 0, nitems := 0, type := None } ∧
    Option.map (fun s => s.state.to_be_requested)
        (paste_event scenario_drop_config_default scenario_display PasteState.initial
          scenario_garbage (XEvent.ClientMessage scenario_enter_more)) = some XA_STRING ∧
    XA_STRING ≠ None := by
  decide

/-- C13, amended. When the drop target receives an `XdndEnter` whose payload signals more
than three formats and the source window has no type list property, the read gives type
`None`, width 0 and no items, and the negotiated target becomes `STRING` when `STRING` is a
key of the priority table and `None` otherwise. -/
theorem paste_event_enter_type_list_absent (cfg : PasteConfig) (disp : Display)
    (st : PasteState) (m : XClientMessageEvent) (x : XClientMessageEvent)
    (hE : x.message_type = cfg.XdndEnter) (hmore : x.l1 % 2 ≠ 0)
    (habsent : disp.properties (ulong_of x.l0) cfg.XdndTypeList = none) :
    read_property disp (ulong_of x.l0) cfg.XdndTypeList =
      some { data := [], format := 0, nitems := 0, type := None } ∧
    paste_event cfg disp st m (XEvent.ClientMessage x) =
      some { state := { st with xdnd_version := wrap_int (x.l1 >>> 24),
                                to_be_requested :=
                                  if (cfg.datatypes.find "STRING").isSome then XA_STRING
                                  else None },
             disp := disp, requests := [], cout := [], exit_code := none } := by
  have hread := read_property_absent disp (ulong_of x.l0) cfg.XdndTypeList habsent
  refine ⟨hread, ?_⟩
  by_cases hS : (cfg.datatypes.find "STRING").isSome <;>
    simp [paste_event, paste_client_message, hE, hmore, hread, pick_target_from_targets,
      StdMap.count, hS]

/-- C13, amended, in the scenario session: with the table `text/plain ↦ 2` the negotiated
target becomes `None`, with the default table it becomes `STRING`. -/
theorem paste_event_enter_type_list_absent_scenario :
    (scenario_enter_more.message_type = scenario_drop_config.XdndEnter ∧
      scenario_enter_more.l1 % 2 ≠ 0 ∧
      scenario_display.properties (ulong_of scenario_enter_more.l0)
        scenario_drop_config.XdndTypeList = none) ∧
    paste_event scenario_drop_config scenario_display (armed 102 3) scenario_garbage
        (XEvent.ClientMessage scenario_enter_more) =
      some { state := armed None 5, disp := scenario_display, requests := [], cout := [],
             exit_code := none } ∧
    paste_event scenario_drop_config_default scenario_display (armed 102 3) scenario_garbage
        (XEvent.ClientMessage scenario_enter_more) =
      some { state := armed XA_STRING 5, disp := scenario_display, requests := [], cout := [],
             exit_code := none } :=
  ⟨⟨rfl, by decide, by decide⟩,
   (paste_event_enter_type_list_absent scenario_drop_config scenario_display (armed 102 3)
     scenario_garbage scenario_enter_more rfl (by decide) (by decide)).2,
   (paste_event_enter_type_list_absent scenario_drop_config_default scenario_display
     (armed 102 3) scenario_garbage scenario_enter_more rfl (by decide) (by decide)).2⟩

theorem shiftRight_24 (x : Int) (h : 0 ≤ x) : x >>> (24 : Int) = x / 16777216 := by
  obtain ⟨n, rfl⟩ := Int.eq_ofNat_of_zero_le h
  have h1 := Int.shiftRight_coe_nat n 24
  have h2 : (((24 : ℕ) : ℤ)) = (24 : ℤ) := rfl
  rw [h2] at h1
  rw [h1, Nat.shiftRight_eq_div_pow]
  norm_num

theorem pick_target_from_atoms_eq (disp : Display) (t1 t2 t3 : Atom)
    (P : StdMap String Int) :
    pick_target_from_atoms disp t1 t2 t3 P =
      pick_target_from_list disp ([t1, t2, t3].filter (fun a => decide (a ≠ None))) P := by
  by_cases h1 : t1 = None <;> by_cases h2 : t2 = None <;> by_cases h3 : t3 = None <;>
    simp [pick_target_from_atoms, h1, h2, h3]

/-- C14. On every `XdndEnter` message the drop target records as version the second payload
word shifted right by 24 (its top byte, for a 32 bit word). When the low bit of that word is
clear, the negotiated target becomes `pick_target_from_list` on the three inline atoms with
the `None` entries removed and the order kept; when it is set, the negotiated target becomes
`pick_target_from_targets` on the type list property read from the source window. In both
cases the previous target is overwritten, nothing is sent and nothing else changes. -/
theorem paste_event_enter (cfg : PasteConfig) (disp : Display) (st : PasteState)
    (m : XClientMessageEvent) (x : XClientMessageEvent)
    (hE : x.message_type = cfg.XdndEnter) :
    (x.l1 % 2 = 0 →
      paste_event cfg disp st m (XEvent.ClientMessage x) =
        some { state := { st with
                 xdnd_version := wrap_int (x.l1 >>> 24),
                 to_be_requested :=
                   pick_target_from_list disp
                     ([ulong_of x.l2, ulong_of x.l3, ulong_of x.l4].filter
                       (fun a => decide (a ≠ None)))
                     cfg.datatypes },
               disp := disp, requests := [], cout := [], exit_code := none }) ∧
    (x.l1 % 2 ≠ 0 → ∀ p, read_property disp (ulong_of x.l0) cfg.XdndTypeList = some p →
      paste_event cfg disp st m (XEvent.ClientMessage x) =
        some { state := { st with
                 xdnd_version := wrap_int (x.l1 >>> 24),
                 to_be_requested := pick_target_from_targets disp cfg.XA_TARGETS p cfg.datatypes },
               disp := disp, requests := [], cout := [], exit_code := none }) ∧
    (0 ≤ x.l1 → x.l1 < 4294967296 →
      wrap_int (x.l1 >>> 24) = x.l1 / 16777216 ∧ 0 ≤ x.l1 / 16777216 ∧
        x.l1 / 16777216 < 256) := by
  refine ⟨?_, ?_, ?_⟩
  · intro h0
    simp [paste_event, paste_client_message, hE, h0, pick_target_from_atoms_eq]
  · intro h1 p hp
    simp [paste_event, paste_client_message, hE, h1, hp]
  · intro h0 h1
    rw [shiftRight_24 x.l1 h0]
    have hlo : 0 ≤ x.l1 / 16777216 := by omega
    have hhi : x.l1 / 16777216 < 256 := by omega
    exact ⟨wrap_int_of_range _ (by omega) (by omega), hlo, hhi⟩

/-- C14 in the scenario session: the enter with version 3 and the inline type `text/plain`
records version 3 and negotiates `text/plain`, replacing the earlier target. -/
theorem paste_event_enter_scenario :
    scenario_enter.message_type = scenario_drop_config.XdndEnter ∧
    scenario_enter.l1 % 2 = 0 ∧
    paste_event scenario_drop_config scenario_display (armed 31 0) scenario_garbage
        (XEvent.ClientMessage scenario_enter) =
      some { state := { armed 31 0 with
               xdnd_version := wrap_int (scenario_enter.l1 >>> 24),
               to_be_requested :=
                 pick_target_from_list scenario_display
                   ([ulong_of scenario_enter.l2, ulong_of scenario_enter.l3,
                       ulong_of scenario_enter.l4].filter (fun a => decide (a ≠ None)))
                   scenario_drop_config.datatypes },
             disp := scenario_display, requests := [], cout := [], exit_code := none } ∧
    wrap_int (scenario_enter.l1 >>> 24) = 3 ∧
    pick_target_from_list scenario_display
        ([ulong_of scenario_enter.l2, ulong_of scenario_enter.l3,
            ulong_of scenario_enter.l4].filter (fun a => decide (a ≠ None)))
        scenario_drop_config.datatypes = 102 :=
  ⟨rfl, by decide,
   (paste_event_enter scenario_drop_config scenario_display (armed 31 0) scenario_garbage
     scenario_enter rfl).1 (by decide),
   by decide, by decide⟩

/-- C15. On every `XdndDrop` message: when `to_be_requested` is `None` the drop target sends
one `XdndFinished` to the source window named in the message, with the success word 0 and
the action `None`, and issues no conversion request; otherwise it sends no `XdndFinished`,
records the source window and issues exactly one `XConvertSelection` of the drag selection
to `to_be_requested`, with the time stamp of the message when the recorded version is at
least 1 and `CurrentTime` otherwise (so for version 0). -/
theorem paste_event_drop (cfg : PasteConfig) (disp : Display) (st : PasteState)
    (m : XClientMessageEvent) (x : XClientMessageEvent)
    (hD : x.message_type = cfg.XdndDrop) (hDE : cfg.XdndDrop ≠ cfg.XdndEnter)
    (hDP : cfg.XdndDrop ≠ cfg.XdndPosition) (hDL : cfg.XdndDrop ≠ cfg.XdndLeave) :
    (st.to_be_requested = None →
      paste_event cfg disp st m (XEvent.ClientMessage x) =
        some { state := st, disp := disp,
               requests := [XRequest.SendEvent (ulong_of x.l0) false 0
                 (XEvent.ClientMessage
                   { m with window := ulong_of x.l0, message_type := cfg.XdndFinished,
                            format := 32, l0 := long_of cfg.drop_window, l1 := 0,
                            l2 := long_of None })],
               cout := [], exit_code := none }) ∧
    (st.to_be_requested ≠ None →
      paste_event cfg disp st m (XEvent.ClientMessage x) =
        some { state := { st with xdnd_source_window := ulong_of x.l0 }, disp := disp,
               requests := [XRequest.ConvertSelection cfg.XdndSelection st.to_be_requested
                              cfg.sel cfg.w
                              (if st.xdnd_version ≥ 1 then ulong_of x.l2 else CurrentTime)],
               cout := [], exit_code := none }) ∧
    long_of None = 0 := by
  refine ⟨?_, ?_, by decide⟩
  · intro h0
    simp only [paste_event, paste_client_message, hD, if_neg hDE, if_neg hDP, if_neg hDL,
      if_true, if_pos h0]
  · intro h0
    by_cases hv : st.xdnd_version ≥ 1
    · simp only [paste_event, paste_client_message, hD, if_neg hDE, if_neg hDP, if_neg hDL,
        if_true, if_neg h0, if_pos hv]
    · simp only [paste_event, paste_client_message, hD, if_neg hDE, if_neg hDP, if_neg hDL,
        if_true, if_neg h0, if_neg hv]

/-- C15 in the scenario session: with nothing negotiated the drop is refused at once; with
`text/plain` negotiated at version 3 the conversion carries the time stamp 1234 of the drop,
and at version 0 it carries `CurrentTime`. -/
theorem paste_event_drop_scenario :
    (scenario_drop.message_type = scenario_drop_config.XdndDrop ∧
      scenario_drop_config.XdndDrop ≠ scenario_drop_config.XdndEnter ∧
      scenario_drop_config.XdndDrop ≠ scenario_drop_config.XdndPosition ∧
      scenario_drop_config.XdndDrop ≠ scenario_drop_config.XdndLeave) ∧
    paste_event scenario_drop_config scenario_display (armed None 3) scenario_garbage
        (XEvent.ClientMessage scenario_drop) =
      some { state := armed None 3, disp := scenario_display,
             requests := [XRequest.SendEvent 8 false 0
               (XEvent.ClientMessage
                 { window := 8, message_type := 119, format := 32, l0 := 7, l1 := 0, l2 := 0,
                   l3 := 9, l4 := 9 })],
             cout := [], exit_code := none } ∧
    paste_event scenario_drop_config scenario_display (armed 102 3) scenario_garbage
        (XEvent.ClientMessage scenario_drop) =
      some { state := { armed 102 3 with xdnd_source_window := 8 }, disp := scenario_display,
             requests := [XRequest.ConvertSelection 110 102 1 7 1234],
             cout := [], exit_code := none } ∧
    paste_event scenario_drop_config scenario_display (armed 102 0) scenario_garbage
        (XEvent.ClientMessage scenario_drop) =
      some { state := { armed 102 0 with xdnd_source_window := 8 }, disp := scenario_display,
             requests := [XRequest.ConvertSelection 110 102 1 7 CurrentTime],
             cout := [], exit_code := none } :=
  ⟨⟨rfl, by decide, by decide, by decide⟩,
   (paste_event_drop scenario_drop_config scenario_display (armed None 3) scenario_garbage
     scenario_drop rfl (by decide) (by decide) (by decide)).1 rfl,
   (paste_event_drop scenario_drop_config scenario_display (armed 102 3) scenario_garbage
     scenario_drop rfl (by decide) (by decide) (by decide)).2.1 (by decide),
   (paste_event_drop scenario_drop_config scenario_display (armed 102 0) scenario_garbage
     scenario_drop rfl (by decide) (by decide) (by decide)).2.1 (by decide)⟩

/-- C17. Handling an `XdndLeave` message changes nothing: `to_be_requested`, the recorded
version and every other variable keep their values, nothing is sent and nothing is written.
So an `XdndPosition` that arrives after the leave is answered exactly as it would have been
before it, with the same accept word. -/
theorem paste_event_leave (cfg : PasteConfig) (disp : Display) (st : PasteState)
    (m : XClientMessageEvent) (x : XClientMessageEvent)
    (hL : x.message_type = cfg.XdndLeave) (hLE : cfg.XdndLeave ≠ cfg.XdndEnter)
    (hLP : cfg.XdndLeave ≠ cfg.XdndPosition) :
    paste_event cfg disp st m (XEvent.ClientMessage x) =
      some { state := st, disp := disp, requests := [], cout := [], exit_code := none } ∧
    ∀ step, paste_event cfg disp st m (XEvent.ClientMessage x) = some step →
      step.state.to_be_requested = st.to_be_requested ∧
      step.state.xdnd_version = st.xdnd_version ∧
      ∀ (disp' : Display) (m' : XClientMessageEvent) (position : XClientMessageEvent),
        paste_event cfg disp' step.state m' (XEvent.ClientMessage position) =
          paste_event cfg disp' st m' (XEvent.ClientMessage position) := by
  have h : paste_event cfg disp st m (XEvent.ClientMessage x) =
      some { state := st, disp := disp, requests := [], cout := [], exit_code := none } := by
    simp only [paste_event, paste_client_message, hL, if_neg hLE, if_neg hLP, if_true]
  refine ⟨h, ?_⟩
  intro step hstep
  rw [h] at hstep
  cases hstep
  exact ⟨rfl, rfl, fun _ _ _ => rfl⟩

/-- C17 in the scenario session: after a leave the drop target that negotiated `text/plain`
still holds it, and still accepts at the next position. -/
theorem paste_event_leave_scenario :
    (scenario_leave.message_type = scenario_drop_config.XdndLeave ∧
      scenario_drop_config.XdndLeave ≠ scenario_drop_config.XdndEnter ∧
      scenario_drop_config.XdndLeave ≠ scenario_drop_config.XdndPosition) ∧
    paste_event scenario_drop_config scenario_display (armed 102 3) scenario_garbage
        (XEvent.ClientMessage scenario_leave) =
      some { state := armed 102 3, disp := scenario_display, requests := [], cout := [],
             exit_code := none } ∧
    Option.map (fun s => s.requests)
        (paste_event scenario_drop_config scenario_display (armed 102 3) scenario_garbage
          (XEvent.ClientMessage scenario_position)) =
      some [XRequest.SendEvent 8 false 0
        (XEvent.ClientMessage
          { window := 8, message_type := 117, format := 32, l0 := 7, l1 := 1, l2 := 0,
            l3 := 0, l4 := 116 })] :=
  ⟨⟨rfl, by decide, by decide⟩,
   (paste_event_leave scenario_drop_config scenario_display (armed 102 3) scenario_garbage
     scenario_leave rfl (by decide) (by decide)).1,
   by decide⟩

/-! ## The drop target: scenario D -/

theorem paste_run_cons_running (cfg : PasteConfig) (st : PasteState) (i : PasteInput)
    (rest : List PasteInput) (step : PasteStep)
    (h : paste_event cfg i.disp st i.m i.e = some step) (hx : step.exit_code = none) :
    paste_run cfg st (i :: rest) = step :: paste_run cfg step.state rest := by
  simp [paste_run, h, hx]

theorem paste_run_cons_exit (cfg : PasteConfig) (st : PasteState) (i : PasteInput)
    (rest : List PasteInput) (step : PasteStep) (c : Int)
    (h : paste_event cfg i.disp st i.m i.e = some step) (hx : step.exit_code = some c) :
    paste_run cfg st (i :: rest) = [step] := by
  simp [paste_run, h, hx]

theorem pick_target_from_list_single (disp : Display) (P : StdMap String Int) (t : Atom)
    (r : Int) (hrank : rank_of disp P t = some r) (hr : r < INT_MAX) :
    pick_target_from_list disp [t] P = t := by
  have hfind : P.find (GetAtomName disp t) = some r := hrank
  have hgt : INT_MAX > r := hr
  simp [pick_target_from_list, pick_target_loop, hfind, hgt]

/-- A format 8 property of fewer than `2^28` elements is written whole. -/
theorem written_format_8_exact (bytes : List Nat) (type : Atom)
    (hlen : bytes.length < 268435456) :
    Property.written
      { data := bytes, format := 8, nitems := wrap_int bytes.length, type := type } = bytes := by
  have hw1 : wrap_int (bytes.length : Int) = bytes.length :=
    wrap_int_of_range _ (by omega) (by omega)
  have hw2 : wrap_int ((bytes.length : Int) * 8) = (bytes.length : Int) * 8 :=
    wrap_int_of_range _ (by omega) (by omega)
  rw [written_format_8, hw1, hw2, Int.mul_tdiv_cancel _ (by norm_num), Int.toNat_ofNat,
    List.take_length]

/-- The round of a drop target on the notification for its negotiated target. -/
theorem paste_event_drop_data (cfg : PasteConfig) (disp : Display) (st : PasteState)
    (m : XClientMessageEvent) (e : XSelectionEvent) (prop : Property)
    (hp : e.property ≠ None) (hread : read_property disp cfg.w cfg.sel = some prop)
    (hfirst : ¬ (e.target = cfg.XA_TARGETS ∧ st.sent_request = false))
    (hneg : e.target = st.to_be_requested) (hx : cfg.do_xdnd ≠ 0) :
    paste_event cfg disp st m (XEvent.SelectionNotify e) =
      some { state := st,
             disp := if cfg.do_xdnd = 2 then XDeleteProperty disp cfg.root cfg.XdndProxy
                     else disp,
             requests := [XRequest.SendEvent st.xdnd_source_window false 0
               (XEvent.ClientMessage
                 { m with window := st.xdnd_source_window, message_type := cfg.XdndFinished,
                          format := 32, l0 := long_of cfg.w, l1 := 1,
                          l2 := long_of cfg.XdndActionCopy })],
             cout := prop.written, exit_code := some 0 } := by
  simp only [paste_event, paste_selection_notify, if_neg hp, hread, if_neg hfirst,
    if_pos hneg, if_pos hx]

/-- The `char`s of a buffer of width 8 are its items. -/
theorem chars_format_8 (items : List Nat) : items.flatMap (element_chars 8) = items := by
  have : element_chars 8 = fun x => [x] := by
    funext x
    simp [element_chars]
  rw [this, List.flatMap_singleton']

theorem chars_format_16_length (items : List Nat) :
    (items.flatMap (element_chars 16)).length = items.length * 2 := by
  induction items with
  | nil => rfl
  | cons x rest ih =>
    simp only [List.flatMap_cons, List.length_append, ih, List.length_cons]
    simp [element_chars]
    omega

/-- A format 16 property of fewer than `2^27` elements is written whole. -/
theorem written_format_16_exact (items : List Nat) (type : Atom)
    (hlen : items.length < 134217728) :
    Property.written
      { data := items, format := 16, nitems := wrap_int items.length, type := type } =
      items.flatMap (element_chars 16) := by
  have hw1 : wrap_int (items.length : Int) = items.length :=
    wrap_int_of_range _ (by omega) (by omega)
  have hw2 : wrap_int ((items.length : Int) * 16) = ((items.length * 2 : Nat) : Int) * 8 := by
    rw [wrap_int_of_range _ (by omega) (by omega)]
    push_cast
    ring
  simp only [Property.written, Property.chars, Property.write_count]
  rw [hw1, hw2, Int.mul_tdiv_cancel _ (by norm_num), Int.toNat_ofNat,
    ← chars_format_16_length items, List.take_length]

/-- A property of width 8 or 16 and fewer than `2^28` bytes is written whole. -/
theorem written_exact (items : List Nat) (format : Nat) (type : Atom)
    (hformat : format = 8 ∨ format = 16)
    (hlen : items.length * (format / 8) < 268435456) :
    Property.written
      { data := items, format := (format : Int), nitems := wrap_int items.length,
        type := type } = items.flatMap (element_chars (format : Int)) := by
  rcases hformat with hf | hf
  · subst hf
    have h8 : ((8 : Nat) : Int) = 8 := rfl
    rw [h8, chars_format_8]
    exact written_format_8_exact items type (by omega)
  · subst hf
    have h16 : ((16 : Nat) : Int) = 16 := rfl
    rw [h16]
    exact written_format_16_exact items type (by omega)

/-- Scenario D as a run of the drop target from the initial state, for whatever
`read_property` returns in the last round: `cout` holds what `cout.write` emits of it. -/
theorem paste_run_drop_scenario (cfg : PasteConfig) (d1 d2 d3 d4 : Display)
    (m1 m2 m3 m4 : XClientMessageEvent) (enter position drop : XClientMessageEvent)
    (n : XSelectionEvent) (text_plain : Atom) (r : Int) (prop : Property)
    (hx : cfg.do_xdnd ≠ 0)
    (hPE : cfg.XdndPosition ≠ cfg.XdndEnter) (hDE : cfg.XdndDrop ≠ cfg.XdndEnter)
    (hDP : cfg.XdndDrop ≠ cfg.XdndPosition) (hDL : cfg.XdndDrop ≠ cfg.XdndLeave)
    (hname : GetAtomName d1 text_plain = "text/plain")
    (hrank : cfg.datatypes.find "text/plain" = some r) (hr : r < INT_MAX)
    (ht0 : text_plain ≠ None) (htT : text_plain ≠ cfg.XA_TARGETS)
    (he : enter.message_type = cfg.XdndEnter) (he1 : enter.l1 = 50331648)
    (he2 : ulong_of enter.l2 = text_plain) (he3 : ulong_of enter.l3 = None)
    (he4 : ulong_of enter.l4 = None)
    (hpos : position.message_type = cfg.XdndPosition)
    (hdrop : drop.message_type = cfg.XdndDrop)
    (hn : n.target = text_plain) (hnp : n.property ≠ None)
    (hread : read_property d4 cfg.w cfg.sel = some prop) :
    (paste_run cfg PasteState.initial
        [{ disp := d1, m := m1, e := XEvent.ClientMessage enter },
         { disp := d2, m := m2, e := XEvent.ClientMessage position },
         { disp := d3, m := m3, e := XEvent.ClientMessage drop },
         { disp := d4, m := m4, e := XEvent.SelectionNotify n }]).length = 4 ∧
    run_requests (paste_run cfg PasteState.initial
        [{ disp := d1, m := m1, e := XEvent.ClientMessage enter },
         { disp := d2, m := m2, e := XEvent.ClientMessage position },
         { disp := d3, m := m3, e := XEvent.ClientMessage drop },
         { disp := d4, m := m4, e := XEvent.SelectionNotify n }]) =
      [XRequest.SendEvent (ulong_of position.l0) false 0
         (XEvent.ClientMessage
           { m2 with window := ulong_of position.l0, message_type := cfg.XdndStatus,
                     format := 32, l0 := long_of cfg.drop_window, l1 := 1, l2 := 0, l3 := 0,
                     l4 := long_of cfg.XdndActionCopy }),
       XRequest.ConvertSelection cfg.XdndSelection text_plain cfg.sel cfg.w (ulong_of drop.l2),
       XRequest.SendEvent (ulong_of drop.l0) false 0
         (XEvent.ClientMessage
           { m4 with window := ulong_of drop.l0, message_type := cfg.XdndFinished,
                     format := 32, l0 := long_of cfg.w, l1 := 1,
                     l2 := long_of cfg.XdndActionCopy })] ∧
    run_cout (paste_run cfg PasteState.initial
        [{ disp := d1, m := m1, e := XEvent.ClientMessage enter },
         { disp := d2, m := m2, e := XEvent.ClientMessage position },
         { disp := d3, m := m3, e := XEvent.ClientMessage drop },
         { disp := d4, m := m4, e := XEvent.SelectionNotify n }]) = prop.written ∧
    run_exit_code (paste_run cfg PasteState.initial
        [{ disp := d1, m := m1, e := XEvent.ClientMessage enter },
         { disp := d2, m := m2, e := XEvent.ClientMessage position },
         { disp := d3, m := m3, e := XEvent.ClientMessage drop },
         { disp := d4, m := m4, e := XEvent.SelectionNotify n }]) = some 0 := by
  have hpick : pick_target_from_atoms d1 (ulong_of enter.l2) (ulong_of enter.l3)
      (ulong_of enter.l4) cfg.datatypes = text_plain := by
    rw [pick_target_from_atoms_eq, he2, he3, he4]
    have hfilter : [text_plain, None, None].filter (fun a => decide (a ≠ None))
        = [text_plain] := by
      simp [ht0]
    rw [hfilter]
    exact pick_target_from_list_single d1 cfg.datatypes text_plain r
      (by rw [rank_of, hname]; exact hrank) hr
  have hver : wrap_int (enter.l1 >>> 24) = 3 := by
    rw [he1]
    decide
  have hflag : ¬ (enter.l1 % 2 ≠ 0) := by
    rw [he1]
    decide
  have h1 : paste_event cfg d1 PasteState.initial m1 (XEvent.ClientMessage enter) =
      some { state := armed text_plain 3, disp := d1, requests := [], cout := [],
             exit_code := none } := by
    simp only [paste_event, paste_client_message, he, if_true, hflag, decide_False, hpick,
      hver, PasteState.initial, armed]
    rfl
  have h2 : paste_event cfg d2 (armed text_plain 3) m2 (XEvent.ClientMessage position) =
      some { state := armed text_plain 3, disp := d2,
             requests := [XRequest.SendEvent (ulong_of position.l0) false 0
               (XEvent.ClientMessage
                 { m2 with window := ulong_of position.l0, message_type := cfg.XdndStatus,
                           format := 32, l0 := long_of cfg.drop_window, l1 := 1, l2 := 0,
                           l3 := 0, l4 := long_of cfg.XdndActionCopy })],
             cout := [], exit_code := none } := by
    have ht : (armed text_plain 3).to_be_requested ≠ None := ht0
    simp only [paste_event, paste_client_message, hpos, if_neg hPE, if_true, if_pos ht]
  have h3 : paste_event cfg d3 (armed text_plain 3) m3 (XEvent.ClientMessage drop) =
      some { state := { armed text_plain 3 with xdnd_source_window := ulong_of drop.l0 },
             disp := d3,
             requests := [XRequest.ConvertSelection cfg.XdndSelection text_plain cfg.sel cfg.w
                            (ulong_of drop.l2)],
             cout := [], exit_code := none } := by
    have ht : ¬ ((armed text_plain 3).to_be_requested = None) := ht0
    have hv : ({ armed text_plain 3 with xdnd_source_window := ulong_of drop.l0 } :
        PasteState).xdnd_version ≥ 1 := by
      show (3 : Int) ≥ 1
      decide
    simp only [paste_event, paste_client_message, hdrop, if_neg hDE, if_neg hDP, if_neg hDL,
      if_true, if_neg ht, if_pos hv]
    rfl
  have h4 := paste_event_drop_data cfg d4
    { armed text_plain 3 with xdnd_source_window := ulong_of drop.l0 } m4 n _ hnp hread
    (by
      rintro ⟨hT, _⟩
      exact htT (hn.symm.trans hT))
    hn hx
  have hrun := paste_run_cons_running cfg PasteState.initial
    { disp := d1, m := m1, e := XEvent.ClientMessage enter }
    [{ disp := d2, m := m2, e := XEvent.ClientMessage position },
     { disp := d3, m := m3, e := XEvent.ClientMessage drop },
     { disp := d4, m := m4, e := XEvent.SelectionNotify n }] _ h1 rfl
  rw [hrun, paste_run_cons_running cfg (armed text_plain 3)
    { disp := d2, m := m2, e := XEvent.ClientMessage position } _ _ h2 rfl,
    paste_run_cons_running cfg (armed text_plain 3)
    { disp := d3, m := m3, e := XEvent.ClientMessage drop } _ _ h3 rfl,
    paste_run_cons_exit cfg _ { disp := d4, m := m4, e := XEvent.SelectionNotify n } _ _ 0
      h4 rfl]
  refine ⟨rfl, ?_, ?_, ?_⟩
  · simp [run_requests]
  · simp [run_cout]
  · simp [run_exit_code]

/-- C16 fails as stated, at two inputs. (1) When the property of the data notification holds
the two 32 bit items `0x01020304` and `0x05060708`, the client buffer holds two `long`s of
eight `char`s, and the `2 * 32 / 8 = 8` `char`s written are those of the first item and four
zero `char`s: the second item is not written. (2) When the property holds `2^28` bytes the
product `nitems * format` leaves the range of `int`, the count passed to `cout.write` is
negative, and nothing is written. In both runs the exit code is 0. -/
theorem paste_run_scenario_D_not_exact :
    (scenario_display_words.properties 7 1 =
        some { type := 102, format := 32, data := [16909060, 84281096] } ∧
      run_cout (paste_run scenario_drop_config PasteState.initial scenario_D_inputs_words) =
        [4, 3, 2, 1, 0, 0, 0, 0] ∧
      run_exit_code (paste_run scenario_drop_config PasteState.initial
        scenario_D_inputs_words) = some 0) ∧
    (scenario_display_large.properties 7 1 =
        some { type := 102, format := 8, data := large_data } ∧
      large_data.length = 268435456 ∧
      run_cout (paste_run scenario_drop_config PasteState.initial scenario_D_inputs_large) =
        [] ∧
      run_exit_code (paste_run scenario_drop_config PasteState.initial
        scenario_D_inputs_large) = some 0) := by
  have hl : large_data.length = 268435456 := List.length_replicate 268435456 0
  have hv : scenario_display_large.properties 7 1 =
      some { type := 102, format := 8, data := large_data } := rfl
  have hlen : (StoredProperty.mk 102 8 large_data).data.length = 268435456 := hl
  have hN : (StoredProperty.mk 102 8 large_data).data.length *
      ((StoredProperty.mk 102 8 large_data).format / 8) ≤ 2147483648 := by
    rw [hlen]
    norm_num
  have hread : read_property scenario_display_large 7 1 =
      some { data := large_data, format := 8, nitems := wrap_int large_data.length,
             type := 102 } :=
    read_property_stored scenario_display_large 7 1 _ hv (by decide) hN
  have hrun := paste_run_drop_scenario scenario_drop_config scenario_display
    scenario_display scenario_display scenario_display_large scenario_garbage
    scenario_garbage scenario_garbage scenario_garbage scenario_enter scenario_position
    scenario_drop scenario_drop_notify 102 2 _ (by decide) (by decide) (by decide)
    (by decide) (by decide) (by decide) (by decide) (by decide) (by decide) (by decide)
    rfl rfl (by decide) (by decide) (by decide) rfl rfl rfl (by decide) hread
  have hcount : (Int.tdiv (wrap_int (wrap_int ((268435456 : Nat) : Int) * 8)) 8).toNat = 0 := by
    decide
  have hwritten : Property.written
      { data := large_data, format := 8, nitems := wrap_int large_data.length,
        type := 102 } = [] := by
    rw [written_format_8, hl, hcount, List.take_zero]
  refine ⟨⟨rfl, by decide, by decide⟩, hv, hl, ?_, ?_⟩
  · exact hrun.2.2.1.trans hwritten
  · exact hrun.2.2.2

/-- C16, amended. Scenario D as a run of the drop target from the initial state, with a
priority table that has `text/plain` (at a rank below `INT_MAX`): after an enter with
version 3, no overflow flag and the inline type `text/plain`, a position, a drop, and a
notification with a property for the target `text/plain`, where the property read holds
fewer than `2^28` bytes in items of width 8 or 16, the run has sent one `XdndStatus` with
the accept word 1, issued one `XConvertSelection` of the drag selection to `text/plain` with
the time stamp of the drop, written exactly the bytes of the property to `cout` (for width 8
the items, for width 16 the two bytes of each item), sent `XdndFinished` with the success
word 1 and the copy action to the source window recorded at the drop, and returned 0. -/
theorem paste_run_scenario_D (cfg : PasteConfig) (d1 d2 d3 d4 : Display)
    (m1 m2 m3 m4 : XClientMessageEvent) (enter position drop : XClientMessageEvent)
    (n : XSelectionEvent) (text_plain type : Atom) (r : Int) (format : Nat)
    (items : List Nat)
    (hx : cfg.do_xdnd ≠ 0)
    (hPE : cfg.XdndPosition ≠ cfg.XdndEnter) (hDE : cfg.XdndDrop ≠ cfg.XdndEnter)
    (hDP : cfg.XdndDrop ≠ cfg.XdndPosition) (hDL : cfg.XdndDrop ≠ cfg.XdndLeave)
    (hname : GetAtomName d1 text_plain = "text/plain")
    (hrank : cfg.datatypes.find "text/plain" = some r) (hr : r < INT_MAX)
    (ht0 : text_plain ≠ None) (htT : text_plain ≠ cfg.XA_TARGETS)
    (he : enter.message_type = cfg.XdndEnter) (he1 : enter.l1 = 50331648)
    (he2 : ulong_of enter.l2 = text_plain) (he3 : ulong_of enter.l3 = None)
    (he4 : ulong_of enter.l4 = None)
    (hpos : position.message_type = cfg.XdndPosition)
    (hdrop : drop.message_type = cfg.XdndDrop)
    (hn : n.target = text_plain) (hnp : n.property ≠ None)
    (hstored : d4.properties cfg.w cfg.sel =
      some { type := type, format := format, data := items })
    (hformat : format = 8 ∨ format = 16)
    (hlen : items.length * (format / 8) < 268435456) :
    (paste_run cfg PasteState.initial
        [{ disp := d1, m := m1, e := XEvent.ClientMessage enter },
         { disp := d2, m := m2, e := XEvent.ClientMessage position },
         { disp := d3, m := m3, e := XEvent.ClientMessage drop },
         { disp := d4, m := m4, e := XEvent.SelectionNotify n }]).length = 4 ∧
    run_requests (paste_run cfg PasteState.initial
        [{ disp := d1, m := m1, e := XEvent.ClientMessage enter },
         { disp := d2, m := m2, e := XEvent.ClientMessage position },
         { disp := d3, m := m3, e := XEvent.ClientMessage drop },
         { disp := d4, m := m4, e := XEvent.SelectionNotify n }]) =
      [XRequest.SendEvent (ulong_of position.l0) false 0
         (XEvent.ClientMessage
           { m2 with window := ulong_of position.l0, message_type := cfg.XdndStatus,
                     format := 32, l0 := long_of cfg.drop_window, l1 := 1, l2 := 0, l3 := 0,
                     l4 := long_of cfg.XdndActionCopy }),
       XRequest.ConvertSelection cfg.XdndSelection text_plain cfg.sel cfg.w (ulong_of drop.l2),
       XRequest.SendEvent (ulong_of drop.l0) false 0
         (XEvent.ClientMessage
           { m4 with window := ulong_of drop.l0, message_type := cfg.XdndFinished,
                     format := 32, l0 := long_of cfg.w, l1 := 1,
                     l2 := long_of cfg.XdndActionCopy })] ∧
    run_cout (paste_run cfg PasteState.initial
        [{ disp := d1, m := m1, e := XEvent.ClientMessage enter },
         { disp := d2, m := m2, e := XEvent.ClientMessage position },
         { disp := d3, m := m3, e := XEvent.ClientMessage drop },
         { disp := d4, m := m4, e := XEvent.SelectionNotify n }]) = items.flatMap (element_chars (format : Int)) ∧
    (format = 8 → items.flatMap (element_chars (format : Int)) = items) ∧
    run_exit_code (paste_run cfg PasteState.initial
        [{ disp := d1, m := m1, e := XEvent.ClientMessage enter },
         { disp := d2, m := m2, e := XEvent.ClientMessage position },
         { disp := d3, m := m3, e := XEvent.ClientMessage drop },
         { disp := d4, m := m4, e := XEvent.SelectionNotify n }]) = some 0 := by
  have hunit : 1 ≤ format / 8 := by
    rcases hformat with hf | hf <;> omega
  have hread : read_property d4 cfg.w cfg.sel =
      some { data := items, format := (format : Int), nitems := wrap_int items.length,
             type := type } :=
    read_property_stored d4 cfg.w cfg.sel _ hstored hunit (by
      show items.length * (format / 8) ≤ 2147483648
      omega)
  have hrun := paste_run_drop_scenario cfg d1 d2 d3 d4 m1 m2 m3 m4 enter position drop n
    text_plain r _ hx hPE hDE hDP hDL hname hrank hr ht0 htT he he1 he2 he3 he4 hpos hdrop
    hn hnp hread
  refine ⟨hrun.1, hrun.2.1, ?_, ?_, hrun.2.2.2⟩
  · rw [hrun.2.2.1]
    exact written_exact items format type hformat hlen
  · intro hf
    subst hf
    exact chars_format_8 items

/-- C16, amended, on scenario D: source window 8, drop time stamp 1234, and the bytes of
`hi` in the property. -/
theorem paste_run_scenario_D_values :
    (scenario_drop_config.do_xdnd ≠ 0 ∧
      GetAtomName scenario_display 102 = "text/plain" ∧
      scenario_drop_config.datatypes.find "text/plain" = some 2 ∧
      scenario_display_data.properties scenario_drop_config.w scenario_drop_config.sel =
        some { type := 102, format := 8, data := [104, 105] }) ∧
    (paste_run scenario_drop_config PasteState.initial scenario_D_inputs).length = 4 ∧
    run_requests (paste_run scenario_drop_config PasteState.initial scenario_D_inputs) =
      [XRequest.SendEvent 8 false 0
         (XEvent.ClientMessage
           { window := 8, message_type := 117, format := 32, l0 := 7, l1 := 1, l2 := 0,
             l3 := 0, l4 := 116 }),
       XRequest.ConvertSelection 110 102 1 7 1234,
       XRequest.SendEvent 8 false 0
         (XEvent.ClientMessage
           { window := 8, message_type := 119, format := 32, l0 := 7, l1 := 1, l2 := 116,
             l3 := 9, l4 := 9 })] ∧
    run_cout (paste_run scenario_drop_config PasteState.initial scenario_D_inputs) =
      [104, 105] ∧
    run_exit_code (paste_run scenario_drop_config PasteState.initial scenario_D_inputs) =
      some 0 := by
  have h := paste_run_scenario_D scenario_drop_config scenario_display scenario_display
    scenario_display scenario_display_data scenario_garbage scenario_garbage scenario_garbage
    scenario_garbage scenario_enter scenario_position scenario_drop scenario_drop_notify
    102 102 2 8 [104, 105] (by decide) (by decide) (by decide) (by decide) (by decide)
    (by decide) (by decide) (by decide) (by decide) (by decide) rfl rfl (by decide)
    (by decide) (by decide) rfl rfl rfl (by decide) (by decide) (Or.inl rfl) (by decide)
  exact ⟨⟨by decide, by decide, by decide, by decide⟩, h.1, h.2.1,
    h.2.2.1.trans (h.2.2.2.1 rfl), h.2.2.2.2⟩

/-! ## The drag source: button release and status replies -/

/-- C18 fails as stated. During an active drag the release of button 3 is not handled: the
state stays as it was, with the drag active and the status `CAN_DROP`, and nothing is sent. -/
theorem selection_event_release_other_button :
    (dragging_over CAN_DROP).dragging = true ∧
    (selection_event scenario_globals scenario_drag_config scenario_display scenario_pointer
        (dragging_over CAN_DROP) (XEvent.ButtonRelease 3)).state = dragging_over CAN_DROP ∧
    (selection_event scenario_globals scenario_drag_config scenario_display scenario_pointer
        (dragging_over CAN_DROP) (XEvent.ButtonRelease 3)).requests = [] ∧
    (selection_event scenario_globals scenario_drag_config scenario_display scenario_pointer
        (dragging_over CAN_DROP) (XEvent.ButtonRelease 3)).calls = [] := by
  decide

/-- C18, amended. In every state in which a drag is active, after the release of button 1
the state is idle: the dragging flag is clear, the status is `UNAWARE`, the current window is
`None` and the version is -1, whatever the status was at the release; the pointer grab is
released and the loop goes on. -/
theorem selection_event_release_idle (g : Globals) (cfg : DragConfig) (disp : Display)
    (ptr : Pointer) (st : DragState) (hdrag : st.dragging = true) :
    (selection_event g cfg disp ptr st (XEvent.ButtonRelease 1)).state =
      { dragging := false, previous_window := None, previous_version := -1,
        status := UNAWARE } ∧
    (selection_event g cfg disp ptr st (XEvent.ButtonRelease 1)).calls =
      [DragCall.UngrabPointer CurrentTime] ∧
    (selection_event g cfg disp ptr st (XEvent.ButtonRelease 1)).exit_code = none := by
  simp [selection_event, selection_button_release, hdrag]

/-- C18, amended, in the scenario session: from each of the three statuses the release of
button 1 leads to the idle state. -/
theorem selection_event_release_idle_scenario :
    (dragging_over CAN_DROP).dragging = true ∧
    (selection_event scenario_globals scenario_drag_config scenario_display scenario_pointer
        (dragging_over CAN_DROP) (XEvent.ButtonRelease 1)).state =
      { dragging := false, previous_window := None, previous_version := -1,
        status := UNAWARE } ∧
    (selection_event scenario_globals scenario_drag_config scenario_display scenario_pointer
        (dragging_over UNRECEPTIVE) (XEvent.ButtonRelease 1)).state =
      { dragging := false, previous_window := None, previous_version := -1,
        status := UNAWARE } ∧
    (selection_event scenario_globals scenario_drag_config scenario_display scenario_pointer
        (dragging_over UNAWARE) (XEvent.ButtonRelease 1)).state =
      { dragging := false, previous_window := None, previous_version := -1,
        status := UNAWARE } :=
  ⟨rfl,
   (selection_event_release_idle scenario_globals scenario_drag_config scenario_display
     scenario_pointer (dragging_over CAN_DROP) rfl).1,
   (selection_event_release_idle scenario_globals scenario_drag_config scenario_display
     scenario_pointer (dragging_over UNRECEPTIVE) rfl).1,
   (selection_event_release_idle scenario_globals scenario_drag_config scenario_display
     scenario_pointer (dragging_over UNAWARE) rfl).1⟩

/-- C19. On the release of button 1 that ends an active drag, an `XdndDrop` is sent exactly
when the status at the release is `CAN_DROP`. When sent it is the only event, it goes to the
current window (`previous_window`) and its first word names the window of the source. For
any other status, `UNAWARE` and `UNRECEPTIVE` included, nothing is sent. -/
theorem selection_event_release_drop (g : Globals) (cfg : DragConfig) (disp : Display)
    (ptr : Pointer) (st : DragState) (hdrag : st.dragging = true) :
    (st.status = CAN_DROP →
      (selection_event g cfg disp ptr st (XEvent.ButtonRelease 1)).requests =
        [XRequest.SendEvent st.previous_window false 0
          (XEvent.ClientMessage
            { window := st.previous_window, message_type := g.XA_XdndDrop, format := 32,
              l0 := long_of cfg.w, l1 := 0, l2 := long_of CurrentTime, l3 := 0, l4 := 0 })]) ∧
    (st.status ≠ CAN_DROP →
      (selection_event g cfg disp ptr st (XEvent.ButtonRelease 1)).requests = []) ∧
    ((selection_event g cfg disp ptr st (XEvent.ButtonRelease 1)).requests ≠ [] ↔
      st.status = CAN_DROP) ∧
    UNAWARE ≠ CAN_DROP ∧ UNRECEPTIVE ≠ CAN_DROP := by
  refine ⟨?_, ?_, ?_, by decide, by decide⟩
  · intro h
    simp [selection_event, selection_button_release, hdrag, h, drop_message]
  · intro h
    simp [selection_event, selection_button_release, hdrag, h]
  · by_cases h : st.status = CAN_DROP <;>
      simp [selection_event, selection_button_release, hdrag, h]

/-- C19 in the scenario session: with status `CAN_DROP` over window 8 one `XdndDrop` goes to
window 8 and names the source window 5; with `UNRECEPTIVE` or `UNAWARE` nothing is sent. -/
theorem selection_event_release_drop_scenario :
    (dragging_over CAN_DROP).dragging = true ∧
    (selection_event scenario_globals scenario_drag_config scenario_display scenario_pointer
        (dragging_over CAN_DROP) (XEvent.ButtonRelease 1)).requests =
      [XRequest.SendEvent 8 false 0
        (XEvent.ClientMessage
          { window := 8, message_type := 118, format := 32, l0 := 5, l1 := 0, l2 := 0,
            l3 := 0, l4 := 0 })] ∧
    (selection_event scenario_globals scenario_drag_config scenario_display scenario_pointer
        (dragging_over UNRECEPTIVE) (XEvent.ButtonRelease 1)).requests = [] ∧
    (selection_event scenario_globals scenario_drag_config scenario_display scenario_pointer
        (dragging_over UNAWARE) (XEvent.ButtonRelease 1)).requests = [] :=
  ⟨rfl,
   (selection_event_release_drop scenario_globals scenario_drag_config scenario_display
     scenario_pointer (dragging_over CAN_DROP) rfl).1 rfl,
   (selection_event_release_drop scenario_globals scenario_drag_config scenario_display
     scenario_pointer (dragging_over UNRECEPTIVE) rfl).2.1 (by decide),
   (selection_event_release_drop scenario_globals scenario_drag_config scenario_display
     scenario_pointer (dragging_over UNAWARE) rfl).2.1 (by decide)⟩

/-- C20. Handling an `XdndStatus` message is this transition: when a drag is active and the
status is not `UNAWARE`, the status becomes `CAN_DROP` if bit 0 of the second word is set
and `UNRECEPTIVE` if it is clear; when no drag is active or the status is `UNAWARE`, the
state is left as it was. The dragging flag, the current window and the version are never
modified, and nothing is sent. -/
theorem selection_event_status (g : Globals) (cfg : DragConfig) (disp : Display)
    (ptr : Pointer) (st : DragState) (x : XClientMessageEvent)
    (hS : x.message_type = g.XA_XdndStatus) :
    selection_event g cfg disp ptr st (XEvent.ClientMessage x) =
      { state :=
          if st.dragging = true ∧ st.status ≠ UNAWARE then
            { st with status := if x.l1 % 2 = 1 then CAN_DROP else UNRECEPTIVE }
          else st,
        disp := disp, requests := [], calls := [], exit_code := none } := by
  have hbit : x.l1 % 2 = 0 ∨ x.l1 % 2 = 1 := by omega
  have hne : UNRECEPTIVE ≠ UNAWARE := by decide
  have hne' : CAN_DROP ≠ UNAWARE := by decide
  by_cases hd : st.dragging = true <;> by_cases hs : st.status = UNAWARE <;>
    rcases hbit with hb | hb <;>
    simp [selection_event, selection_status, hS, hd, hs, hb, hne, hne']

/-- C20 in the scenario session: over an aware window an accepting status gives `CAN_DROP`
and a refusing one `UNRECEPTIVE`; with status `UNAWARE`, or with no drag active, the state
is unchanged. -/
theorem selection_event_status_scenario :
    scenario_status_accept.message_type = scenario_globals.XA_XdndStatus ∧
    (selection_event scenario_globals scenario_drag_config scenario_display scenario_pointer
        (dragging_over UNRECEPTIVE) (XEvent.ClientMessage scenario_status_accept)).state =
      dragging_over CAN_DROP ∧
    (selection_event scenario_globals scenario_drag_config scenario_display scenario_pointer
        (dragging_over CAN_DROP) (XEvent.ClientMessage scenario_status_refuse)).state =
      dragging_over UNRECEPTIVE ∧
    (selection_event scenario_globals scenario_drag_config scenario_display scenario_pointer
        (dragging_over UNAWARE) (XEvent.ClientMessage scenario_status_accept)).state =
      dragging_over UNAWARE ∧
    (selection_event scenario_globals scenario_drag_config scenario_display scenario_pointer
        DragState.initial (XEvent.ClientMessage scenario_status_accept)).state =
      DragState.initial :=
  ⟨rfl,
   congrArg DragStep.state
     (selection_event_status scenario_globals scenario_drag_config scenario_display
       scenario_pointer (dragging_over UNRECEPTIVE) scenario_status_accept rfl),
   congrArg DragStep.state
     (selection_event_status scenario_globals scenario_drag_config scenario_display
       scenario_pointer (dragging_over CAN_DROP) scenario_status_refuse rfl),
   congrArg DragStep.state
     (selection_event_status scenario_globals scenario_drag_config scenario_display
       scenario_pointer (dragging_over UNAWARE) scenario_status_accept rfl),
   congrArg DragStep.state
     (selection_event_status scenario_globals scenario_drag_config scenario_display
       scenario_pointer DragState.initial scenario_status_accept rfl)⟩

/-! ## The drag source: invariants -/

theorem motion_version_window (g : Globals) (disp : Display) (st : DragState)
    (window : Window) (hinv : st.previous_version ≠ -1 → st.previous_window ≠ None)
    (hv : motion_version g disp st window ≠ -1) : window ≠ None := by
  by_cases h1 : window = st.previous_window
  · have hp : st.previous_version ≠ -1 := by
      simpa [motion_version, h1] using hv
    rw [h1]
    exact hinv hp
  · by_cases h2 : window = None
    · exact absurd (by simp only [motion_version, if_neg h1, if_pos h2]) hv
    · exact h2

theorem motion_status_unaware_iff (status version : Int) :
    (if status = UNAWARE ∧ version ≠ -1 then UNRECEPTIVE
      else if version = -1 then UNAWARE else status) = UNAWARE ↔ version = -1 := by
  have hne : UNRECEPTIVE ≠ UNAWARE := by decide
  by_cases hv : version = -1
  · simp [hv]
  · by_cases hs : status = UNAWARE
    · simp [hv, hs, hne]
    · simp [hv, hs]

theorem motion_status_defined (status version : Int)
    (h : status = UNAWARE ∨ status = UNRECEPTIVE ∨ status = CAN_DROP) :
    (if status = UNAWARE ∧ version ≠ -1 then UNRECEPTIVE
      else if version = -1 then UNAWARE else status) = UNAWARE ∨
    (if status = UNAWARE ∧ version ≠ -1 then UNRECEPTIVE
      else if version = -1 then UNAWARE else status) = UNRECEPTIVE ∨
    (if status = UNAWARE ∧ version ≠ -1 then UNRECEPTIVE
      else if version = -1 then UNAWARE else status) = CAN_DROP := by
  split_ifs
  · exact Or.inr (Or.inl rfl)
  · exact Or.inl rfl
  · exact h

theorem selection_motion_inv (g : Globals) (cfg : DragConfig) (disp : Display)
    (ptr : Pointer) (st : DragState) (h : DragInv st) (hd : st.dragging = true) :
    DragInv (selection_motion g cfg disp ptr st).state := by
  obtain ⟨_, _, h3, h4⟩ := h
  refine ⟨?_, ?_, ?_, ?_⟩
  · intro hf
    have : st.dragging = false := hf
    rw [hd] at this
    cases this
  · exact motion_status_unaware_iff _ _
  · exact motion_status_defined _ _ h3
  · intro hv
    exact motion_version_window g disp st _ h4 hv

theorem selection_status_inv (disp : Display) (st : DragState) (x : XClientMessageEvent)
    (h : DragInv st) : DragInv (selection_status disp st x).state := by
  obtain ⟨h1, h2, h3, h4⟩ := h
  have hcu : CAN_DROP ≠ UNAWARE := by decide
  have hru : UNRECEPTIVE ≠ UNAWARE := by decide
  by_cases hd : st.dragging = true
  · by_cases hs : st.status = UNAWARE
    · have : (selection_status disp st x).state = st := by
        simp [selection_status, hd, hs]
      rw [this]
      exact ⟨h1, h2, h3, h4⟩
    · have hv : st.previous_version ≠ -1 := fun hv => hs (h2.mpr hv)
      by_cases hb : x.l1 % 2 ≠ 0
      · have : (selection_status disp st x).state = { st with status := CAN_DROP } := by
          simp [selection_status, hd, hs, hb, hcu]
        rw [this]
        refine ⟨fun hf => ?_, ⟨fun hc => absurd hc hcu, fun hc => absurd hc hv⟩,
          Or.inr (Or.inr rfl), h4⟩
        have : st.dragging = false := hf
        rw [hd] at this
        cases this
      · have : (selection_status disp st x).state = { st with status := UNRECEPTIVE } := by
          simp [selection_status, hd, hs, hb]
        rw [this]
        refine ⟨fun hf => ?_, ⟨fun hc => absurd hc hru, fun hc => absurd hc hv⟩,
          Or.inr (Or.inl rfl), h4⟩
        have : st.dragging = false := hf
        rw [hd] at this
        cases this
  · have : (selection_status disp st x).state = st := by
      simp [selection_status, hd]
    rw [this]
    exact ⟨h1, h2, h3, h4⟩

theorem DragInv.idle :
    DragInv { dragging := false, previous_window := None, previous_version := -1,
              status := UNAWARE } := by
  refine ⟨fun _ => ⟨rfl, rfl, rfl⟩, ⟨fun _ => rfl, fun _ => rfl⟩, Or.inl rfl, ?_⟩
  intro h
  exact absurd rfl h

theorem selection_event_inv (g : Globals) (cfg : DragConfig) (disp : Display)
    (ptr : Pointer) (st : DragState) (e : XEvent) (h : DragInv st) :
    DragInv (selection_event g cfg disp ptr st e).state := by
  cases e with
  | SelectionClear => exact h
  | SelectionRequest r => exact h
  | SelectionNotify n => exact h
  | Other => exact h
  | MotionNotify =>
    by_cases hd : st.dragging = false
    · by_cases hg : ptr.grab_success = true
      · have : (selection_event g cfg disp ptr st XEvent.MotionNotify).state
            = { st with dragging := true } := by
          simp [selection_event, hd, hg]
        rw [this]
        obtain ⟨_, h2, h3, h4⟩ := h
        exact ⟨fun hf => (by cases hf), h2, h3, h4⟩
      · have : (selection_event g cfg disp ptr st XEvent.MotionNotify).state = st := by
          simp [selection_event, hd, hg]
        rw [this]
        exact h
    · have hd' : st.dragging = true := by
        cases hb : st.dragging
        · exact absurd hb hd
        · rfl
      have : selection_event g cfg disp ptr st XEvent.MotionNotify
          = selection_motion g cfg disp ptr st := by
        simp [selection_event, hd']
      rw [this]
      exact selection_motion_inv g cfg disp ptr st h hd'
  | ButtonRelease button =>
    by_cases hc : st.dragging = true ∧ button = 1
    · have : (selection_event g cfg disp ptr st (XEvent.ButtonRelease button)).state
          = { dragging := false, previous_window := None, previous_version := -1,
              status := UNAWARE } := by
        simp [selection_event, hc, selection_button_release]
      rw [this]
      exact DragInv.idle
    · have : (selection_event g cfg disp ptr st (XEvent.ButtonRelease button)).state = st := by
        simp only [selection_event, if_neg hc]
      rw [this]
      exact h
  | ClientMessage x =>
    by_cases hs : x.message_type = g.XA_XdndStatus
    · have : selection_event g cfg disp ptr st (XEvent.ClientMessage x)
          = selection_status disp st x := by
        simp [selection_event, hs]
      rw [this]
      exact selection_status_inv disp st x h
    · have : (selection_event g cfg disp ptr st (XEvent.ClientMessage x)).state = st := by
        simp [selection_event, hs]
      rw [this]
      exact h

theorem process_selection_request_sends_notify (g : Globals) (disp : Display) (e : XEvent)
    (M : TypedDataMap) (w : Window) (propagate : Bool) (mask : Nat) (m : XClientMessageEvent) :
    XRequest.SendEvent w propagate mask (XEvent.ClientMessage m) ∉
      (process_selection_request g disp e M).2 := by
  cases e with
  | SelectionRequest r =>
    by_cases hT : r.target = g.XA_TARGETS
    · simp [process_selection_request, hT]
    · by_cases hM : M.count r.target ≠ 0
      · simp [process_selection_request, hT, hM]
      · simp [process_selection_request, hT, hM]
  | _ => simp [process_selection_request]

theorem selection_motion_messages (g : Globals) (cfg : DragConfig) (disp : Display)
    (ptr : Pointer) (st : DragState) (h : DragInv st) (w : Window) (propagate : Bool)
    (mask : Nat) (m : XClientMessageEvent)
    (hm : XRequest.SendEvent w propagate mask (XEvent.ClientMessage m) ∈
      (selection_motion g cfg disp ptr st).requests) :
    w ≠ None ∧ m.window = w := by
  obtain ⟨_, _, _, h4⟩ := h
  simp only [selection_motion, List.mem_append] at hm
  rcases hm with (hm | hm) | hm
  · split_ifs at hm with hc
    · simp only [List.mem_singleton, XRequest.SendEvent.injEq, XEvent.ClientMessage.injEq] at hm
      obtain ⟨hw, _, _, hmsg⟩ := hm
      subst hw
      subst hmsg
      exact ⟨h4 hc.2, rfl⟩
    · simp at hm
  · split_ifs at hm with hc
    · simp only [List.mem_singleton, XRequest.SendEvent.injEq, XEvent.ClientMessage.injEq] at hm
      obtain ⟨hw, _, _, hmsg⟩ := hm
      subst hw
      subst hmsg
      exact ⟨motion_version_window g disp st _ h4 hc.2, rfl⟩
    · simp at hm
  · split_ifs at hm with hc
    · simp only [List.mem_singleton, XRequest.SendEvent.injEq, XEvent.ClientMessage.injEq] at hm
      obtain ⟨hw, _, _, hmsg⟩ := hm
      subst hw
      subst hmsg
      exact ⟨motion_version_window g disp st _ h4 hc, rfl⟩
    · simp at hm

theorem selection_event_messages (g : Globals) (cfg : DragConfig) (disp : Display)
    (ptr : Pointer) (st : DragState) (e : XEvent) (h : DragInv st) (w : Window)
    (propagate : Bool) (mask : Nat) (m : XClientMessageEvent)
    (hm : XRequest.SendEvent w propagate mask (XEvent.ClientMessage m) ∈
      (selection_event g cfg disp ptr st e).requests) :
    w ≠ None ∧ m.window = w := by
  cases e with
  | SelectionClear => simp [selection_event] at hm
  | SelectionNotify n => simp [selection_event] at hm
  | Other => simp [selection_event] at hm
  | SelectionRequest r =>
    exact absurd hm (process_selection_request_sends_notify g disp _ cfg.typed_data w
      propagate mask m)
  | MotionNotify =>
    by_cases hd : st.dragging = false
    · by_cases hg : ptr.grab_success = true <;> simp [selection_event, hd, hg] at hm
    · have hd' : st.dragging = true := by
        cases hb : st.dragging
        · exact absurd hb hd
        · rfl
      have he : selection_event g cfg disp ptr st XEvent.MotionNotify
          = selection_motion g cfg disp ptr st := by
        simp [selection_event, hd']
      rw [he] at hm
      exact selection_motion_messages g cfg disp ptr st h w propagate mask m hm
  | ButtonRelease button =>
    by_cases hc : st.dragging = true ∧ button = 1
    · by_cases hs : st.status = CAN_DROP
      · have hreq : (selection_event g cfg disp ptr st (XEvent.ButtonRelease button)).requests
            = [XRequest.SendEvent st.previous_window false 0
                (XEvent.ClientMessage (drop_message g cfg st.previous_window))] := by
          simp [selection_event, hc, selection_button_release, hs]
        rw [hreq] at hm
        simp only [List.mem_singleton, XRequest.SendEvent.injEq,
          XEvent.ClientMessage.injEq] at hm
        obtain ⟨hw, _, _, hmsg⟩ := hm
        subst hw
        subst hmsg
        obtain ⟨_, h2, _, h4⟩ := h
        have hcu : CAN_DROP ≠ UNAWARE := by decide
        have hv : st.previous_version ≠ -1 := by
          intro hv
          have := h2.mpr hv
          rw [hs] at this
          exact hcu this
        exact ⟨h4 hv, rfl⟩
      · simp [selection_event, hc, selection_button_release, hs] at hm
    · simp only [selection_event, if_neg hc] at hm
      simp at hm
  | ClientMessage x =>
    by_cases hs : x.message_type = g.XA_XdndStatus <;>
      simp [selection_event, hs, selection_status] at hm

theorem selection_run_inv (g : Globals) (cfg : DragConfig) :
    ∀ (inputs : List DragInput) (st : DragState), DragInv st →
      ∀ step ∈ selection_run g cfg st inputs,
        DragInv step.state ∧
        ∀ (w : Window) (propagate : Bool) (mask : Nat) (m : XClientMessageEvent),
          XRequest.SendEvent w propagate mask (XEvent.ClientMessage m) ∈ step.requests →
          w ≠ None ∧ m.window = w := by
  intro inputs
  induction inputs with
  | nil =>
    intro st _ step hstep
    simp [selection_run] at hstep
  | cons i rest ih =>
    intro st hst step hstep
    have hhere : DragInv (selection_event g cfg i.disp i.ptr st i.e).state ∧
        ∀ (w : Window) (propagate : Bool) (mask : Nat) (m : XClientMessageEvent),
          XRequest.SendEvent w propagate mask (XEvent.ClientMessage m) ∈
            (selection_event g cfg i.disp i.ptr st i.e).requests →
          w ≠ None ∧ m.window = w :=
      ⟨selection_event_inv g cfg i.disp i.ptr st i.e hst,
        fun w propagate mask m hm =>
          selection_event_messages g cfg i.disp i.ptr st i.e hst w propagate mask m hm⟩
    cases hx : (selection_event g cfg i.disp i.ptr st i.e).exit_code with
    | some c =>
      simp only [selection_run, hx, List.mem_singleton] at hstep
      rw [hstep]
      exact hhere
    | none =>
      simp only [selection_run, hx, List.mem_cons] at hstep
      rcases hstep with hstep | hstep
      · rw [hstep]
        exact hhere
      · exact ih _ hhere.1 step hstep

theorem DragInv.initial : DragInv DragState.initial := DragInv.idle

/-! ## The drag source: transitions -/

theorem selection_event_from_unaware (g : Globals) (cfg : DragConfig) (disp : Display)
    (ptr : Pointer) (st : DragState) (e : XEvent) (hU : st.status = UNAWARE) :
    (selection_event g cfg disp ptr st e).state.status = UNAWARE ∨
      (selection_event g cfg disp ptr st e).state.status = UNRECEPTIVE := by
  cases e with
  | SelectionClear => exact Or.inl hU
  | SelectionRequest r => exact Or.inl hU
  | SelectionNotify n => exact Or.inl hU
  | Other => exact Or.inl hU
  | MotionNotify =>
    by_cases hd : st.dragging = false
    · by_cases hg : ptr.grab_success = true <;>
        simp [selection_event, hd, hg, hU]
    · have hd' : st.dragging = true := by
        cases hb : st.dragging
        · exact absurd hb hd
        · rfl
      by_cases hv : motion_version g disp st (find_app_window g disp cfg.root ptr.children) = -1
      · left
        simp [selection_event, hd', selection_motion, hv]
      · right
        simp [selection_event, hd', selection_motion, hv, hU]
  | ButtonRelease button =>
    by_cases hc : st.dragging = true ∧ button = 1
    · left
      simp [selection_event, hc, selection_button_release]
    · left
      simp only [selection_event, if_neg hc]
      exact hU
  | ClientMessage x =>
    left
    by_cases hs : x.message_type = g.XA_XdndStatus
    · by_cases hd : st.dragging = true <;>
        simp [selection_event, hs, selection_status, hd, hU]
    · simp [selection_event, hs, hU]

/-- C21. No round of the drag source, on any event, takes a state with status `UNAWARE` to a
state with status `CAN_DROP`; so from a state with one of the three statuses, `CAN_DROP` is
entered only from `UNRECEPTIVE` or `CAN_DROP`. -/
theorem selection_event_unaware_not_can_drop (g : Globals) (cfg : DragConfig)
    (disp : Display) (ptr : Pointer) (st : DragState) (e : XEvent) :
    (st.status = UNAWARE → (selection_event g cfg disp ptr st e).state.status ≠ CAN_DROP) ∧
    (st.status = UNAWARE ∨ st.status = UNRECEPTIVE ∨ st.status = CAN_DROP →
      (selection_event g cfg disp ptr st e).state.status = CAN_DROP →
      st.status = UNRECEPTIVE ∨ st.status = CAN_DROP) := by
  have hcu : CAN_DROP ≠ UNAWARE := by decide
  have hcr : CAN_DROP ≠ UNRECEPTIVE := by decide
  have key : st.status = UNAWARE →
      (selection_event g cfg disp ptr st e).state.status ≠ CAN_DROP := by
    intro hU hC
    rcases selection_event_from_unaware g cfg disp ptr st e hU with h | h
    · rw [hC] at h
      exact hcu h
    · rw [hC] at h
      exact hcr h
  refine ⟨key, ?_⟩
  intro h3 hC
  rcases h3 with h | h | h
  · exact absurd hC (key h)
  · exact Or.inl h
  · exact Or.inr h

/-- C21 in the scenario session: from status `UNAWARE` an accepting `XdndStatus` leaves the
status `UNAWARE`, and a motion onto the aware window 8 gives `UNRECEPTIVE`. -/
theorem selection_event_unaware_not_can_drop_scenario :
    (selection_event scenario_globals scenario_drag_config scenario_display_aware
        (pointer_over 8) (dragging_over UNAWARE)
        (XEvent.ClientMessage scenario_status_accept)).state.status ≠ CAN_DROP ∧
    (selection_event scenario_globals scenario_drag_config scenario_display_aware
        (pointer_over 8) { dragging := true, previous_window := 0, previous_version := -1,
                           status := UNAWARE }
        XEvent.MotionNotify).state.status = UNRECEPTIVE :=
  ⟨(selection_event_unaware_not_can_drop scenario_globals scenario_drag_config
      scenario_display_aware (pointer_over 8) (dragging_over UNAWARE)
      (XEvent.ClientMessage scenario_status_accept)).1 rfl,
   by decide⟩

/-- C22. In every state reachable from the initial state of the drag source, a clear
dragging flag comes with the initial session values: status `UNAWARE`, window `None`,
version -1. A round sets the flag only on a `MotionNotify` whose `XGrabPointer` succeeds,
and then changes nothing else, so the status stays `UNAWARE`; when the grab fails the round
leaves the state as it was. -/
theorem selection_run_no_session (g : Globals) (cfg : DragConfig) :
    (DragState.initial.status = UNAWARE ∧ DragState.initial.previous_window = None ∧
      DragState.initial.previous_version = -1) ∧
    (∀ (inputs : List DragInput), ∀ step ∈ selection_run g cfg DragState.initial inputs,
      step.state.dragging = false →
      step.state.status = UNAWARE ∧ step.state.previous_window = None ∧
        step.state.previous_version = -1) ∧
    (∀ (disp : Display) (ptr : Pointer) (st : DragState) (e : XEvent),
      st.dragging = false → (selection_event g cfg disp ptr st e).state.dragging = true →
      e = XEvent.MotionNotify ∧ ptr.grab_success = true ∧
        (selection_event g cfg disp ptr st e).state = { st with dragging := true } ∧
        (selection_event g cfg disp ptr st e).state.status = st.status) ∧
    (∀ (disp : Display) (ptr : Pointer) (st : DragState),
      st.dragging = false → ptr.grab_success = false →
      (selection_event g cfg disp ptr st XEvent.MotionNotify).state = st ∧
        (selection_event g cfg disp ptr st XEvent.MotionNotify).requests = [] ∧
        (selection_event g cfg disp ptr st XEvent.MotionNotify).calls = []) := by
  refine ⟨⟨rfl, rfl, rfl⟩, ?_, ?_, ?_⟩
  · intro inputs step hstep hd
    exact (selection_run_inv g cfg inputs DragState.initial DragInv.initial step hstep).1.1 hd
  · intro disp ptr st e hd hnext
    cases e with
    | SelectionClear => exact absurd (hd.symm.trans hnext) (by decide)
    | SelectionRequest r => exact absurd (hd.symm.trans hnext) (by decide)
    | SelectionNotify n => exact absurd (hd.symm.trans hnext) (by decide)
    | Other => exact absurd (hd.symm.trans hnext) (by decide)
    | ButtonRelease button =>
      have : (selection_event g cfg disp ptr st (XEvent.ButtonRelease button)).state = st := by
        simp [selection_event, hd]
      rw [this] at hnext
      exact absurd (hd.symm.trans hnext) (by decide)
    | ClientMessage x =>
      have : (selection_event g cfg disp ptr st (XEvent.ClientMessage x)).state = st := by
        by_cases hs : x.message_type = g.XA_XdndStatus <;>
          simp [selection_event, hs, selection_status, hd]
      rw [this] at hnext
      exact absurd (hd.symm.trans hnext) (by decide)
    | MotionNotify =>
      by_cases hg : ptr.grab_success = true
      · refine ⟨rfl, hg, ?_, ?_⟩ <;> simp [selection_event, hd, hg]
      · have : (selection_event g cfg disp ptr st XEvent.MotionNotify).state = st := by
          simp [selection_event, hd, hg]
        rw [this] at hnext
        exact absurd (hd.symm.trans hnext) (by decide)
  · intro disp ptr st hd hg
    simp [selection_event, hd, hg]

/-- C22 in the scenario session: after the drag of the scenario the state is the initial
one up to the window `None`; a first motion with a successful grab only sets the flag, and
one with a failed grab changes nothing. -/
theorem selection_run_no_session_scenario :
    ((selection_run scenario_globals scenario_drag_config DragState.initial
        scenario_drag_inputs).map (fun s => s.state) =
      [{ dragging := true, previous_window := 0, previous_version := -1, status := UNAWARE },
       { dragging := true, previous_window := 8, previous_version := 5,
         status := UNRECEPTIVE },
       { dragging := true, previous_window := 8, previous_version := 5, status := CAN_DROP },
       { dragging := true, previous_window := 9, previous_version := 5, status := CAN_DROP },
       { dragging := false, previous_window := None, previous_version := -1,
         status := UNAWARE }]) ∧
    (∀ step ∈ selection_run scenario_globals scenario_drag_config DragState.initial
        scenario_drag_inputs,
      step.state.dragging = false →
      step.state.status = UNAWARE ∧ step.state.previous_window = None ∧
        step.state.previous_version = -1) ∧
    (selection_event scenario_globals scenario_drag_config scenario_display_aware
        pointer_grab_fails DragState.initial XEvent.MotionNotify).state = DragState.initial :=
  ⟨by decide,
   (selection_run_no_session scenario_globals scenario_drag_config).2.1 scenario_drag_inputs,
   ((selection_run_no_session scenario_globals scenario_drag_config).2.2.2
     scenario_display_aware pointer_grab_fails DragState.initial rfl rfl).1⟩

/-- C23. One motion sample during an active drag sends, in this order: a Leave to the
previous window iff the resolved window differs from it and the previous version is not -1;
an Enter to the resolved window iff it differs from the previous one and its version is not
-1; a Position to the resolved window, with the copy action, iff its version is not -1,
whatever the status and whether or not the window changed. Afterwards the recorded window
and version are those of the resolved window. -/
theorem selection_event_motion_messages (g : Globals) (cfg : DragConfig) (disp : Display)
    (ptr : Pointer) (st : DragState) (hd : st.dragging = true) :
    (selection_event g cfg disp ptr st XEvent.MotionNotify).requests =
      (if find_app_window g disp cfg.root ptr.children ≠ st.previous_window ∧
            st.previous_version ≠ -1 then
          [XRequest.SendEvent st.previous_window false 0
            (XEvent.ClientMessage
              { window := st.previous_window, message_type := g.XA_XdndLeave, format := 32,
                l0 := long_of cfg.w, l1 := 0, l2 := 0, l3 := 0, l4 := 0 })]
        else []) ++
      (if find_app_window g disp cfg.root ptr.children ≠ st.previous_window ∧
            motion_version g disp st (find_app_window g disp cfg.root ptr.children) ≠ -1 then
          [XRequest.SendEvent (find_app_window g disp cfg.root ptr.children) false 0
            (XEvent.ClientMessage
              (enter_message g cfg (find_app_window g disp cfg.root ptr.children)
                (motion_version g disp st (find_app_window g disp cfg.root ptr.children))))]
        else []) ++
      (if motion_version g disp st (find_app_window g disp cfg.root ptr.children) ≠ -1 then
          [XRequest.SendEvent (find_app_window g disp cfg.root ptr.children) false 0
            (XEvent.ClientMessage
              { window := find_app_window g disp cfg.root ptr.children,
                message_type := g.XA_XdndPosition, format := 32,
                l0 := long_of cfg.w, l1 := 0,
                l2 := Int.lor (wrap_int (ptr.x * 65536)) ptr.y,
                l3 := long_of CurrentTime, l4 := long_of g.XA_XdndActionCopy })]
        else []) ∧
    (enter_message g cfg (find_app_window g disp cfg.root ptr.children)
        (motion_version g disp st (find_app_window g disp cfg.root ptr.children))).message_type
      = g.XA_XdndEnter ∧
    (enter_message g cfg (find_app_window g disp cfg.root ptr.children)
        (motion_version g disp st (find_app_window g disp cfg.root ptr.children))).window
      = find_app_window g disp cfg.root ptr.children ∧
    (selection_event g cfg disp ptr st XEvent.MotionNotify).state.previous_window =
      find_app_window g disp cfg.root ptr.children ∧
    (selection_event g cfg disp ptr st XEvent.MotionNotify).state.previous_version =
      motion_version g disp st (find_app_window g disp cfg.root ptr.children) ∧
    (selection_event g cfg disp ptr st XEvent.MotionNotify).state.dragging = true := by
  refine ⟨?_, rfl, rfl, ?_, ?_, ?_⟩ <;>
    simp [selection_event, hd, selection_motion, leave_message, position_message]

/-- C23 in the scenario session: a sample that moves from the aware window 8 to the aware
window 9 sends Leave to 8, Enter to 9 and Position to 9; a second sample over 9 sends only
Position to 9. -/
theorem selection_event_motion_messages_scenario :
    ((selection_event scenario_globals scenario_drag_config scenario_display_aware
        (pointer_over 9)
        { dragging := true, previous_window := 8, previous_version := 5, status := CAN_DROP }
        XEvent.MotionNotify).requests.map
      (fun r => match r with
        | XRequest.SendEvent w _ _ (XEvent.ClientMessage m) => (w, m.message_type, m.l4)
        | _ => (0, 0, 0))) = [(8, 113, 0), (9, 112, 0), (9, 115, 116)] ∧
    ((selection_event scenario_globals scenario_drag_config scenario_display_aware
        (pointer_over 9)
        { dragging := true, previous_window := 9, previous_version := 5, status := CAN_DROP }
        XEvent.MotionNotify).requests.map
      (fun r => match r with
        | XRequest.SendEvent w _ _ (XEvent.ClientMessage m) => (w, m.message_type, m.l4)
        | _ => (0, 0, 0))) = [(9, 115, 116)] ∧
    (selection_event scenario_globals scenario_drag_config scenario_display_aware
        (pointer_over 9)
        { dragging := true, previous_window := 8, previous_version := 5, status := CAN_DROP }
        XEvent.MotionNotify).state.previous_window = 9 := by
  have h := selection_event_motion_messages scenario_globals scenario_drag_config
    scenario_display_aware (pointer_over 9)
    { dragging := true, previous_window := 8, previous_version := 5, status := CAN_DROP } rfl
  refine ⟨by decide, by decide, ?_⟩
  rw [h.2.2.2.1]
  decide

/-! ## The drag source: the Enter message -/

theorem enter_word_value (m f : Int) (hm : 0 ≤ m ∧ m ≤ 5) (hf : f = 0 ∨ f = 1) :
    Int.lor (wrap_int (m * 16777216)) f = m * 16777216 + f := by
  have h6 : m = 0 ∨ m = 1 ∨ m = 2 ∨ m = 3 ∨ m = 4 ∨ m = 5 := by omega
  rcases h6 with h | h | h | h | h | h <;> rcases hf with h' | h' <;> subst h <;> subst h' <;>
    decide

theorem long_of_small (n : Nat) (h : n < 9223372036854775808) : long_of n = n := by
  unfold long_of wrap_long
  omega

theorem type_word_eq (M : StdMap Atom (List Nat)) (i : Nat) :
    (if M.size > i then long_of (M.keys.getD i 0) else 0) =
      (match M.keys[i]? with
       | some k => long_of k
       | none => 0) := by
  have hlen : M.keys.length = M.size := by simp [StdMap.keys, StdMap.size]
  by_cases h : M.size > i
  · have hi : i < M.keys.length := by omega
    simp [h, List.getD, List.getElem?_eq_getElem hi]
  · have hi : M.keys.length ≤ i := by omega
    simp [h, List.getElem?_eq_none hi]

/-- C24. For every data map and every version `v ≥ 0` the second word of the Enter message is
`min(5, v)` shifted left by 24 bits, OR-ed with a flag in bit 0 that is 1 exactly when the map
has more than three formats: its value is `min(5, v) * 2^24 + flag`, so the top byte is
`min(5, v)` and bit 0 the flag. The three type words are the first three keys of the map in
key order, and 0 (`None`) in each slot for which the map has no key. -/
theorem enter_message_words (g : Globals) (cfg : DragConfig) (window : Window) (v : Int)
    (hv : 0 ≤ v) :
    (enter_message g cfg window v).l1 =
      Int.lor (min 5 v * 16777216) (if cfg.typed_data.size > 3 then 1 else 0) ∧
    (enter_message g cfg window v).l1 =
      min 5 v * 16777216 + (if cfg.typed_data.size > 3 then 1 else 0) ∧
    (enter_message g cfg window v).l1 / 16777216 = min 5 v ∧
    ((enter_message g cfg window v).l1 % 2 = 1 ↔ cfg.typed_data.size > 3) ∧
    ((enter_message g cfg window v).l1 % 2 = 0 ↔ ¬ cfg.typed_data.size > 3) ∧
    (enter_message g cfg window v).l2 =
      (match cfg.typed_data.keys[0]? with
       | some k => long_of k
       | none => 0) ∧
    (enter_message g cfg window v).l3 =
      (match cfg.typed_data.keys[1]? with
       | some k => long_of k
       | none => 0) ∧
    (enter_message g cfg window v).l4 =
      (match cfg.typed_data.keys[2]? with
       | some k => long_of k
       | none => 0) ∧
    (∀ k : Atom, k < 9223372036854775808 → long_of k = k) ∧
    (long_of None = 0) := by
  have hm : 0 ≤ min 5 v ∧ min 5 v ≤ 5 := by omega
  have hw : wrap_int (min 5 v * 16777216) = min 5 v * 16777216 := by
    unfold wrap_int
    omega
  have h1 : (enter_message g cfg window v).l1 =
      min 5 v * 16777216 + (if cfg.typed_data.size > 3 then 1 else 0) := by
    show Int.lor (wrap_int (min 5 v * 16777216)) (if cfg.typed_data.size > 3 then 1 else 0) = _
    apply enter_word_value _ _ hm
    by_cases h : cfg.typed_data.size > 3 <;> simp [h]
  refine ⟨?_, h1, ?_, ?_, ?_, type_word_eq _ 0, type_word_eq _ 1, type_word_eq _ 2,
    long_of_small, by decide⟩
  · show Int.lor (wrap_int (min 5 v * 16777216)) (if cfg.typed_data.size > 3 then 1 else 0) = _
    rw [hw]
  · rw [h1]
    by_cases h : cfg.typed_data.size > 3 <;> simp [h]
    omega
  · rw [h1]
    by_cases h : cfg.typed_data.size > 3 <;> simp [h] <;> omega
  · rw [h1]
    by_cases h : cfg.typed_data.size > 3 <;> simp [h] <;> omega

/-- C24 in the scenario session: for the two formats of the scenario and a window of version
7 the Enter message carries version 5 in the top byte, a clear flag, the two keys 31 and 102
and `None` in the third slot. -/
theorem enter_message_words_scenario :
    (0 : Int) ≤ 7 ∧
    (enter_message scenario_globals scenario_drag_config 8 7).l1 = 5 * 16777216 ∧
    (enter_message scenario_globals scenario_drag_config 8 7).l2 = 31 ∧
    (enter_message scenario_globals scenario_drag_config 8 7).l3 = 102 ∧
    (enter_message scenario_globals scenario_drag_config 8 7).l4 = 0 := by
  have h := enter_message_words scenario_globals scenario_drag_config 8 7 (by decide)
  refine ⟨by decide, ?_, ?_, ?_, ?_⟩
  · rw [h.2.1]
    decide
  · rw [h.2.2.2.2.2.1]
    decide
  · rw [h.2.2.2.2.2.2.1]
    decide
  · rw [h.2.2.2.2.2.2.2.1]
    decide

/-! ## The drag source: reachable states -/

/-- C27. The initial state of the drag source and every state reached from it, over every
sequence of events, has status `UNAWARE` if and only if the recorded version of the current
window is -1; equivalently the status is `UNRECEPTIVE` or `CAN_DROP` exactly when the
recorded version is not -1. -/
theorem selection_run_status_unaware_iff (g : Globals) (cfg : DragConfig)
    (inputs : List DragInput) :
    (DragState.initial.status = UNAWARE ↔ DragState.initial.previous_version = -1) ∧
    ∀ step ∈ selection_run g cfg DragState.initial inputs,
      (step.state.status = UNAWARE ↔ step.state.previous_version = -1) ∧
      (step.state.status = UNRECEPTIVE ∨ step.state.status = CAN_DROP ↔
        step.state.previous_version ≠ -1) := by
  refine ⟨⟨fun _ => rfl, fun _ => rfl⟩, ?_⟩
  intro step hstep
  have hinv := (selection_run_inv g cfg inputs DragState.initial DragInv.initial step hstep).1
  obtain ⟨_, hiff, h3, _⟩ := hinv
  refine ⟨hiff, ?_, ?_⟩
  · intro h hv
    have hU := hiff.2 hv
    rcases h with h | h
    · rw [hU] at h
      exact absurd h (by decide)
    · rw [hU] at h
      exact absurd h (by decide)
  · intro hv
    rcases h3 with h | h | h
    · exact absurd (hiff.1 h) hv
    · exact Or.inl h
    · exact Or.inr h

/-- C28. Over every sequence of events from the initial state, in every state reached a
recorded version other than -1, and so a status other than `UNAWARE`, comes with a current
window other than `None`; and every client message the drag source sends (Leave, Enter,
Position and Drop are the only ones) is addressed to a window other than `None`, which is
also the `window` field of the message. -/
theorem selection_run_no_message_to_none (g : Globals) (cfg : DragConfig)
    (inputs : List DragInput) :
    ∀ step ∈ selection_run g cfg DragState.initial inputs,
      (step.state.previous_version ≠ -1 → step.state.previous_window ≠ None) ∧
      (step.state.status = CAN_DROP → step.state.previous_window ≠ None) ∧
      (∀ (w : Window) (propagate : Bool) (mask : Nat) (m : XClientMessageEvent),
        XRequest.SendEvent w propagate mask (XEvent.ClientMessage m) ∈ step.requests →
        w ≠ None ∧ m.window = w) := by
  intro step hstep
  have h := selection_run_inv g cfg inputs DragState.initial DragInv.initial step hstep
  obtain ⟨⟨_, hiff, _, hw⟩, hmsg⟩ := h
  refine ⟨hw, ?_, hmsg⟩
  intro hC
  apply hw
  intro hv
  have hU := hiff.2 hv
  rw [hU] at hC
  exact absurd hC (by decide)

/-- C27 in the scenario session: after the accepting status of window 8 the state has
status `CAN_DROP` and version 5, and after the release it has status `UNAWARE` and version
-1. -/
theorem selection_run_status_unaware_iff_scenario :
    (selection_run scenario_globals scenario_drag_config DragState.initial
        scenario_drag_inputs)[2]? =
      some (selection_event scenario_globals scenario_drag_config scenario_display_aware
        (pointer_over 8)
        { dragging := true, previous_window := 8, previous_version := 5,
          status := UNRECEPTIVE }
        (XEvent.ClientMessage scenario_status_accept)) ∧
    ((selection_event scenario_globals scenario_drag_config scenario_display_aware
        (pointer_over 8)
        { dragging := true, previous_window := 8, previous_version := 5,
          status := UNRECEPTIVE }
        (XEvent.ClientMessage scenario_status_accept)).state.status = UNAWARE ↔
      (selection_event scenario_globals scenario_drag_config scenario_display_aware
        (pointer_over 8)
        { dragging := true, previous_window := 8, previous_version := 5,
          status := UNRECEPTIVE }
        (XEvent.ClientMessage scenario_status_accept)).state.previous_version = -1) :=
  ⟨rfl,
   ((selection_run_status_unaware_iff scenario_globals scenario_drag_config
      scenario_drag_inputs).2 _
      (List.getElem?_mem
        (show (selection_run scenario_globals scenario_drag_config DragState.initial
          scenario_drag_inputs)[2]? = some _ from rfl))).1⟩

/-- C28 in the scenario session: the last round of the scenario drag sends one Drop, to
window 9, and no message of the round is addressed to `None`. -/
theorem selection_run_no_message_to_none_scenario :
    (selection_run scenario_globals scenario_drag_config DragState.initial
        scenario_drag_inputs)[4]? =
      some (selection_event scenario_globals scenario_drag_config scenario_display_aware
        (pointer_over 9)
        { dragging := true, previous_window := 9, previous_version := 5, status := CAN_DROP }
        (XEvent.ButtonRelease 1)) ∧
    (selection_event scenario_globals scenario_drag_config scenario_display_aware
        (pointer_over 9)
        { dragging := true, previous_window := 9, previous_version := 5, status := CAN_DROP }
        (XEvent.ButtonRelease 1)).requests =
      [XRequest.SendEvent 9 false 0
        (XEvent.ClientMessage (drop_message scenario_globals scenario_drag_config 9))] ∧
    (∀ (w : Window) (propagate : Bool) (mask : Nat) (m : XClientMessageEvent),
      XRequest.SendEvent w propagate mask (XEvent.ClientMessage m) ∈
        (selection_event scenario_globals scenario_drag_config scenario_display_aware
          (pointer_over 9)
          { dragging := true, previous_window := 9, previous_version := 5,
            status := CAN_DROP }
          (XEvent.ButtonRelease 1)).requests →
      w ≠ None ∧ m.window = w) :=
  ⟨rfl, by decide,
   (selection_run_no_message_to_none scenario_globals scenario_drag_config
      scenario_drag_inputs _
      (List.getElem?_mem
        (show (selection_run scenario_globals scenario_drag_config DragState.initial
          scenario_drag_inputs)[4]? = some _ from rfl))).2.2⟩

/-- C29. The status after a motion sample of an active drag is a function of the status
before and of whether the resolved window is aware (its version is not -1), whether or not
the window changed: not aware gives `UNAWARE`; aware with status `UNAWARE` gives
`UNRECEPTIVE`; aware with any other status leaves the status as it was. Hence in the
scenario drag (first motion, motion onto the aware window 8, accepting Status from 8, motion
onto the aware window 9, release of button 1) the status is still `CAN_DROP` on window 9 and
a Drop is sent to window 9, although the only Status message came from window 8. -/
theorem selection_event_motion_status (g : Globals) (cfg : DragConfig) :
    (∀ (disp : Display) (ptr : Pointer) (st : DragState), st.dragging = true →
      (selection_event g cfg disp ptr st XEvent.MotionNotify).state.status =
        (if motion_version g disp st (find_app_window g disp cfg.root ptr.children) = -1
          then UNAWARE
         else if st.status = UNAWARE then UNRECEPTIVE
         else st.status)) ∧
    (selection_run scenario_globals scenario_drag_config DragState.initial
        scenario_drag_inputs).length = 5 ∧
    scenario_drag_inputs.map (fun i => i.e) =
      [XEvent.MotionNotify, XEvent.MotionNotify, XEvent.ClientMessage scenario_status_accept,
       XEvent.MotionNotify, XEvent.ButtonRelease 1] ∧
    ulong_of scenario_status_accept.l0 = 8 ∧
    scenario_display_aware.properties 8 scenario_globals.XA_XdndAware =
      some { type := 4, format := 32, data := [5] } ∧
    scenario_display_aware.properties 9 scenario_globals.XA_XdndAware =
      some { type := 4, format := 32, data := [5] } ∧
    (selection_run scenario_globals scenario_drag_config DragState.initial
        scenario_drag_inputs).map (fun s => s.state) =
      [{ dragging := true, previous_window := 0, previous_version := -1, status := UNAWARE },
       { dragging := true, previous_window := 8, previous_version := 5,
         status := UNRECEPTIVE },
       { dragging := true, previous_window := 8, previous_version := 5, status := CAN_DROP },
       { dragging := true, previous_window := 9, previous_version := 5, status := CAN_DROP },
       { dragging := false, previous_window := None, previous_version := -1,
         status := UNAWARE }] ∧
    (selection_run scenario_globals scenario_drag_config DragState.initial
        scenario_drag_inputs).map (fun s => s.requests) =
      [[],
       [XRequest.SendEvent 8 false 0
          (XEvent.ClientMessage (enter_message scenario_globals scenario_drag_config 8 5)),
        XRequest.SendEvent 8 false 0
          (XEvent.ClientMessage
            (position_message scenario_globals scenario_drag_config 8 10 20))],
       [],
       [XRequest.SendEvent 8 false 0
          (XEvent.ClientMessage (leave_message scenario_globals scenario_drag_config 8)),
        XRequest.SendEvent 9 false 0
          (XEvent.ClientMessage (enter_message scenario_globals scenario_drag_config 9 5)),
        XRequest.SendEvent 9 false 0
          (XEvent.ClientMessage
            (position_message scenario_globals scenario_drag_config 9 10 20))],
       [XRequest.SendEvent 9 false 0
          (XEvent.ClientMessage (drop_message scenario_globals scenario_drag_config 9))]] ∧
    (drop_message scenario_globals scenario_drag_config 9).message_type =
      scenario_globals.XA_XdndDrop := by
  refine ⟨?_, by decide, by decide, by decide, by decide, by decide, by decide, by decide,
    rfl⟩
  intro disp ptr st hd
  by_cases hv : motion_version g disp st (find_app_window g disp cfg.root ptr.children) = -1
  · simp [selection_event, hd, selection_motion, hv]
  · by_cases hU : st.status = UNAWARE <;>
      simp [selection_event, hd, selection_motion, hv, hU]

/-- C29 at a sample: a motion from the aware window 8 onto the aware window 9 with status
`CAN_DROP` leaves the status `CAN_DROP`. -/
theorem selection_event_motion_status_scenario :
    (selection_event scenario_globals scenario_drag_config scenario_display_aware
        (pointer_over 9)
        { dragging := true, previous_window := 8, previous_version := 5, status := CAN_DROP }
        XEvent.MotionNotify).state.status = CAN_DROP := by
  rw [(selection_event_motion_status scenario_globals scenario_drag_config).1
    scenario_display_aware (pointer_over 9)
    { dragging := true, previous_window := 8, previous_version := 5, status := CAN_DROP } rfl]
  decide

/-! ## The consumer: the priority table -/

theorem lookup_assign_entries {K V : Type} [DecidableEq K] [LT K]
    [DecidableRel (fun a b : K => a < b)] (k k' : K) (v : V) (l : List (K × V)) :
    StdMap.lookup k' (StdMap.assign_entries k v l) =
      if k' = k then some v else StdMap.lookup k' l := by
  induction l with
  | nil =>
    by_cases h : k' = k
    · subst h
      simp [StdMap.assign_entries, StdMap.lookup]
    · have h' : ¬ k = k' := fun e => h e.symm
      simp [StdMap.assign_entries, StdMap.lookup, h, h']
  | cons hd tl ih =>
    obtain ⟨a, b⟩ := hd
    by_cases h1 : a = k
    · subst h1
      by_cases h : k' = a
      · subst h
        simp [StdMap.assign_entries, StdMap.lookup]
      · have h' : ¬ a = k' := fun e => h e.symm
        simp [StdMap.assign_entries, StdMap.lookup, h, h']
    · by_cases h2 : k < a
      · by_cases h : k' = k
        · subst h
          simp [StdMap.assign_entries, StdMap.lookup, h1, h2]
        · have h' : ¬ k = k' := fun e => h e.symm
          simp [StdMap.assign_entries, StdMap.lookup, h1, h2, h, h']
      · by_cases h : k' = k
        · subst h
          simp [StdMap.assign_entries, StdMap.lookup, h1, h2, ih]
        · simp [StdMap.assign_entries, StdMap.lookup, h1, h2, ih, h]

theorem find_assign (m : StdMap String Int) (k k' : String) (v : Int) :
    (m.assign k v).find k' = if k' = k then some v else m.find k' := by
  simp [StdMap.find, StdMap.assign, lookup_assign_entries]

theorem assign_entries_ne_nil {K V : Type} [DecidableEq K] [LT K]
    [DecidableRel (fun a b : K => a < b)] (k : K) (v : V) (l : List (K × V)) :
    StdMap.assign_entries k v l ≠ [] := by
  cases l with
  | nil => simp [StdMap.assign_entries]
  | cons hd tl =>
    obtain ⟨a, b⟩ := hd
    simp only [StdMap.assign_entries]
    split_ifs <;> simp

theorem datatypes_loop_entries_ne_nil (args : List String) :
    ∀ (i : Int) (d : StdMap String Int), (args ≠ [] ∨ d.entries ≠ []) →
      (datatypes_loop args i d).entries ≠ [] := by
  induction args with
  | nil =>
    intro i d h
    rcases h with h | h
    · exact absurd rfl h
    · simpa [datatypes_loop] using h
  | cons a rest ih =>
    intro i d _
    simp only [datatypes_loop]
    apply ih
    right
    exact assign_entries_ne_nil _ _ _

theorem datatypes_loop_find_not_mem (args : List String) (name : String) :
    ∀ (i : Int) (d : StdMap String Int), name ∉ args →
      (datatypes_loop args i d).find name = d.find name := by
  induction args with
  | nil =>
    intro i d _
    rfl
  | cons a rest ih =>
    intro i d h
    have ha : name ≠ a := fun e => h (by simp [e])
    have hr : name ∉ rest := fun e => h (by simp [e])
    simp only [datatypes_loop]
    rw [ih _ _ hr, find_assign, if_neg ha]

theorem datatypes_loop_find_last (args : List String) (name : String) :
    ∀ (i : Int) (d : StdMap String Int) (idx : Nat), IsLastOccurrence args name idx →
      (datatypes_loop args i d).find name = some (i + idx) := by
  induction args with
  | nil =>
    intro i d idx h
    simp [IsLastOccurrence] at h
  | cons a rest ih =>
    intro i d idx h
    obtain ⟨h1, h2⟩ := h
    simp only [datatypes_loop]
    cases idx with
    | zero =>
      have ha : a = name := by simpa using h1
      have hr : name ∉ rest := by
        intro hmem
        obtain ⟨j, hj⟩ := List.getElem?_of_mem hmem
        exact h2 (j + 1) (by omega) (by simpa using hj)
      rw [datatypes_loop_find_not_mem _ _ _ _ hr, find_assign, if_pos ha.symm]
      simp
    | succ n =>
      have hl : IsLastOccurrence rest name n := by
        refine ⟨by simpa using h1, ?_⟩
        intro j hj
        have := h2 (j + 1) (by omega)
        simpa using this
      rw [ih _ _ _ hl]
      congr 1
      push_cast
      ring

theorem main_datatypes_eq (argv : List String) (h : argv.drop 2 ≠ []) :
    main_datatypes argv = datatypes_loop (argv.drop 2) 2 ⟨[]⟩ := by
  have := datatypes_loop_entries_ne_nil (argv.drop 2) 2 ⟨[]⟩ (Or.inl h)
  simp [main_datatypes, StdMap.empty, this]

theorem main_datatypes_find_last (argv : List String) (name : String) (idx : Nat)
    (h : IsLastOccurrence (argv.drop 2) name idx) :
    (main_datatypes argv).find name = some (2 + (idx : Int)) := by
  have hne : argv.drop 2 ≠ [] := by
    intro e
    rw [e] at h
    simp [IsLastOccurrence] at h
  rw [main_datatypes_eq argv hne]
  exact datatypes_loop_find_last _ _ _ _ _ h

theorem nodup_last_occurrence (names : List String) (hn : names.Nodup) (i : Nat)
    (hi : i < names.length) : IsLastOccurrence names names[i] i := by
  refine ⟨List.getElem?_eq_getElem hi, ?_⟩
  intro j hj hjn
  have hjl : j < names.length := by
    by_contra hc
    rw [List.getElem?_eq_none (by omega)] at hjn
    cases hjn
  rw [List.getElem?_eq_getElem hjl] at hjn
  have := (List.Nodup.getElem_inj_iff hn).1 (Option.some.inj hjn)
  omega

/-- C25 fails as stated. For the names `text/plain`, `image/png`, `text/plain` the table
ranks `text/plain`, the first name of the list, 4 and `image/png`, a different name that
appears later, 3: the later name has the better rank. -/
theorem main_datatypes_repeated_name :
    scenario_argv_repeated.drop 2 = ["text/plain", "image/png", "text/plain"] ∧
    (main_datatypes scenario_argv_repeated).find "text/plain" = some 4 ∧
    (main_datatypes scenario_argv_repeated).find "image/png" = some 3 := by
  refine ⟨rfl, ?_, ?_⟩
  · have h : IsLastOccurrence (scenario_argv_repeated.drop 2) "text/plain" 2 := by
      refine ⟨by decide, ?_⟩
      intro j hj
      rw [List.getElem?_eq_none (by simp [scenario_argv_repeated]; omega)]
      simp
    exact main_datatypes_find_last _ _ _ h
  · have h : IsLastOccurrence (scenario_argv_repeated.drop 2) "image/png" 1 := by
      refine ⟨by decide, ?_⟩
      intro j hj
      by_cases h2 : j = 2
      · subst h2
        decide
      · rw [List.getElem?_eq_none (by simp [scenario_argv_repeated]; omega)]
        simp
    exact main_datatypes_find_last _ _ _ h

/-- C25, amended. The priority table built from the format names on the command line (the
arguments after the role) gives every name the rank 2 plus the index of its last occurrence
in the list, and has no other key when a name is given. So for a list without a repeated
name, a name is ranked strictly better (lower) than every name that appears later, the first
name best. When no format name is given the table is exactly `STRING ↦ 1`. -/
theorem main_datatypes_rank (argv : List String) :
    (∀ (name : String) (idx : Nat), IsLastOccurrence (argv.drop 2) name idx →
      (main_datatypes argv).find name = some (2 + (idx : Int))) ∧
    (argv.drop 2 ≠ [] → ∀ name : String, name ∉ argv.drop 2 →
      (main_datatypes argv).find name = none) ∧
    ((argv.drop 2).Nodup → ∀ (i j : Nat) (hij : i < j) (hj : j < (argv.drop 2).length),
      (main_datatypes argv).find ((argv.drop 2).get ⟨i, Nat.lt_trans hij hj⟩)
        = some (2 + (i : Int)) ∧
      (main_datatypes argv).find ((argv.drop 2).get ⟨j, hj⟩) = some (2 + (j : Int)) ∧
      2 + (i : Int) < 2 + (j : Int)) ∧
    (argv.drop 2 = [] → main_datatypes argv = ⟨[("STRING", 1)]⟩) := by
  refine ⟨fun name idx h => main_datatypes_find_last argv name idx h, ?_, ?_, ?_⟩
  · intro hne name hname
    rw [main_datatypes_eq argv hne, datatypes_loop_find_not_mem _ _ _ _ hname]
    rfl
  · intro hn i j hij hj
    refine ⟨?_, ?_, by omega⟩
    · exact main_datatypes_find_last argv _ i
        (nodup_last_occurrence _ hn i (Nat.lt_trans hij hj))
    · exact main_datatypes_find_last argv _ j (nodup_last_occurrence _ hn j hj)
  · intro he
    simp [main_datatypes, he, datatypes_loop, StdMap.empty, StdMap.assign,
      StdMap.assign_entries]

/-- C25 on two command lines: `text/plain image/png` ranks `text/plain` 2 and `image/png` 3,
and a command line without format names gives the table `STRING ↦ 1`. -/
theorem main_datatypes_rank_scenario :
    (main_datatypes scenario_argv).find "text/plain" = some 2 ∧
    (main_datatypes scenario_argv).find "image/png" = some 3 ∧
    (main_datatypes scenario_argv).find "text/uri-list" = none ∧
    main_datatypes ["paste", "PRIMARY"] = ⟨[("STRING", 1)]⟩ ∧
    main_datatypes ["paste"] = ⟨[("STRING", 1)]⟩ := by
  have hn : (scenario_argv.drop 2).Nodup := by decide
  have h := (main_datatypes_rank scenario_argv).2.2.1 hn 0 1 (by decide) (by decide)
  refine ⟨h.1, h.2.1, ?_, ?_, ?_⟩
  · exact (main_datatypes_rank scenario_argv).2.1 (by decide) "text/uri-list" (by decide)
  · exact (main_datatypes_rank ["paste", "PRIMARY"]).2.2.2 rfl
  · exact (main_datatypes_rank ["paste"]).2.2.2 rfl

/-! ## The consumer: termination of `read_property` -/

theorem wrap_int_small (n : Nat) (h : n < 2147483648) : wrap_int n = n := by
  unfold wrap_int
  omega

theorem long_data_length : long_data.length = 5000 := List.length_replicate 5000 0

theorem huge_data_length : huge_data.length = 2147483648 :=
  List.length_replicate 2147483648 0

/-- C26 fails as stated. For a property of `2^31` bytes of width 8 the probes are those of
1024, 2048, ... up to `2^29` elements, the last one reports no unread bytes and `2^31`
elements, and the `Property` returned holds all the bytes, but its element count is
-2147483648, not the count the probe reported: the field `nitems` is an `int`. -/
theorem read_property_count_out_of_int :
    scenario_display_huge.properties 7 1 =
      some { type := 31, format := 8, data := huge_data } ∧
    huge_data.length = 2147483648 ∧
    read_property_probes scenario_display_huge 7 1 =
      (List.range 20).map (fun i => 1024 * 2 ^ i) ∧
    (probe scenario_display_huge 7 1 19).bytes_after = 0 ∧
    (probe scenario_display_huge 7 1 19).nitems = 2147483648 ∧
    read_property scenario_display_huge 7 1 =
      some { data := huge_data, format := 8, nitems := -2147483648, type := 31 } := by
  have hv : scenario_display_huge.properties 7 1 =
      some { type := 31, format := 8, data := huge_data } := rfl
  have hlen : (StoredProperty.mk 31 8 huge_data).data.length = 2147483648 :=
    huge_data_length
  have hN : (StoredProperty.mk 31 8 huge_data).data.length *
      ((StoredProperty.mk 31 8 huge_data).format / 8) = 2147483648 := by
    rw [hlen]
    norm_num
  have hinc : ∀ i, i < 19 → (probe scenario_display_huge 7 1 i).bytes_after ≠ 0 := by
    intro i hi
    rw [probe_bytes_after _ _ _ _ hv i, hN]
    have hpow : 2 ^ i ≤ 2 ^ 18 := Nat.pow_le_pow_right (by norm_num) (by omega)
    have h18 : (2 : Nat) ^ 18 = 262144 := by norm_num
    omega
  have h0 : (probe scenario_display_huge 7 1 19).bytes_after = 0 := by
    rw [probe_bytes_after _ _ _ _ hv 19, hN]
    norm_num
  have hread := read_property_first_complete scenario_display_huge 7 1 19 (by norm_num)
    hinc h0
  have hreply := probe_complete _ _ _ _ hv (by decide) 19 h0
  refine ⟨hv, huge_data_length, hread.1, h0, ?_, ?_⟩
  · rw [hreply]
    exact hlen
  · rw [hread.2, hreply]
    simp only [hlen]
    rfl

/-- C26, amended. Against a store obeying the partial-read contract, for every property that
is absent or holds fewer than `2^31` elements of width 8, 16 or 32, `read_property` returns.
The lengths of its probes are 1024, 2048, 4096, ..., doubling from one probe to the next as
the 32 bit unsigned length of the request, up to the first probe that reports zero unread
bytes, which is one of the first 22; every earlier probe reports unread bytes. The
`Property` returned is built from the reply to that last probe and holds the whole value,
with the type, width and element count the probe reports. -/
theorem read_property_first_complete_probe (disp : Display) (w : Window) (p : Atom)
    (h : ∀ v, disp.properties w p = some v →
      (v.format = 8 ∨ v.format = 16 ∨ v.format = 32) ∧ v.data.length < 2147483648) :
    ∃ k, k ≤ 21 ∧
      read_property_probes disp w p = (List.range (k + 1)).map (fun i => 1024 * 2 ^ i) ∧
      (∀ j, j < k → (probe disp w p j).bytes_after ≠ 0) ∧
      (probe disp w p k).bytes_after = 0 ∧
      read_property disp w p =
        some { data := (probe disp w p k).prop, format := (probe disp w p k).actual_format,
               nitems := (probe disp w p k).nitems,
               type := (probe disp w p k).actual_type } ∧
      (∀ v, disp.properties w p = some v →
        (∀ j, (probe disp w p j).bytes_after =
          v.data.length * (v.format / 8)
            - min (v.data.length * (v.format / 8)) (4 * (1024 * 2 ^ j))) ∧
        (probe disp w p k).prop = v.data ∧ (probe disp w p k).nitems = v.data.length ∧
        (probe disp w p k).actual_format = v.format ∧
        (probe disp w p k).actual_type = v.type) ∧
      (disp.properties w p = none →
        k = 0 ∧ (probe disp w p k).prop = [] ∧ (probe disp w p k).nitems = 0 ∧
        (probe disp w p k).actual_format = 0 ∧ (probe disp w p k).actual_type = None) := by
  cases hprop : disp.properties w p with
  | none =>
    have hp := probe_absent disp w p hprop 0
    have h0 : (probe disp w p 0).bytes_after = 0 := by rw [hp]
    have hread := read_property_first_complete disp w p 0 (by omega)
      (fun i hi => absurd hi (Nat.not_lt_zero i)) h0
    refine ⟨0, by omega, hread.1, ?_, h0, ?_, ?_, ?_⟩
    · intro j hj
      omega
    · rw [hread.2, hp]
      rfl
    · intro v hv
      cases hv
    · intro _
      rw [hp]
      exact ⟨rfl, rfl, rfl, rfl, rfl⟩
  | some v =>
    obtain ⟨hf, hlen⟩ := h v hprop
    have hunit : 1 ≤ v.format / 8 := by
      rcases hf with hf | hf | hf <;> rw [hf] <;> norm_num
    have hN : v.data.length * (v.format / 8) ≤ 8589934592 := by
      rcases hf with hf | hf | hf <;> rw [hf] <;> norm_num <;> omega
    obtain ⟨k, hk, hinc, h0⟩ := first_complete_probe disp w p v hprop hN
    have hread := read_property_first_complete disp w p k hk hinc h0
    have hreply := probe_complete disp w p v hprop hunit k h0
    refine ⟨k, hk, hread.1, hinc, h0, ?_, ?_, ?_⟩
    · rw [hread.2, hreply, wrap_int_small _ hlen]
    · intro v' hv'
      cases hv'
      refine ⟨fun j => probe_bytes_after disp w p v hprop j, ?_⟩
      rw [hreply]
      exact ⟨rfl, rfl, rfl, rfl⟩
    · intro hnone
      cases hnone

/-- C26 on a property of 5000 bytes: `read_property` makes the probes of 1024 and of 2048
elements, the first leaves 904 bytes unread, the second none, and the 5000 bytes are
returned. -/
theorem read_property_first_complete_probe_scenario :
    long_data.length = 5000 ∧
    read_property_probes scenario_display_long 7 1 = [1024, 2048] ∧
    (probe scenario_display_long 7 1 0).bytes_after = 904 ∧
    (probe scenario_display_long 7 1 1).bytes_after = 0 ∧
    read_property scenario_display_long 7 1 =
      some { data := long_data, format := 8, nitems := 5000, type := 31 } ∧
    ∃ k, k ≤ 21 ∧
      read_property_probes scenario_display_long 7 1 =
        (List.range (k + 1)).map (fun i => 1024 * 2 ^ i) ∧
      (∀ j, j < k → (probe scenario_display_long 7 1 j).bytes_after ≠ 0) ∧
      (probe scenario_display_long 7 1 k).bytes_after = 0 ∧
      read_property scenario_display_long 7 1 =
        some { data := (probe scenario_display_long 7 1 k).prop,
               format := (probe scenario_display_long 7 1 k).actual_format,
               nitems := (probe scenario_display_long 7 1 k).nitems,
               type := (probe scenario_display_long 7 1 k).actual_type } := by
  have hv : scenario_display_long.properties 7 1 =
      some { type := 31, format := 8, data := long_data } := rfl
  have hlen : (StoredProperty.mk 31 8 long_data).data.length = 5000 := long_data_length
  have hN : (StoredProperty.mk 31 8 long_data).data.length *
      ((StoredProperty.mk 31 8 long_data).format / 8) = 5000 := by
    rw [hlen]
    norm_num
  have h := read_property_first_complete_probe scenario_display_long 7 1 (by
    intro v hv'
    rw [hv] at hv'
    cases hv'
    refine ⟨Or.inl rfl, ?_⟩
    rw [hlen]
    norm_num)
  obtain ⟨k, hk, hprobes, hlt, h0, hread, _, _⟩ := h
  have hb0 : (probe scenario_display_long 7 1 0).bytes_after = 904 := by
    rw [probe_bytes_after _ _ _ _ hv 0, hN]
    norm_num
  have hb1 : (probe scenario_display_long 7 1 1).bytes_after = 0 := by
    rw [probe_bytes_after _ _ _ _ hv 1, hN]
    norm_num
  have hfirst := read_property_first_complete scenario_display_long 7 1 1 (by norm_num)
    (fun i hi => by
      have hi0 : i = 0 := by omega
      rw [hi0, hb0]
      norm_num) hb1
  refine ⟨long_data_length, ?_, hb0, hb1, ?_, k, hk, hprobes, hlt, h0, hread⟩
  · rw [hfirst.1]
    decide
  · rw [read_property_stored _ _ _ _ hv (by decide) (by rw [hN]; norm_num), hlen]
    rfl

end XClipboard
